import Mathlib

/-!
# KokoSoft/Programmer: the programming facade and the reply processing

A shallow embedding of `Programmer.cpp` (facade `Programmer`, the reply
processing of `NetworkProgrammer`, the device error `ETarget`), of the
exception class of `Exceptions.hpp`, and of the wire constants of
`protocol.hpp`.  The last part embeds the display frame buffer of
`CarPanel.cpp` (`FrameBuffer::set`).

Conventions of the embedding:

* `uint8_t`, `uint32_t`, `size_t` values are natural numbers; the functions
  embedded here only compare them and take remainders, so no wrap-around
  occurs.  A remainder by zero, undefined in C++, ends the operation with
  `Failure.undefined`.  A byte buffer (`std::span<const std::byte>`,
  `std::array<std::byte, N>`) is a list of byte values.
* A C++ function that may throw returns `Except Failure _`; a member function
  that also changes the object returns the new object next to the result, so
  that the changes made before a `throw` stay visible.
* The facade talks to its strategy through virtual calls.  The embedding
  records every such call in a log (`Run.calls`), which is how "the strategy
  is not called" is stated.
-/

set_option linter.dupNamespace false

namespace KokoProgrammer

/-! ## Exceptions (`Exceptions.hpp`, `Network.hpp`, `Programmer.cpp`) -/

/-- The class `Exception` of `Exceptions.hpp`: a message that handlers may
extend.  `ETarget` derives from it and adds the status code reported by the
target; `_status` is `none` for an object that is not an `ETarget`. -/
structure Exception where
  _message : String
  _status : Option Nat := none
deriving DecidableEq, Repr

/-- Member function `Exception::prepend`: insert a blank at the front of the
message, then insert the formatted text at the front. -/
def Exception.prepend (e : Exception) (text : String) : Exception :=
  { e with _message := text ++ (" " ++ e._message) }

/-- Member function `Exception::append`: append a blank, then the formatted text. -/
def Exception.append (e : Exception) (text : String) : Exception :=
  { e with _message := (e._message ++ " ") ++ text }

/-- What a call can end with instead of returning: an `Exception` (or a class
derived from it), a `SocketException` (a `std::system_error`, which
`catch (Exception&)` does not catch), a failed `assert`, or an expression
whose behaviour C++ leaves undefined (a remainder by zero). -/
inductive Failure where
  | exception (e : Exception)
  | socket (call : String)
  | assert_failed (expr : String)
  | undefined (expr : String)
deriving DecidableEq, Repr

/-! ## Descriptors -/

/-- Modelled from the spec: the structure `ProgrammerDescriptor` is declared in
a header that is missing from the sources.  The spec gives it the two
transport limits; `NetworkProgrammer::_prog_desc` initialises them in the
order max_write, max_read. -/
structure ProgrammerDescriptor where
  max_write : Nat
  max_read : Nat
deriving DecidableEq, Repr

/-- Modelled from the spec: `DeviceDescriptor.hpp` is missing from the
sources.  The spec lists device id, display name, revision, WRITE_SIZE and
ERASE_SIZE; the facade reads only the two granularities. -/
structure DeviceDescriptor where
  id : Nat
  name : String
  revision : Nat
  WRITE_SIZE : Nat
  ERASE_SIZE : Nat
deriving DecidableEq, Repr

/-! ## The strategy and the log of calls made to it -/

/-- Modelled from the spec: the interface `IProgrammerStrategy` (its
declaration is missing from the sources): the operations the facade invokes
through `_programmer->`, each returning a value or failing, and the
descriptor passed to its constructor. -/
structure IProgrammerStrategy where
  descriptor : ProgrammerDescriptor
  read : Nat → Nat → Except Failure (List Nat)
  write : Nat → List Nat → Except Failure Unit
  erase : Nat → Except Failure Unit
  chip_erase : Except Failure Unit
  erase_write : Nat → List Nat → Except Failure Unit
  reset : Except Failure Unit
  checksum : Nat → Nat → Except Failure Nat

/-- Member function `IProgrammerStrategy::checksum` of the base class
(`Programmer.cpp`, lines 133-136): the body a strategy inherits when it does
not override the operation. -/
def IProgrammerStrategy.Base.checksum (_address _size : Nat) : Except Failure Nat :=
  .error (.exception { _message := "Operation is not supported." })

/-- Member function `IProgrammerStrategy::chip_erase` of the base class
(`Programmer.cpp`, lines 138-141). -/
def IProgrammerStrategy.Base.chip_erase : Except Failure Unit :=
  .error (.exception { _message := "Operation is not supported." })

/-- Member function `IProgrammerStrategy::erase_write` of the base class
(`Programmer.cpp`, lines 143-146). -/
def IProgrammerStrategy.Base.erase_write (_address : Nat) (_buffer : List Nat) :
    Except Failure Unit :=
  .error (.exception { _message := "Operation is not supported." })

/-- A strategy class that defines `read`, `write`, `erase` and `reset` and
overrides none of `checksum`, `chip_erase`, `erase_write`: a virtual call of
one of those three runs the body of the base class. -/
def IProgrammerStrategy.without_overrides (descriptor : ProgrammerDescriptor)
    (read : Nat → Nat → Except Failure (List Nat))
    (write : Nat → List Nat → Except Failure Unit)
    (erase : Nat → Except Failure Unit) (reset : Except Failure Unit) :
    IProgrammerStrategy :=
  { descriptor := descriptor,
    read := read,
    write := write,
    erase := erase,
    chip_erase := IProgrammerStrategy.Base.chip_erase,
    erase_write := IProgrammerStrategy.Base.erase_write,
    reset := reset,
    checksum := IProgrammerStrategy.Base.checksum }

/-- One virtual call made on the strategy, with its arguments. -/
inductive StrategyCall where
  | read (address size : Nat)
  | write (address : Nat) (buffer : List Nat)
  | erase (address : Nat)
  | chip_erase
  | erase_write (address : Nat) (buffer : List Nat)
  | reset
  | checksum (address size : Nat)
deriving DecidableEq, Repr

/-- The outcome of a facade operation: the value returned or the failure
raised, and the strategy calls made on the way, in order. -/
structure Run (α : Type) where
  result : Except Failure α
  calls : List StrategyCall

/-- The statement `throw Exception(message)` inside a facade operation. -/
def Run.throw {α : Type} (message : String) : Run α :=
  { result := .error (.exception { _message := message }), calls := [] }

/-- A call `_programmer->op(args)`: logged, and its outcome is the outcome of
the operation. -/
def Run.call {α : Type} (c : StrategyCall) (outcome : Except Failure α) : Run α :=
  { result := outcome, calls := [c] }

/-- The C++ expression `a % b` on unsigned operands, followed by the rest of
the operation, which receives its value.  The behaviour is undefined when `b`
is zero: the embedding then stops with `Failure.undefined` and runs nothing
more. -/
def Run.remainder {α : Type} (a b : Nat) (rest : Nat → Run α) : Run α :=
  if b = 0 then
    { result := .error (.undefined "remainder by zero"), calls := [] }
  else
    rest (a % b)

/-- The handler every facade operation ends with:
`catch (Exception& err) { err.prepend(context); throw; }`.  A failure that is
not an `Exception` is not caught. -/
def Run.catch_prepend {α : Type} (r : Run α) (context : String) : Run α :=
  match r.result with
  | .error (.exception err) => { r with result := .error (.exception (err.prepend context)) }
  | _ => r

/-! ## Message formatting (`std::format`) -/

/-- The digits of `n` in base 16, upper case (presentation type `X`). -/
def hex_upper (n : Nat) : List Char :=
  (Nat.toDigits 16 n).map Char.toUpper

/-- The replacement field `{:#06X}`: prefix `0X`, then the upper-case digits
padded with zeros so that the whole field has at least 6 characters. -/
def format_06X (n : Nat) : String :=
  "0X" ++ String.mk (List.replicate (4 - (hex_upper n).length) '0' ++ hex_upper n)

/-- The replacement field `{:#X}`: prefix `0X`, then the upper-case digits. -/
def format_X (n : Nat) : String :=
  "0X" ++ String.mk (hex_upper n)

/-- Width of `size_t` in bits, for the 64-bit build of the program. -/
def size_t_bits : Nat := 64

/-- The replacement field `{}` for an unsigned integer: decimal digits. -/
def format_dec (n : Nat) : String :=
  toString n

/-! ## The facade `Programmer` (`Programmer.cpp`, lines 14-128) -/

/-- Modelled from the spec: the class `Programmer` is declared in a header that
is missing from the sources.  It owns the strategy `_programmer`; `_device` is the
descriptor `device_descriptor()` points to once a device is bound. -/
structure Programmer where
  _programmer : IProgrammerStrategy
  _device : DeviceDescriptor

/-- Accessor `Programmer::device_descriptor()`, for a bound device. -/
def Programmer.device_descriptor (p : Programmer) : DeviceDescriptor :=
  p._device

/-- Accessor `Programmer::programmer_descriptor()`: the limits of the strategy in use. -/
def Programmer.programmer_descriptor (p : Programmer) : ProgrammerDescriptor :=
  p._programmer.descriptor

/-- Facade operation `Programmer::read`. -/
def Programmer.read (p : Programmer) (address size : Nat) : Run (List Nat) :=
  Run.catch_prepend
    (if size > p.programmer_descriptor.max_read then
      Run.throw "Read size exceeds limit."
    else
      Run.call (.read address size) (p._programmer.read address size))
    ("Unable to read " ++ format_dec size ++ " bytes from address "
      ++ format_06X address ++ ".")

/-- Facade operation `Programmer::write`. -/
def Programmer.write (p : Programmer) (address : Nat) (buffer : List Nat) : Run Unit :=
  Run.catch_prepend
    (Run.remainder address p.device_descriptor.WRITE_SIZE fun address_rem =>
      if address_rem ≠ 0 then
        Run.throw "Address isn't aligned to the sector size."
      else Run.remainder buffer.length p.device_descriptor.WRITE_SIZE fun size_rem =>
        if size_rem ≠ 0 then
          Run.throw "Size isn't aligned to the sector size."
        else if buffer.length > p.programmer_descriptor.max_write then
          Run.throw "Size is beyond the capabilities of the programmer."
        else
          Run.call (.write address buffer) (p._programmer.write address buffer))
    ("Write " ++ format_dec buffer.length ++ " bytes at address "
      ++ format_06X address ++ " failed.")

/-- Facade operation `Programmer::erase`. -/
def Programmer.erase (p : Programmer) (address : Nat) : Run Unit :=
  Run.catch_prepend
    (Run.remainder address p.device_descriptor.ERASE_SIZE fun address_rem =>
      if address_rem ≠ 0 then
        Run.throw "Address isn't aligned to erase block."
      else
        Run.call (.erase address) (p._programmer.erase address))
    ("Erase device memory at address " ++ format_06X address ++ " failed.")

/-- Facade operation `Programmer::chip_erase`. -/
def Programmer.chip_erase (p : Programmer) : Run Unit :=
  Run.catch_prepend
    (Run.call .chip_erase p._programmer.chip_erase)
    "Chip erase failed."

/-- Facade operation `Programmer::erase_write`.  The strategy operation it invokes is
`_programmer->write`. -/
def Programmer.erase_write (p : Programmer) (address : Nat) (buffer : List Nat) : Run Unit :=
  Run.catch_prepend
    (Run.remainder address p.device_descriptor.ERASE_SIZE fun address_rem =>
      if address_rem ≠ 0 then
        Run.throw "Address isn't aligned to erase size."
      else Run.remainder buffer.length p.device_descriptor.WRITE_SIZE fun size_rem =>
        if size_rem ≠ 0 then
          Run.throw "Size isn't aligned to the sector size."
        else if buffer.length > p.programmer_descriptor.max_write
            ∨ buffer.length > p.device_descriptor.ERASE_SIZE then
          Run.throw "Size is beyond the capabilities of the programmer."
        else
          Run.call (.write address buffer) (p._programmer.write address buffer))
    ("Erase and write " ++ format_dec buffer.length ++ " bytes at address "
      ++ format_06X address ++ " failed.")

/-- Facade operation `Programmer::reset`. -/
def Programmer.reset (p : Programmer) : Run Unit :=
  Run.catch_prepend
    (Run.call .reset p._programmer.reset)
    "Unable to reset device."

/-- Facade operation `Programmer::checksum`.  The second argument of the
message is `address + size - 1`, computed in `size_t`. -/
def Programmer.checksum (p : Programmer) (address size : Nat) : Run Nat :=
  Run.catch_prepend
    (Run.call (.checksum address size) (p._programmer.checksum address size))
    ("Unable to checksum memory region " ++ format_X address ++ " - "
      ++ format_X ((address + size + (2 ^ size_t_bits - 1)) % 2 ^ size_t_bits) ++ ".")

/-- Whether the operation ended by raising an `Exception`. -/
def Run.raised_exception {α : Type} (r : Run α) : Bool :=
  match r.result with
  | .error (.exception _) => true
  | _ => false

/-- A facade operation failed in its own validation: it raised an `Exception`
and made no call on the strategy. -/
def Run.validation_failed {α : Type} (r : Run α) : Prop :=
  r.calls = [] ∧ r.raised_exception = true

instance {α : Type} (r : Run α) : Decidable r.validation_failed :=
  inferInstanceAs (Decidable (r.calls = [] ∧ r.raised_exception = true))

/-! ## Wire constants (`protocol.hpp`) -/

namespace Protocol

/-- UDP port of the bootloader. -/
def PORT : Nat := 666

/-- Protocol version carried in the first byte of every header. -/
def VERSION : Nat := 1

/-- Enumerators of `enum Operation : uint8_t`, numbered from 0 in
declaration order. -/
def OP_DISCOVER : Nat := 0
def OP_NET_CONFIG : Nat := 1
def OP_READ : Nat := 2
def OP_WRITE : Nat := 3
def OP_ERASE : Nat := 4
def OP_RESET : Nat := 5
def OP_ERASE_WRITE : Nat := 6
def OP_CHIP_ERASE : Nat := 7
def OP_CHECKSUM : Nat := 8

/-- Enumerators of `enum Status : uint8_t`, numbered from 0 in declaration
order (the commented-out `STATUS_DONE` takes no number). -/
def STATUS_REQUEST : Nat := 0
def STATUS_OK : Nat := 1
def STATUS_INPROGRESS : Nat := 2
def STATUS_INV_OP : Nat := 3
def STATUS_INV_PARAM : Nat := 4
def STATUS_INV_SRC : Nat := 5
def STATUS_INV_ADDR : Nat := 6
def STATUS_PKT_SIZE : Nat := 7

/-- Modelled from the spec: the enumerator `STATUS_INV_LENGTH` ("invalid
length"), which `ETarget::ETarget` names and the available `protocol.hpp` does not
declare.  It gets the first number that no declared enumerator uses. -/
def STATUS_INV_LENGTH : Nat := 8

/-- Modelled from the spec: the enumerator `STATUS_PROTECTED_ADDR` ("protected
address"), which `ETarget::ETarget` names and the available `protocol.hpp` does
not declare.  It gets the next free number. -/
def STATUS_PROTECTED_ADDR : Nat := 9

/-- Size of the packed `struct ReplyHeader`: four `be8_t` fields. -/
def sizeof_ReplyHeader : Nat := 4

/-- Size of the packed `struct RequestHeader`: four `be8_t`, one `be32_t`,
one `be16_t`. -/
def sizeof_RequestHeader : Nat := 10

/-- Field `version` of a header laid over a byte buffer (offset 0; the same in
`RequestHeader` and `ReplyHeader`). -/
def Header.version (bytes : List Nat) : Nat := bytes.getD 0 0

/-- Field `seq` of a header laid over a byte buffer (offset 1). -/
def Header.seq (bytes : List Nat) : Nat := bytes.getD 1 0

/-- Field `operation` of a header laid over a byte buffer (offset 2). -/
def Header.operation (bytes : List Nat) : Nat := bytes.getD 2 0

/-- Field `status` of a header laid over a byte buffer (offset 3). -/
def Header.status (bytes : List Nat) : Nat := bytes.getD 3 0

/-- Object representation of a `be32_t` that holds `v` (a `uint32_t`): the four
bytes of `v`, most significant first. -/
def be32_bytes (v : Nat) : List Nat :=
  [v / 2 ^ 24 % 256, v / 2 ^ 16 % 256, v / 2 ^ 8 % 256, v % 256]

/-- Object representation of a `be16_t` that holds `v` (a `uint16_t`): the two
bytes of `v`, most significant first. -/
def be16_bytes (v : Nat) : List Nat :=
  [v / 2 ^ 8 % 256, v % 256]

/-- Value read from a `be32_t` whose bytes are `bytes` (conversion operator of
`bigendian<uint32_t>`). -/
def be32_value (bytes : List Nat) : Nat :=
  bytes.getD 0 0 * 2 ^ 24 + bytes.getD 1 0 * 2 ^ 16 + bytes.getD 2 0 * 2 ^ 8 + bytes.getD 3 0

/-- Value read from a `be16_t` whose bytes are `bytes`. -/
def be16_value (bytes : List Nat) : Nat :=
  bytes.getD 0 0 * 2 ^ 8 + bytes.getD 1 0

/-- Value read from a `le16_t`, a plain `uint16_t`, on the little-endian host the
program is built for: least significant byte first. -/
def le16_value (bytes : List Nat) : Nat :=
  bytes.getD 0 0 + bytes.getD 1 0 * 2 ^ 8

/-- Size of the packed `struct DiscoverReply`: `be16_t`, `be32_t`, `le16_t`. -/
def sizeof_DiscoverReply : Nat := 8

/-- Size of the packed `struct NetworkConfig`: six bytes and a `uint32_t`. -/
def sizeof_NetworkConfig : Nat := 10

/-- Size of `struct Write`: a `be32_t` and 64 bytes. -/
def sizeof_Write : Nat := 68

/-- Size of `struct ChecksumReply`: one `be32_t`. -/
def sizeof_ChecksumReply : Nat := 4

/-- The enumeration `std::endian`; which of the two `std::endian::native` is
depends on the machine the program is built for. -/
inductive endian where
  | little
  | big
deriving DecidableEq, Repr

/-- The `count` low bytes of `v`, least significant first. -/
def le_bytes (count v : Nat) : List Nat :=
  (List.range count).map (fun i => v / 256 ^ i % 256)

/-- The number whose bytes, least significant first, are `bytes`. -/
def le_value (bytes : List Nat) : Nat :=
  bytes.foldr (fun b acc => b + 256 * acc) 0

/-- The function `std::byteswap` on an unsigned integer of `sizeof_T` bytes: the
value whose bytes are those of `v` in reverse order. -/
def byteswap (sizeof_T v : Nat) : Nat :=
  le_value (le_bytes sizeof_T v).reverse

/-- Object representation of an unsigned integer of `sizeof_T` bytes that holds
`v`, on a machine of the given endianness. -/
def object_representation (native : endian) (sizeof_T v : Nat) : List Nat :=
  match native with
  | .little => le_bytes sizeof_T v
  | .big => (le_bytes sizeof_T v).reverse

/-- The value of the unsigned integer whose object representation is `bytes`. -/
def object_value (native : endian) (bytes : List Nat) : Nat :=
  match native with
  | .little => le_value bytes
  | .big => le_value bytes.reverse

/-- Class template `bigendian<T>` (`protocol.hpp`, lines 17-38): one private
member `_value` of type `T`. -/
structure bigendian where
  _value : Nat
deriving DecidableEq, Repr

/-- Assignment `bigendian<T>::operator =(T v)`: the argument is converted to
`T`, and stored byte-swapped when the machine is little-endian. -/
def bigendian.assign (native : endian) (sizeof_T v : Nat) : bigendian :=
  match native with
  | .little => { _value := byteswap sizeof_T (v % 256 ^ sizeof_T) }
  | .big => { _value := v % 256 ^ sizeof_T }

/-- Conversion `bigendian<T>::operator T()`. -/
def bigendian.operator_T (native : endian) (sizeof_T : Nat) (b : bigendian) : Nat :=
  match native with
  | .little => byteswap sizeof_T b._value
  | .big => b._value

/-- Member function `bigendian<T>::native()`: `return *this;`, converted to `T`. -/
def bigendian.native (native : endian) (sizeof_T : Nat) (b : bigendian) : Nat :=
  b.operator_T native sizeof_T

/-- Packed `struct RequestHeader` (`protocol.hpp`, lines 70-79): four `be8_t`
(plain `uint8_t`), a `be32_t` and a `be16_t`. -/
structure RequestHeader where
  version : Nat
  seq : Nat
  operation : Nat
  status : Nat
  address : bigendian
  length : bigendian
deriving DecidableEq, Repr

/-- Packed `struct ReplyHeader` (`protocol.hpp`, lines 81-88). -/
structure ReplyHeader where
  version : Nat
  seq : Nat
  operation : Nat
  status : Nat
deriving DecidableEq, Repr

/-- Assignment of a value to every field of a `RequestHeader`: the `uint8_t`
fields keep the low byte, the other two go through `bigendian<T>::operator =`. -/
def RequestHeader.assign (native : endian)
    (version seq operation status address length : Nat) : RequestHeader :=
  { version := version % 256, seq := seq % 256, operation := operation % 256,
    status := status % 256,
    address := bigendian.assign native 4 address,
    length := bigendian.assign native 2 length }

/-- Object representation of a `RequestHeader`: the fields in declaration
order, without padding (the structure is packed). -/
def RequestHeader.object_representation (native : endian) (h : RequestHeader) : List Nat :=
  [h.version, h.seq, h.operation, h.status]
    ++ Protocol.object_representation native 4 h.address._value
    ++ Protocol.object_representation native 2 h.length._value

/-- The `RequestHeader` seen through `reinterpret_cast<RequestHeader*>` at
the start of a byte buffer. -/
def RequestHeader.overlay (native : endian) (bytes : List Nat) : RequestHeader :=
  { version := bytes.getD 0 0, seq := bytes.getD 1 0, operation := bytes.getD 2 0,
    status := bytes.getD 3 0,
    address := { _value := object_value native ((bytes.drop 4).take 4) },
    length := { _value := object_value native ((bytes.drop 8).take 2) } }

/-- Assignment of a value to every field of a `ReplyHeader`. -/
def ReplyHeader.assign (version seq operation status : Nat) : ReplyHeader :=
  { version := version % 256, seq := seq % 256, operation := operation % 256,
    status := status % 256 }

/-- Object representation of a `ReplyHeader`. -/
def ReplyHeader.object_representation (h : ReplyHeader) : List Nat :=
  [h.version, h.seq, h.operation, h.status]

/-- The `ReplyHeader` seen through `reinterpret_cast<ReplyHeader*>` at the
start of a byte buffer. -/
def ReplyHeader.overlay (bytes : List Nat) : ReplyHeader :=
  { version := bytes.getD 0 0, seq := bytes.getD 1 0, operation := bytes.getD 2 0,
    status := bytes.getD 3 0 }

end Protocol

/-! ## The device error `ETarget` (`Programmer.cpp`, lines 149-180) -/

/-- The labelled statements of the `switch` in `ETarget::ETarget`, in source
order: the case label and the message its assignment stores.  None of them is
followed by `break`.  The statement under `case STATUS_REQUEST: default:`
comes after them (`ETarget.default_message`). -/
def ETarget.cases : List (Nat × String) :=
  [ (Protocol.STATUS_INV_OP, "Operation not supported by the target."),
    (Protocol.STATUS_INV_PARAM, "The target detected an invalid parameter."),
    (Protocol.STATUS_INV_LENGTH, "Invalid operation length."),
    (Protocol.STATUS_INV_ADDR, "Invalid operation address."),
    (Protocol.STATUS_PROTECTED_ADDR, "Forbidden operation address."),
    (Protocol.STATUS_INV_SRC, "Sender aren't permitted to perform this operation."),
    (Protocol.STATUS_PKT_SIZE, "The target reported invalid packet size.") ]

/-- The message assigned under `case STATUS_REQUEST: default:`, the last
statement of the switch. -/
def ETarget.default_message : String := "Target reported an invalid status."

/-- Execution of the switch body on `status`.  `entered` tells whether control
is already inside the body (a label matched earlier); from then on every
assignment runs, because no `break` ends a case.  After the listed cases
control reaches the last statement, either by falling through or by the jump
to `case STATUS_REQUEST: default:`. -/
def ETarget.run_switch (status : Nat) : List (Nat × String) → Bool → String → String
  | [], _, _ => ETarget.default_message
  | (label, text) :: rest, entered, message =>
      if entered ∨ label = status then
        ETarget.run_switch status rest true text
      else
        ETarget.run_switch status rest false message

/-- Constructor `ETarget::ETarget(status)`: `Exception()` leaves the message
empty, `_status(status)` stores the code, then the switch sets the message. -/
def ETarget.ETarget (status : Nat) : Exception :=
  { _message := ETarget.run_switch status ETarget.cases false "",
    _status := some status }

/-! ## The network strategy: buffers and reply processing -/

/-- The fields of `struct sockaddr_in` the program uses. -/
structure sockaddr_in where
  sin_family : Nat
  sin_port : Nat
  sin_addr : Nat
deriving DecidableEq, Repr

/-- Class `NetworkProgrammer::TransmitBuffer`: `_size` bytes of the 128-byte
array `_buffer` form the frame; a `RequestHeader` lies at its start. -/
structure TransmitBuffer where
  _size : Nat
  _buffer : List Nat
deriving DecidableEq, Repr

/-- Accessor `TransmitBuffer::get_operation`. -/
def TransmitBuffer.get_operation (tx : TransmitBuffer) : Nat :=
  Protocol.Header.operation tx._buffer

/-- Accessor `TransmitBuffer::get_sequence`. -/
def TransmitBuffer.get_sequence (tx : TransmitBuffer) : Nat :=
  Protocol.Header.seq tx._buffer

/-- Bytes `bytes` copied into `buffer` from index `start` on; the list keeps its
length (what does not fit is dropped). -/
def overwrite (buffer : List Nat) (start : Nat) (bytes : List Nat) : List Nat :=
  (buffer.take start ++ bytes ++ buffer.drop (start + bytes.length)).take buffer.length

/-- A pointer value as the embedded member functions produce it: the address
of the element `index` of the buffer the function belongs to, or the result of
converting an integer value to a pointer (`reinterpret_cast<T*>(value)`), which
is the address of no object of the program. -/
inductive Pointer where
  | element (index : Nat)
  | from_integer (value : Nat)
deriving DecidableEq, Repr

/-- Member function `TransmitBuffer::select_operation(op, address, length)`
(`Programmer.cpp`, lines 443-449).  The parameters are `uint32_t address` and
`uint16_t length`, so the arguments are reduced to those widths; the header
fields are a `be32_t` at offset 4 and a `be16_t` at offset 8. -/
def TransmitBuffer.select_operation (tx : TransmitBuffer) (op address length : Nat) :
    TransmitBuffer :=
  { _size := Protocol.sizeof_RequestHeader,
    _buffer :=
      overwrite
        (overwrite (tx._buffer.set 2 op) 4 (Protocol.be32_bytes (address % 2 ^ 32)))
        8 (Protocol.be16_bytes (length % 2 ^ 16)) }

/-- Member function `TransmitBuffer::prepare_payload<T>()` (`Programmer.hpp`,
lines 102-113), for a payload type of size `sizeof_T` with operation
`operation`: it stores the operation in the header and sets the frame size to
header plus payload.  Its last statement is
`return reinterpret_cast<T*>(_buffer[sizeof(Protocol::Header)]);`: the operand
is the byte stored behind the header, not its address, so the pointer returned
is made from the value of that byte. -/
def TransmitBuffer.prepare_payload (tx : TransmitBuffer) (sizeof_T operation : Nat) :
    Pointer × TransmitBuffer :=
  (Pointer.from_integer (tx._buffer.getD Protocol.sizeof_RequestHeader 0),
    { _size := Protocol.sizeof_RequestHeader + sizeof_T,
      _buffer := tx._buffer.set 2 operation })

/-- A store of `bytes` through the pointer `p` plus `offset` into the transmit
buffer.  Through a pointer made from an integer the store has undefined
behaviour. -/
def TransmitBuffer.store (tx : TransmitBuffer) (p : Pointer) (offset : Nat)
    (bytes : List Nat) : Except Failure TransmitBuffer :=
  match p with
  | .element index => .ok { tx with _buffer := overwrite tx._buffer (index + offset) bytes }
  | .from_integer _ => .error (.undefined "store through a pointer made from a byte value")

/-- Member function `TransmitBuffer::data()` (`Programmer.cpp`, lines 461-464):
`get_header()->seq++`, on a `uint8_t`, then the span of the first `_size` bytes.
It returns the frame and the buffer after the call. -/
def TransmitBuffer.data (tx : TransmitBuffer) : List Nat × TransmitBuffer :=
  let after : TransmitBuffer :=
    { tx with _buffer := tx._buffer.set 1 ((Protocol.Header.seq tx._buffer + 1) % 256) }
  (after._buffer.take after._size, after)

/-- Constructor `TransmitBuffer::TransmitBuffer()` (`Programmer.cpp`, lines
434-441): `_size(0)`, then the version and the status of the header are set.
The array `_buffer` is not initialised; `indeterminate` stands for the 128
bytes it happens to hold. -/
def TransmitBuffer.construct (indeterminate : List Nat) : TransmitBuffer :=
  { _size := 0,
    _buffer := (indeterminate.set 0 Protocol.VERSION).set 3 Protocol.STATUS_REQUEST }

/-- The transmit buffers the program can come to hold: the one the constructor
leaves, and what `select_operation`, `prepare_payload<T>` and `data` leave
when called on such a buffer. -/
inductive TransmitBuffer.reachable : TransmitBuffer → Prop where
  | constructed (indeterminate : List Nat) (hlength : indeterminate.length = 128) :
      TransmitBuffer.reachable (TransmitBuffer.construct indeterminate)
  | select_operation (tx : TransmitBuffer) (op address length : Nat)
      (h : TransmitBuffer.reachable tx) :
      TransmitBuffer.reachable (tx.select_operation op address length)
  | prepare_payload (tx : TransmitBuffer) (sizeof_T operation : Nat)
      (h : TransmitBuffer.reachable tx) :
      TransmitBuffer.reachable (tx.prepare_payload sizeof_T operation).2
  | data (tx : TransmitBuffer) (h : TransmitBuffer.reachable tx) :
      TransmitBuffer.reachable tx.data.2

/-- Class `NetworkProgrammer::ReceiveBuffer`: the 1500-byte array `_buffer`,
of which the first `_size` bytes are the received datagram; a `ReplyHeader`
lies at its start. -/
structure ReceiveBuffer where
  _size : Nat
  _buffer : List Nat
deriving DecidableEq, Repr

/-- Size of `ReceiveBuffer::_buffer`, a `std::array<std::byte, 1500>`. -/
def ReceiveBuffer.capacity : Nat := 1500

/-- Accessor `ReceiveBuffer::get_operation`. -/
def ReceiveBuffer.get_operation (rx : ReceiveBuffer) : Nat :=
  Protocol.Header.operation rx._buffer

/-- Accessor `ReceiveBuffer::get_sequence`. -/
def ReceiveBuffer.get_sequence (rx : ReceiveBuffer) : Nat :=
  Protocol.Header.seq rx._buffer

/-- Accessor `ReceiveBuffer::get_status`. -/
def ReceiveBuffer.get_status (rx : ReceiveBuffer) : Nat :=
  Protocol.Header.status rx._buffer

/-- Accessor `ReceiveBuffer::get_version`. -/
def ReceiveBuffer.get_version (rx : ReceiveBuffer) : Nat :=
  Protocol.Header.version rx._buffer

/-- Member function `ReceiveBuffer::set_content_length`:
`assert(size <= _buffer.size()); _size = size;`. -/
def ReceiveBuffer.set_content_length (rx : ReceiveBuffer) (size : Nat) :
    Except Failure ReceiveBuffer :=
  if size ≤ ReceiveBuffer.capacity then
    .ok { rx with _size := size }
  else
    .error (.assert_failed "size <= _buffer.size()")

/-- Untyped accessor `ReceiveBuffer::get_payload(op)` (`Programmer.hpp`, lines
145-156).  `sizeof(Protocol::Header)` is the size of the header that lies in
this buffer, the reply header.  The span returned starts behind the header and
has `_buffer.size() - header_size` elements. -/
def ReceiveBuffer.get_payload (rx : ReceiveBuffer) (op : Nat) : Except Failure (List Nat) :=
  if Protocol.sizeof_ReplyHeader ≥ rx._size then
    .error (.exception { _message := "No payload available." })
  else if rx.get_operation ≠ op then
    .error (.exception { _message := "The buffer contains another data type." })
  else
    .ok ((rx._buffer.drop Protocol.sizeof_ReplyHeader).take
      (ReceiveBuffer.capacity - Protocol.sizeof_ReplyHeader))

/-- Typed accessor `ReceiveBuffer::get_payload<T>(op)` (`Programmer.hpp`, lines
134-143), for a payload type of size `sizeof_T`.  After the two checks its
return statement is
`return reinterpret_cast<T*>(_buffer[sizeof(Protocol::Header)]);`: the operand
is the byte stored behind the header, not its address, so the pointer returned
is made from the value of that byte. -/
def ReceiveBuffer.get_payload_typed (rx : ReceiveBuffer) (sizeof_T op : Nat) :
    Except Failure Pointer :=
  if Protocol.sizeof_ReplyHeader + sizeof_T > rx._size then
    .error (.exception { _message := "Not enough data in the buffer." })
  else if rx.get_operation ≠ op then
    .error (.exception { _message := "The buffer contains another data type." })
  else
    .ok (Pointer.from_integer (rx._buffer.getD Protocol.sizeof_ReplyHeader 0))

/-- A read of `count` bytes through the pointer `p` plus `offset` from the
receive buffer.  Through a pointer made from an integer the read has undefined
behaviour. -/
def ReceiveBuffer.load (rx : ReceiveBuffer) (p : Pointer) (offset count : Nat) :
    Except Failure (List Nat) :=
  match p with
  | .element index => .ok ((rx._buffer.drop (index + offset)).take count)
  | .from_integer _ => .error (.undefined "read through a pointer made from a byte value")

/-- The state of the UDP socket as far as the program sets or observes it: the
SO_BROADCAST option and the datagrams `::sendto` has accepted, oldest first,
each with its destination. -/
structure SocketUDP where
  broadcast : Bool
  sent : List (List Nat × sockaddr_in)
deriving DecidableEq, Repr

/-- Member function `SocketUDP::sendto` (`Network.hpp`): throws
`SocketException("sendto")` when `::sendto` reports `SOCKET_ERROR`
(`socket_error`), otherwise the datagram is on its way. -/
def SocketUDP.sendto (socket : SocketUDP) (buf : List Nat) (addr : sockaddr_in)
    (socket_error : Bool) : Except Failure SocketUDP :=
  if socket_error then
    .error (.socket "sendto")
  else
    .ok { socket with sent := socket.sent ++ [(buf, addr)] }

/-- Member function `SocketUDP::set_broadcast` (`Network.hpp`); the `setsockopt`
call is taken to succeed. -/
def SocketUDP.set_broadcast (socket : SocketUDP) (broadcast : Bool) : SocketUDP :=
  { socket with broadcast := broadcast }

/-- What the system call `::recvfrom` reports to `SocketUDP::recvfrom`: either
`SOCKET_ERROR`, or a datagram, which it copies to the start of the caller's
buffer, and the address it came from. -/
inductive Incoming where
  | socket_error
  | datagram (bytes : List Nat) (source : sockaddr_in)
deriving DecidableEq, Repr

/-- Member function `SocketUDP::recvfrom` (`Network.hpp`): throws
`SocketException("recvfrom")` on `SOCKET_ERROR`, otherwise returns the number
of bytes received.  The returned triple is that number, the caller's buffer
after the call (the datagram followed by the old content behind it) and the
source address written through `addr`. -/
def SocketUDP.recvfrom (buf : List Nat) (incoming : Incoming) :
    Except Failure (Nat × List Nat × sockaddr_in) :=
  match incoming with
  | .socket_error => .error (.socket "recvfrom")
  | .datagram bytes source => .ok (bytes.length, bytes ++ buf.drop bytes.length, source)

/-- Identity of the bootloader learned from a `DiscoverReply`. -/
structure BootloaderInfo where
  address : Nat
  version : Nat
  device_id : Nat
deriving DecidableEq, Repr

/-- The values `NetworkProgrammer::process` returns. -/
inductive Result where
  | Ignore
  | ExtendTime
  | Done
deriving DecidableEq, Repr

/-- Data members of `NetworkProgrammer` that the embedded member functions
read or write.  `_dev_desc` is `none` while no device is bound. -/
structure NetworkProgrammer where
  _socket : SocketUDP
  _tx_address : sockaddr_in
  _rx_address : sockaddr_in
  _tx_buf : TransmitBuffer
  _rx_buf : ReceiveBuffer
  _bootloader : BootloaderInfo
  _dev_desc : Option DeviceDescriptor
deriving DecidableEq, Repr

/-- Member function `NetworkProgrammer::process` (`Programmer.cpp`, lines
250-302), run on what `recvfrom` delivers.  It returns the result or the
failure together with the object as the call leaves it. -/
def NetworkProgrammer.process (np : NetworkProgrammer) (incoming : Incoming) :
    Except Failure Result × NetworkProgrammer :=
  match SocketUDP.recvfrom np._rx_buf._buffer incoming with
  | .error failure => (.error failure, np)
  | .ok (size, stored, source) =>
    let np₁ : NetworkProgrammer :=
      { np with _rx_buf := { np._rx_buf with _buffer := stored }, _rx_address := source }
    if size < Protocol.sizeof_ReplyHeader then
      (.error (.exception { _message := "A truncated frame was received." }), np₁)
    else
      match np₁._rx_buf.set_content_length size with
      | .error failure => (.error failure, np₁)
      | .ok rx =>
        let np₂ : NetworkProgrammer := { np₁ with _rx_buf := rx }
        if np₂._rx_buf.get_version ≠ Protocol.VERSION then
          (.error (.exception { _message := "Unsupported protocol version." }), np₂)
        else if np₂._rx_buf.get_sequence ≠ np₂._tx_buf.get_sequence then
          (.ok Result.Ignore, np₂)
        else
          let operation := np₂._rx_buf.get_operation
          if operation ≠ np₂._tx_buf.get_operation then
            (.error (.exception { _message := "Invalid operation code in response." }), np₂)
          else if np₂._rx_buf.get_status = Protocol.STATUS_OK then
            (.ok Result.Done, np₂)
          else if np₂._rx_buf.get_status = Protocol.STATUS_INPROGRESS then
            if operation ≠ Protocol.OP_READ ∧ operation ≠ Protocol.OP_WRITE
                ∧ operation ≠ Protocol.OP_ERASE ∧ operation ≠ Protocol.OP_ERASE_WRITE
                ∧ operation ≠ Protocol.OP_CHIP_ERASE ∧ operation ≠ Protocol.OP_CHECKSUM then
              (.error (.exception { _message := "Received unexcepted status from target." }), np₂)
            else
              (.ok Result.ExtendTime, np₂)
          else
            (.error (.exception (ETarget.ETarget np₂._rx_buf.get_status)), np₂)

/-! ## The send-wait-retry loop (`Programmer.cpp`, lines 216-247)

The loop talks to the clock and to the socket.  What they answer is the input
of the embedding: an `Environment` lists, in the order the program asks, whether
each `::sendto` fails and what each pass of the inner loop meets.  Time is
counted in ticks of `steady_clock`. -/

/-- One pass of the inner loop as the outside world shapes it: the value
`Network::poll` returns, whether `_poll[0].revents & POLLIN` is non-zero, what
`::recvfrom` reports if the pass calls `process()`, and the ticks between the
reading `now` this pass started with and the reading taken at its end. -/
structure PollStep where
  ret : Int
  pollin : Bool
  incoming : Incoming
  elapsed : Nat
deriving DecidableEq, Repr

/-- The outside world during a call: the reading `steady_clock::now()` gives
next, for the coming `::sendto` calls whether each reports `SOCKET_ERROR` (none
does once the list is used up), and the coming passes of the inner loop (once
the list is used up nothing arrives any more). -/
structure Environment where
  clock : Nat
  sendto_errors : List Bool
  polls : List PollStep
deriving DecidableEq, Repr

/-- Ticks of `steady_clock` in a millisecond (the clock counts nanoseconds). -/
def steady_clock.ticks_per_millisecond : Nat := 1000000

/-- Constant `NetworkProgrammer::TIMEOUT`, in milliseconds. -/
def NetworkProgrammer.TIMEOUT : Nat := 100

/-- How the inner loop of `communicate` ends: the deadline passed, `process()`
returned `Done` (the `return` in the switch), or `process()` threw. -/
inductive Waited where
  | expired
  | done
  | raised (failure : Failure)
deriving DecidableEq, Repr

/-- The condition `ret && (_poll[0].revents & POLLIN)` of a pass. -/
def PollStep.ready (step : PollStep) : Bool :=
  step.ret ≠ 0 && step.pollin

/-- The inner loop `for (; deadline > now; now = steady_clock::now())` of
`communicate`, started with the reading `now`.  It returns how the loop ended,
the object, the last clock reading and the passes not used.  When no pass is
left nothing arrives until the deadline, and the loop ends there. -/
def NetworkProgrammer.wait_reply (deadline : Nat) :
    NetworkProgrammer → Nat → List PollStep → Waited × NetworkProgrammer × Nat × List PollStep
  | np, now, [] => (Waited.expired, np, max now deadline, [])
  | np, now, step :: rest =>
    if deadline > now then
      if step.ready then
        match np.process step.incoming with
        | (.error failure, np₁) => (Waited.raised failure, np₁, now, rest)
        | (.ok Result.Done, np₁) => (Waited.done, np₁, now, rest)
        | (.ok Result.Ignore, np₁) =>
          NetworkProgrammer.wait_reply deadline np₁ (now + step.elapsed) rest
        | (.ok Result.ExtendTime, np₁) =>
          NetworkProgrammer.wait_reply deadline np₁ (now + step.elapsed) rest
      else
        NetworkProgrammer.wait_reply deadline np (now + step.elapsed) rest
    else
      (Waited.expired, np, now, step :: rest)

/-- How one pass of the outer loop of `communicate` ends: `sendto` threw, or
the inner loop ended in one of its three ways. -/
inductive Attempted where
  | send_failed (failure : Failure)
  | expired
  | done
  | raised (failure : Failure)
deriving DecidableEq, Repr

/-- One pass of the outer loop of `communicate`: `_tx_buf.data()`, `sendto`,
the reading `now`, `deadline = now + milliseconds(TIMEOUT)`, the inner loop. -/
def NetworkProgrammer.attempt (np : NetworkProgrammer) (env : Environment) :
    Attempted × NetworkProgrammer × Environment :=
  let frame := np._tx_buf.data.1
  let np₁ : NetworkProgrammer := { np with _tx_buf := np._tx_buf.data.2 }
  let env₁ : Environment := { env with sendto_errors := env.sendto_errors.tail }
  match np₁._socket.sendto frame np₁._tx_address (env.sendto_errors.headD false) with
  | .error failure => (Attempted.send_failed failure, np₁, env₁)
  | .ok socket =>
    let np₂ : NetworkProgrammer := { np₁ with _socket := socket }
    let now := env₁.clock
    let deadline := now + NetworkProgrammer.TIMEOUT * steady_clock.ticks_per_millisecond
    match np₂.wait_reply deadline now env₁.polls with
    | (Waited.expired, np₃, clock, rest) =>
      (Attempted.expired, np₃, { env₁ with clock := clock, polls := rest })
    | (Waited.done, np₃, clock, rest) =>
      (Attempted.done, np₃, { env₁ with clock := clock, polls := rest })
    | (Waited.raised failure, np₃, clock, rest) =>
      (Attempted.raised failure, np₃, { env₁ with clock := clock, polls := rest })

/-- The exception `communicate` throws behind its loop. -/
def NetworkProgrammer.timeout_error : Failure :=
  .exception { _message := "The target did not respond within the specified time." }

/-- The outer loop `for (int i = 0; i < 3; i++)` of `communicate` with
`remaining` passes to go, and the `throw` behind it. -/
def NetworkProgrammer.communicate_from :
    Nat → NetworkProgrammer → Environment → Except Failure Unit × NetworkProgrammer × Environment
  | 0, np, env => (.error NetworkProgrammer.timeout_error, np, env)
  | remaining + 1, np, env =>
    match np.attempt env with
    | (Attempted.send_failed failure, np₁, env₁) => (.error failure, np₁, env₁)
    | (Attempted.raised failure, np₁, env₁) => (.error failure, np₁, env₁)
    | (Attempted.done, np₁, env₁) => (.ok (), np₁, env₁)
    | (Attempted.expired, np₁, env₁) => NetworkProgrammer.communicate_from remaining np₁ env₁

/-- Member function `NetworkProgrammer::communicate`: three passes. -/
def NetworkProgrammer.communicate (np : NetworkProgrammer) (env : Environment) :
    Except Failure Unit × NetworkProgrammer × Environment :=
  NetworkProgrammer.communicate_from 3 np env

/-- A pass that neither ends the inner loop nor raises anything in the state
`np`: `process()` is not called, or it returns `Ignore` or `ExtendTime`. -/
def PollStep.harmless (np : NetworkProgrammer) (step : PollStep) : Prop :=
  step.ready = true →
    (np.process step.incoming).1 = .ok Result.Ignore
    ∨ (np.process step.incoming).1 = .ok Result.ExtendTime

/-- The object after the passes `steps` have gone by: each pass that calls
`process()` leaves its datagram in the receive buffer. -/
def NetworkProgrammer.absorb (np : NetworkProgrammer) (steps : List PollStep) :
    NetworkProgrammer :=
  steps.foldl (fun state step => if step.ready then (state.process step.incoming).2 else state) np

/-- The ticks the passes `steps` take together. -/
def PollStep.total_elapsed (steps : List PollStep) : Nat :=
  (steps.map PollStep.elapsed).sum

/-- The object after `_tx_buf.data()` and a successful `sendto`: the state in
which an attempt waits for its reply. -/
def NetworkProgrammer.after_send (np : NetworkProgrammer) : NetworkProgrammer :=
  { np with
    _tx_buf := np._tx_buf.data.2,
    _socket := { np._socket with sent := np._socket.sent ++ [(np._tx_buf.data.1, np._tx_address)] } }

/-- The fields of the object that reply processing never touches. -/
def NetworkProgrammer.same_send_side (a b : NetworkProgrammer) : Prop :=
  a._tx_buf = b._tx_buf ∧ a._socket = b._socket ∧ a._tx_address = b._tx_address
    ∧ a._bootloader = b._bootloader ∧ a._dev_desc = b._dev_desc

/-- The outcome of an attempt whose inner loop ended as `w`. -/
def Waited.attempted : Waited → Attempted
  | .expired => Attempted.expired
  | .done => Attempted.done
  | .raised failure => Attempted.raised failure

/-- The deadline of an attempt that starts in the environment `env`. -/
def Environment.deadline (env : Environment) : Nat :=
  env.clock + NetworkProgrammer.TIMEOUT * steady_clock.ticks_per_millisecond

/-- No coming `::sendto` reports an error. -/
def Environment.sends_succeed (env : Environment) : Prop :=
  ∀ e ∈ env.sendto_errors, e = false

/-! ## The strategy operations and the handshake (`Programmer.cpp`, lines 203-214, 304-430) -/

/-- Member function `NetworkProgrammer::check_connection`. -/
def NetworkProgrammer.check_connection (np : NetworkProgrammer) : Except Failure Unit :=
  match np._dev_desc with
  | none => .error (.exception { _message := "Not connected to a target." })
  | some _ => .ok ()

/-- Strategy operation `NetworkProgrammer::read`; `size` is cast to `uint16_t`. -/
def NetworkProgrammer.read (np : NetworkProgrammer) (env : Environment) (address size : Nat) :
    Except Failure (List Nat) × NetworkProgrammer × Environment :=
  match np.check_connection with
  | .error failure => (.error failure, np, env)
  | .ok () =>
    let np₁ : NetworkProgrammer :=
      { np with _tx_buf := np._tx_buf.select_operation Protocol.OP_READ address (size % 2 ^ 16) }
    match np₁.communicate env with
    | (.error failure, np₂, env₂) => (.error failure, np₂, env₂)
    | (.ok (), np₂, env₂) => (np₂._rx_buf.get_payload Protocol.OP_READ, np₂, env₂)

/-- The statements of `NetworkProgrammer::write` that fill the payload in,
through the pointer `write` that `prepare_payload<Write>()` returned: the store
`write->address = address` (a `be32_t` at offset 0 of the payload), then the
`memcpy` of `sizeof(write->data)` = 64 bytes from the caller's buffer to offset
4 (undefined when the buffer holds fewer).  It returns how the statements end
and the transmit buffer as they leave it. -/
def NetworkProgrammer.fill_Write (tx : TransmitBuffer) (write : Pointer) (address : Nat)
    (buffer : List Nat) : Except Failure Unit × TransmitBuffer :=
  match tx.store write 0 (Protocol.be32_bytes (address % 2 ^ 32)) with
  | .error failure => (.error failure, tx)
  | .ok tx₂ =>
    if buffer.length < 64 then
      (.error (.undefined "memcpy reads behind the end of the source"), tx₂)
    else
      match tx₂.store write 4 (buffer.take 64) with
      | .error failure => (.error failure, tx₂)
      | .ok tx₃ => (.ok (), tx₃)

/-- Strategy operation `NetworkProgrammer::write`: `check_connection()`,
`prepare_payload<Write>()`, the two statements that fill the payload in, then
`communicate()`. -/
def NetworkProgrammer.write (np : NetworkProgrammer) (env : Environment) (address : Nat)
    (buffer : List Nat) : Except Failure Unit × NetworkProgrammer × Environment :=
  match np.check_connection with
  | .error failure => (.error failure, np, env)
  | .ok () =>
    let prepared := np._tx_buf.prepare_payload Protocol.sizeof_Write Protocol.OP_WRITE
    match NetworkProgrammer.fill_Write prepared.2 prepared.1 address buffer with
    | (.error failure, tx) => (.error failure, { np with _tx_buf := tx }, env)
    | (.ok (), tx₃) => NetworkProgrammer.communicate { np with _tx_buf := tx₃ } env

/-- Strategy operation `NetworkProgrammer::erase`; the `length` argument of
`select_operation` is left to its default, taken to be 0. -/
def NetworkProgrammer.erase (np : NetworkProgrammer) (env : Environment) (address : Nat) :
    Except Failure Unit × NetworkProgrammer × Environment :=
  match np.check_connection with
  | .error failure => (.error failure, np, env)
  | .ok () =>
    NetworkProgrammer.communicate
      { np with _tx_buf := np._tx_buf.select_operation Protocol.OP_ERASE address 0 } env

/-- Strategy operation `NetworkProgrammer::reset`; the `address` and `length`
arguments of `select_operation` are left to their defaults, taken to be 0. -/
def NetworkProgrammer.reset (np : NetworkProgrammer) (env : Environment) :
    Except Failure Unit × NetworkProgrammer × Environment :=
  match np.check_connection with
  | .error failure => (.error failure, np, env)
  | .ok () =>
    NetworkProgrammer.communicate
      { np with _tx_buf := np._tx_buf.select_operation Protocol.OP_RESET 0 0 } env

/-- Strategy operation `NetworkProgrammer::checksum` (`Programmer.cpp`, lines
423-430): `select_operation`, `communicate()`, then the `be32_t checksum` read
through the pointer `get_payload<ChecksumReply>` returns.  The function does
not call `check_connection()`. -/
def NetworkProgrammer.checksum (np : NetworkProgrammer) (env : Environment)
    (address size : Nat) : Except Failure Nat × NetworkProgrammer × Environment :=
  let np₁ : NetworkProgrammer :=
    { np with _tx_buf := np._tx_buf.select_operation Protocol.OP_CHECKSUM address size }
  match np₁.communicate env with
  | (.error failure, np₂, env₂) => (.error failure, np₂, env₂)
  | (.ok (), np₂, env₂) =>
    match np₂._rx_buf.get_payload_typed Protocol.sizeof_ChecksumReply Protocol.OP_CHECKSUM with
    | .error failure => (.error failure, np₂, env₂)
    | .ok result =>
      match np₂._rx_buf.load result 0 4 with
      | .error failure => (.error failure, np₂, env₂)
      | .ok bytes => (.ok (Protocol.be32_value bytes), np₂, env₂)

/-- The constant `INADDR_BROADCAST`, 255.255.255.255. -/
def INADDR_BROADCAST : Nat := 0xFFFFFFFF

/-- The conversion `htons` of the socket library on a little-endian host: the
two bytes of a 16-bit value swapped. -/
def Network.htons (x : Nat) : Nat :=
  x % 256 * 256 + x / 256 % 256

/-- Member function `NetworkProgrammer::set_address`. -/
def NetworkProgrammer.set_address (np : NetworkProgrammer) (address port : Nat) :
    NetworkProgrammer :=
  let np₁ : NetworkProgrammer :=
    { np with _tx_address :=
        { np._tx_address with sin_addr := address, sin_port := Network.htons port } }
  if address = INADDR_BROADCAST then
    { np₁ with _socket := np₁._socket.set_broadcast true }
  else
    np₁

/-- Member function `NetworkProgrammer::process_discover(op)` (`Programmer.cpp`,
lines 306-333).  `find` stands for `DeviceDescriptor::find`, the lookup in the
device registry, which returns a null pointer for an unknown id; the last
`printf` reads `_dev_desc->name`, undefined through a null pointer.  The
fields of the reply are read through the pointer `get_payload<DiscoverReply>`
returns, in the order of the assignments: `bootloader_address` (a `be32_t` at
offset 2), `version` (a `be16_t` at offset 0), `device_id` (a `le16_t` at
offset 6). -/
def NetworkProgrammer.process_discover (np : NetworkProgrammer) (env : Environment)
    (find : Nat → Option DeviceDescriptor) (op : Nat) :
    Except Failure Unit × NetworkProgrammer × Environment :=
  match np.communicate env with
  | (.error failure, np₁, env₁) =>
    (.error failure, { np₁ with _socket := np₁._socket.set_broadcast false }, env₁)
  | (.ok (), np₁, env₁) =>
    let np₂ : NetworkProgrammer :=
      { np₁ with _tx_address := np₁._rx_address,
                 _socket := np₁._socket.set_broadcast false }
    match np₂._rx_buf.get_payload_typed Protocol.sizeof_DiscoverReply op with
    | .error failure => (.error failure, np₂, env₁)
    | .ok info =>
      match np₂._rx_buf.load info 2 4 with
      | .error failure => (.error failure, np₂, env₁)
      | .ok address_bytes =>
        let np₃ : NetworkProgrammer :=
          { np₂ with _bootloader :=
              { np₂._bootloader with address := Protocol.be32_value address_bytes } }
        match np₃._rx_buf.load info 0 2 with
        | .error failure => (.error failure, np₃, env₁)
        | .ok version_bytes =>
          let np₄ : NetworkProgrammer :=
            { np₃ with _bootloader :=
                { np₃._bootloader with version := Protocol.be16_value version_bytes } }
          match np₄._rx_buf.load info 6 2 with
          | .error failure => (.error failure, np₄, env₁)
          | .ok id_bytes =>
            let np₅ : NetworkProgrammer :=
              { np₄ with _bootloader :=
                  { np₄._bootloader with device_id := Protocol.le16_value id_bytes } }
            let np₆ : NetworkProgrammer :=
              { np₅ with _dev_desc := find np₅._bootloader.device_id }
            match np₆._dev_desc with
            | none => (.error (.undefined "_dev_desc->name through a null pointer"), np₆, env₁)
            | some _ => (.ok (), np₆, env₁)

/-- What the handler `catch (Exception& err) { err.prepend(context); throw; }`
rethrows for the failure `failure`: an `Exception` with the context in front
of its message, any other failure as it is (it is not caught). -/
def Failure.after_handler (failure : Failure) (context : String) : Failure :=
  match failure with
  | .exception err => .exception (err.prepend context)
  | other => other

/-- The handler `catch (Exception& err) { err.prepend(context); throw; }` around
a call of the strategy. -/
def catch_prepend_exception {α : Type}
    (outcome : Except Failure α × NetworkProgrammer × Environment) (context : String) :
    Except Failure α × NetworkProgrammer × Environment :=
  match outcome with
  | (.error (.exception err), np, env) => (.error (.exception (err.prepend context)), np, env)
  | other => other

/-- Member function `NetworkProgrammer::discover_device(port)`. -/
def NetworkProgrammer.discover_device (np : NetworkProgrammer) (env : Environment)
    (find : Nat → Option DeviceDescriptor) (port : Nat) :
    Except Failure Unit × NetworkProgrammer × Environment :=
  let np₁ := np.set_address INADDR_BROADCAST port
  let np₂ : NetworkProgrammer :=
    { np₁ with _tx_buf := np₁._tx_buf.select_operation Protocol.OP_DISCOVER 0 0 }
  np₂.process_discover env find Protocol.OP_DISCOVER

/-- Member function `NetworkProgrammer::connect_device(ip_address, port)`. -/
def NetworkProgrammer.connect_device (np : NetworkProgrammer) (env : Environment)
    (find : Nat → Option DeviceDescriptor) (ip_address port : Nat) :
    Except Failure Unit × NetworkProgrammer × Environment :=
  let np₁ := np.set_address ip_address port
  let np₂ : NetworkProgrammer :=
    { np₁ with _tx_buf := np₁._tx_buf.select_operation Protocol.OP_DISCOVER 0 0 }
  catch_prepend_exception (np₂.process_discover env find Protocol.OP_DISCOVER)
    "Unable to connect to a target."

/-- The MAC address `configure_device` sends. -/
def NetworkProgrammer.configured_mac : List Nat := [0xCF, 0x8B, 0xC1, 0xB5, 0xB8, 0x0D]

/-- Object representation of a `uint32_t` on the little-endian host: least
significant byte first. -/
def native32_bytes (v : Nat) : List Nat :=
  [v % 256, v / 2 ^ 8 % 256, v / 2 ^ 16 % 256, v / 2 ^ 24 % 256]

/-- The statements of `configure_device` that fill the payload in, through the
pointer `conf` that `prepare_payload<NetworkConfig>()` returned: the store
`conf->ip_address = ip_address` (a `uint32_t` at offset 6 of the packed
payload), then the `memcpy` of the six bytes of the local constant `mac` to
`conf->mac_address` (offset 0).  It returns how the statements end and the
transmit buffer as they leave it. -/
def NetworkProgrammer.fill_NetworkConfig (tx : TransmitBuffer) (conf : Pointer)
    (ip_address : Nat) : Except Failure Unit × TransmitBuffer :=
  match tx.store conf 6 (native32_bytes (ip_address % 2 ^ 32)) with
  | .error failure => (.error failure, tx)
  | .ok tx₃ =>
    match tx₃.store conf 0 NetworkProgrammer.configured_mac with
    | .error failure => (.error failure, tx₃)
    | .ok tx₄ => (.ok (), tx₄)

/-- Member function `NetworkProgrammer::configure_device(ip_address, port)`:
`set_address`, `prepare_payload<NetworkConfig>()`, the two statements that
fill the payload in, then `process_discover(OP_NET_CONFIG)` inside the
handler.  The function has no parameter for a MAC address. -/
def NetworkProgrammer.configure_device (np : NetworkProgrammer) (env : Environment)
    (find : Nat → Option DeviceDescriptor) (ip_address port : Nat) :
    Except Failure Unit × NetworkProgrammer × Environment :=
  let np₁ := np.set_address INADDR_BROADCAST port
  let prepared :=
    np₁._tx_buf.prepare_payload Protocol.sizeof_NetworkConfig Protocol.OP_NET_CONFIG
  let np₂ : NetworkProgrammer := { np₁ with _tx_buf := prepared.2 }
  match NetworkProgrammer.fill_NetworkConfig np₂._tx_buf prepared.1 ip_address with
  | (.error failure, tx) => (.error failure, { np₂ with _tx_buf := tx }, env)
  | (.ok (), tx₄) =>
    catch_prepend_exception
      (NetworkProgrammer.process_discover { np₂ with _tx_buf := tx₄ } env find
        Protocol.OP_NET_CONFIG)
      "Unable to configure network connection."

/-! ## Sample objects for the instances below -/

/-- A strategy whose every operation succeeds; `read` returns `size` zero
bytes.  Limits: 2048 bytes each way. -/
def sample_strategy : IProgrammerStrategy :=
  { descriptor := { max_write := 2048, max_read := 2048 },
    read := fun _ size => .ok (List.replicate size 0),
    write := fun _ _ => .ok (),
    erase := fun _ => .ok (),
    chip_erase := .ok (),
    erase_write := fun _ _ => .ok (),
    reset := .ok (),
    checksum := fun _ _ => .ok 0 }

/-- A facade bound to a device with 64-byte write blocks and 1024-byte erase
blocks. -/
def sample_programmer : Programmer :=
  { _programmer := sample_strategy,
    _device :=
      { id := 0, name := "sample", revision := 0, WRITE_SIZE := 64, ERASE_SIZE := 1024 } }

/-- A facade bound to a descriptor whose erase block (96 bytes) is not a whole
number of write blocks (64 bytes). -/
def uneven_programmer : Programmer :=
  { _programmer := sample_strategy,
    _device :=
      { id := 0, name := "uneven", revision := 0, WRITE_SIZE := 64, ERASE_SIZE := 96 } }

/-- The address replies come from in the instances below (family AF_INET,
port 666, 10.0.0.5). -/
def sample_source : sockaddr_in :=
  { sin_family := 2, sin_port := 666, sin_addr := 0x0A000005 }

/-- A session whose last transmitted frame is the request header
`header` (10 bytes); the rest of the object is zeroed. -/
def sample_session (header : List Nat) : NetworkProgrammer :=
  { _socket := { broadcast := false, sent := [] },
    _tx_address := { sin_family := 2, sin_port := 666, sin_addr := 0 },
    _rx_address := { sin_family := 0, sin_port := 0, sin_addr := 0 },
    _tx_buf := { _size := 10, _buffer := header ++ List.replicate (128 - header.length) 0 },
    _rx_buf := { _size := 0, _buffer := List.replicate 1500 0 },
    _bootloader := { address := 0, version := 0, device_id := 0 },
    _dev_desc := none }

/-- A pass of the inner loop in which `poll` times out after `elapsed` ticks. -/
def silent_pass (elapsed : Nat) : PollStep :=
  { ret := 0, pollin := false, incoming := .socket_error, elapsed := elapsed }

/-- A pass of the inner loop in which `poll` reports the datagram `bytes` from
`source`, and that takes `elapsed` ticks. -/
def reply_pass (bytes : List Nat) (source : sockaddr_in) (elapsed : Nat) : PollStep :=
  { ret := 1, pollin := true, incoming := .datagram bytes source, elapsed := elapsed }

/-- An environment whose clock reads 0, in which every `sendto` succeeds and
the inner loop meets the passes `polls`. -/
def sample_environment (polls : List PollStep) : Environment :=
  { clock := 0, sendto_errors := [], polls := polls }

/-- A device registry that knows one device, id 0x1234, and returns a null
pointer for every other id. -/
def sample_registry (device_id : Nat) : Option DeviceDescriptor :=
  if device_id = 0x1234 then
    some { id := 0x1234, name := "sample", revision := 0, WRITE_SIZE := 64, ERASE_SIZE := 1024 }
  else
    none

/-- A strategy that defines the four mandatory operations, each succeeding,
and overrides none of the optional ones.  Limits: 2048 bytes each way. -/
def plain_strategy : IProgrammerStrategy :=
  IProgrammerStrategy.without_overrides { max_write := 2048, max_read := 2048 }
    (fun _ size => .ok (List.replicate size 0)) (fun _ _ => .ok ()) (fun _ => .ok ()) (.ok ())

/-- A facade over `plain_strategy`, bound to a device with 64-byte write blocks
and 1024-byte erase blocks. -/
def plain_programmer : Programmer :=
  { _programmer := plain_strategy,
    _device := { id := 0x1234, name := "sample", revision := 0,
                 WRITE_SIZE := 64, ERASE_SIZE := 1024 } }

/-- A strategy whose every operation ends with the failure `failure`.  Limits:
2048 bytes each way. -/
def failing_strategy (failure : Failure) : IProgrammerStrategy :=
  { descriptor := { max_write := 2048, max_read := 2048 },
    read := fun _ _ => .error failure,
    write := fun _ _ => .error failure,
    erase := fun _ => .error failure,
    chip_erase := .error failure,
    erase_write := fun _ _ => .error failure,
    reset := .error failure,
    checksum := fun _ _ => .error failure }

/-- A facade over `failing_strategy`, bound to a device with 64-byte write
blocks and 1024-byte erase blocks. -/
def failing_programmer (failure : Failure) : Programmer :=
  { _programmer := failing_strategy failure,
    _device := { id := 0x1234, name := "sample", revision := 0,
                 WRITE_SIZE := 64, ERASE_SIZE := 1024 } }

/-- The session `sample_session header` after a handshake has bound the sample
device. -/
def bound_session (header : List Nat) : NetworkProgrammer :=
  { sample_session header with
    _dev_desc := some { id := 0x1234, name := "sample", revision := 0,
                        WRITE_SIZE := 64, ERASE_SIZE := 1024 } }

/-- A session bound to the sample device whose transmit buffer is the one the
constructor leaves when the array held zeros (sequence 0). -/
def fresh_session : NetworkProgrammer :=
  { bound_session [] with _tx_buf := TransmitBuffer.construct (List.replicate 128 0) }

/-- The failure an outcome carries, if any. -/
def failure_of_outcome {α : Type} : Except Failure α → Option Failure
  | .error failure => some failure
  | .ok _ => none

/-- The failure with which the strategy operation named by a log entry ends,
when it is run on the strategy `s` with the logged arguments. -/
def IProgrammerStrategy.failure_of (s : IProgrammerStrategy) : StrategyCall → Option Failure
  | .read address size => failure_of_outcome (s.read address size)
  | .write address buffer => failure_of_outcome (s.write address buffer)
  | .erase address => failure_of_outcome (s.erase address)
  | .chip_erase => failure_of_outcome s.chip_erase
  | .erase_write address buffer => failure_of_outcome (s.erase_write address buffer)
  | .reset => failure_of_outcome s.reset
  | .checksum address size => failure_of_outcome (s.checksum address size)

/-! ## The display frame buffer (`CarPanel.hpp`, `CarPanel.cpp`) -/

/-- The packed `Request` of `CarPanel.hpp` lines 62-65: `uint8_t count` and
`Frame frame[4]`.  A `Frame` (lines 52-60) is a union of `uint8_t data[7]` with
`uint16_t reserved[3]` followed by the 16-bit `Control`; its size is 8 (line
68), so a frame is a list of eight bytes here.  Bytes 0..6 are `data`; the low
four bits of byte 6 are the last LCD data bits and the bits above them, with
byte 7, are the control bits. -/
structure FrameBuffer.Request where
  count : Nat
  frame : List (List Nat)
deriving DecidableEq, Repr

/-- The class `FrameBuffer` of `CarPanel.hpp` lines 28-72, reduced to the member
`_request`; the socket and the destination address take no part in `set`. -/
structure FrameBuffer where
  _request : FrameBuffer.Request
deriving DecidableEq, Repr

/-- The invariant of the type of `_request`: four frames of eight bytes, each
byte a `uint8_t`. -/
def FrameBuffer.well_formed (fb : FrameBuffer) : Prop :=
  fb._request.frame.length = 4
    ∧ ∀ frame ∈ fb._request.frame, frame.length = 8 ∧ ∀ byte ∈ frame, byte < 256

/-- The value of the byte `index` of the frame `bank`. -/
def FrameBuffer.load (fb : FrameBuffer) (bank index : Nat) : Nat :=
  (fb._request.frame.getD bank []).getD index 0

/-- The request with the byte `index` of the frame `bank` replaced by
`value`. -/
def FrameBuffer.store (fb : FrameBuffer) (bank index value : Nat) : FrameBuffer :=
  { fb with _request :=
      { fb._request with
        frame := fb._request.frame.set bank
          ((fb._request.frame.getD bank []).set index value) } }

/-- A compound assignment `_request.frame[bank].data[index] op= ...` of
`CarPanel.cpp` lines 104 and 107: `f` computes the new value from the old byte,
in `int`, and the result is converted to `uint8_t`.  The behaviour is undefined
for a subscript behind `frame[4]` or behind `data[7]`. -/
def FrameBuffer.assign (fb : FrameBuffer) (bank index : Nat) (f : Nat → Nat) :
    Except Failure FrameBuffer :=
  if 4 ≤ bank then
    .error (.undefined "_request.frame[bank] behind the end of frame[4]")
  else if 7 ≤ index then
    .error (.undefined "data[index] behind the end of data[7]")
  else
    .ok (fb.store bank index (f (fb.load bank index) % 256))

/-- The member `FrameBuffer::set(int bit, bool a, bool x)` of `CarPanel.cpp`
lines 97-109, for a segment number `bit` that is not negative.  `mask` is the
`uint8_t` made from `1 << bit`; `~mask` is taken after the promotion to a
32-bit `int`, whose bit pattern is `2 ^ 32 - 1 - mask`. -/
def FrameBuffer.set (fb : FrameBuffer) (bit : Nat) (a x : Bool) : Except Failure FrameBuffer := do
  let bank := bit / 52
  let bit₁ := bit % 52
  let index := bit₁ / 8
  let bit₂ := bit₁ % 8
  let mask := (1 <<< bit₂) % 256
  let fb₁ ← if !a then fb.assign bank index (fun byte => byte &&& (2 ^ 32 - 1 - mask))
            else pure fb
  if x then fb₁.assign bank index (fun byte => byte ^^^ mask) else pure fb₁

/-- The bit `k` of the frame `bank`, bits counted from the least significant
bit of byte 0: bit `k % 8` of the byte `k / 8`. -/
def FrameBuffer.segment (fb : FrameBuffer) (bank k : Nat) : Bool :=
  (fb.load bank (k / 8)).testBit (k % 8)

/-- The request the constructor leaves (`CarPanel.cpp` lines 53-63): all bytes
zero, `count = 4`, `DR = 1` in frame 0 and `DD = 0, 2, 1, 3` in frames 0 to 3,
with the bit-fields of `Control` laid out from the least significant bit (`DR`
is bit 11 and `DD` bits 14..15 of the 16-bit word in bytes 6 and 7). -/
def FrameBuffer.constructed : FrameBuffer :=
  { _request :=
      { count := 4,
        frame := [[0, 0, 0, 0, 0, 0, 0, 0x08], [0, 0, 0, 0, 0, 0, 0, 0x80],
                  [0, 0, 0, 0, 0, 0, 0, 0x40], [0, 0, 0, 0, 0, 0, 0, 0xC0]] } }

/-! ## Lemmas on the facade handler -/

theorem Run.catch_prepend_calls {α : Type} (r : Run α) (context : String) :
    (r.catch_prepend context).calls = r.calls := by
  unfold Run.catch_prepend
  split <;> rfl

theorem Run.raised_exception_iff {α : Type} (r : Run α) :
    r.raised_exception = true ↔ ∃ err : Exception, r.result = .error (.exception err) := by
  unfold Run.raised_exception
  split
  · next err h => simp [h]
  · next h =>
    simp only [Bool.false_eq_true, false_iff, not_exists]
    exact fun err herr => h err herr

theorem Run.validation_failed_catch_prepend {α : Type} (r : Run α) (context : String) :
    (r.catch_prepend context).validation_failed ↔ r.validation_failed := by
  unfold Run.validation_failed
  rw [Run.catch_prepend_calls, Run.raised_exception_iff, Run.raised_exception_iff]
  unfold Run.catch_prepend
  split
  · next err h => simp [h]
  · rfl

theorem Run.validation_failed_throw {α : Type} (message : String) :
    (Run.throw message : Run α).validation_failed :=
  ⟨rfl, rfl⟩

theorem Run.not_validation_failed_call {α : Type} (c : StrategyCall)
    (outcome : Except Failure α) : ¬ (Run.call c outcome).validation_failed := by
  intro h
  have := h.1
  simp [Run.call] at this

theorem Run.catch_prepend_ok {α : Type} (r : Run α) (context : String) (v : α) :
    (r.catch_prepend context).result = .ok v ↔ r.result = .ok v := by
  unfold Run.catch_prepend
  split
  · next err h => simp [h]
  · rfl

theorem Run.remainder_pos {α : Type} (a b : Nat) (rest : Nat → Run α) (hb : 0 < b) :
    Run.remainder a b rest = rest (a % b) := by
  unfold Run.remainder
  rw [if_neg (Nat.pos_iff_ne_zero.mp hb)]

/-! ## The facade validates before it delegates -/

/-- Claim C1.  For a bound device (WRITE_SIZE positive, so that the remainder
is defined), `Programmer::write` fails in validation, raising an `Exception`
without any call on the strategy, exactly when the address is not a multiple
of WRITE_SIZE, or the buffer length is not a multiple of WRITE_SIZE, or the
buffer length exceeds max_write; in every other case it makes exactly one
strategy call, `write` with the same address and buffer.  With WRITE_SIZE = 64
the address 0x401 is rejected without any strategy call. -/
theorem Programmer_write_validation (p : Programmer) (address : Nat) (buffer : List Nat)
    (hW : 0 < p.device_descriptor.WRITE_SIZE) :
    ((p.write address buffer).validation_failed ↔
      (¬ p.device_descriptor.WRITE_SIZE ∣ address
        ∨ ¬ p.device_descriptor.WRITE_SIZE ∣ buffer.length
        ∨ buffer.length > p.programmer_descriptor.max_write))
    ∧ (¬ (p.write address buffer).validation_failed →
        (p.write address buffer).calls = [StrategyCall.write address buffer])
    ∧ (p.device_descriptor.WRITE_SIZE = 64 →
        (p.write 0x401 buffer).validation_failed ∧ (p.write 0x401 buffer).calls = []) := by
  refine ⟨?_, ?_, ?_⟩
  · unfold Programmer.write
    rw [Run.validation_failed_catch_prepend, Run.remainder_pos _ _ _ hW,
      Run.remainder_pos _ _ _ hW]
    simp only [Nat.dvd_iff_mod_eq_zero]
    split_ifs with h1 h2 h3
    · simp [Run.validation_failed_throw, h1]
    · simp [Run.validation_failed_throw, h2]
    · simp [Run.validation_failed_throw, h3]
    · simp only [ne_eq, not_not] at h1 h2
      simp [Run.not_validation_failed_call, h1, h2, h3]
  · unfold Programmer.write
    rw [Run.validation_failed_catch_prepend, Run.catch_prepend_calls,
      Run.remainder_pos _ _ _ hW, Run.remainder_pos _ _ _ hW]
    split_ifs with h1 h2 h3
    · intro h; exact absurd (Run.validation_failed_throw _) h
    · intro h; exact absurd (Run.validation_failed_throw _) h
    · intro h; exact absurd (Run.validation_failed_throw _) h
    · intro _; rfl
  · intro h64
    have hv : (p.write 0x401 buffer).validation_failed := by
      unfold Programmer.write
      rw [Run.validation_failed_catch_prepend, Run.remainder_pos _ _ _ hW, h64]
      simp [Run.validation_failed_throw]
    exact ⟨hv, hv.1⟩

/-- Instance of C1 on the sample facade (WRITE_SIZE = 64): a 64-byte buffer
at address 0x401 is rejected without a strategy call. -/
theorem Programmer_write_validation_witness :
    0 < sample_programmer.device_descriptor.WRITE_SIZE
    ∧ (sample_programmer.write 0x401 (List.replicate 64 0)).validation_failed
    ∧ (sample_programmer.write 0x401 (List.replicate 64 0)).calls = [] :=
  ⟨by decide,
    (Programmer_write_validation sample_programmer 0x401 (List.replicate 64 0)
      (by decide)).2.2 rfl⟩

/-- Claim C2 as stated fails: with 64-byte write blocks and 96-byte erase
blocks, `erase_write(96, 64 bytes)` passes validation although the address 96
is not a multiple of WRITE_SIZE, so "validation fails" is not equivalent to
the five-part condition of the claim. -/
theorem Programmer_erase_write_address_vs_WRITE_SIZE_unchecked :
    ¬ ((uneven_programmer.erase_write 96 (List.replicate 64 0)).validation_failed ↔
        (¬ uneven_programmer.device_descriptor.ERASE_SIZE ∣ 96
          ∨ ¬ uneven_programmer.device_descriptor.WRITE_SIZE ∣ 96
          ∨ ¬ uneven_programmer.device_descriptor.WRITE_SIZE ∣ (List.replicate 64 0).length
          ∨ (List.replicate 64 0).length > uneven_programmer.programmer_descriptor.max_write
          ∨ (List.replicate 64 0).length > uneven_programmer.device_descriptor.ERASE_SIZE)) := by
  intro h
  have hv := h.mpr (Or.inr (Or.inl (by decide)))
  have hc := hv.1
  rw [Programmer.erase_write, Run.catch_prepend_calls] at hc
  simp [uneven_programmer, sample_strategy, Programmer.device_descriptor,
    Programmer.programmer_descriptor, Run.call, Run.remainder] at hc

/-- Claim C2, amended.  For a bound device (both granularities positive),
`Programmer::erase_write` fails in validation, without any call on the
strategy, exactly when the address is not a multiple of ERASE_SIZE, or the
buffer length is not a multiple of WRITE_SIZE, or the buffer length exceeds
max_write, or the buffer length exceeds ERASE_SIZE.  The address is not
compared with WRITE_SIZE; when WRITE_SIZE divides ERASE_SIZE that makes no
difference and the five-part condition of the claim is equivalent too. -/
theorem Programmer_erase_write_validation (p : Programmer) (address : Nat)
    (buffer : List Nat) (hW : 0 < p.device_descriptor.WRITE_SIZE)
    (hE : 0 < p.device_descriptor.ERASE_SIZE) :
    ((p.erase_write address buffer).validation_failed ↔
      (¬ p.device_descriptor.ERASE_SIZE ∣ address
        ∨ ¬ p.device_descriptor.WRITE_SIZE ∣ buffer.length
        ∨ buffer.length > p.programmer_descriptor.max_write
        ∨ buffer.length > p.device_descriptor.ERASE_SIZE))
    ∧ (p.device_descriptor.WRITE_SIZE ∣ p.device_descriptor.ERASE_SIZE →
        ((p.erase_write address buffer).validation_failed ↔
          (¬ p.device_descriptor.ERASE_SIZE ∣ address
            ∨ ¬ p.device_descriptor.WRITE_SIZE ∣ address
            ∨ ¬ p.device_descriptor.WRITE_SIZE ∣ buffer.length
            ∨ buffer.length > p.programmer_descriptor.max_write
            ∨ buffer.length > p.device_descriptor.ERASE_SIZE))) := by
  have key : (p.erase_write address buffer).validation_failed ↔
      (¬ p.device_descriptor.ERASE_SIZE ∣ address
        ∨ ¬ p.device_descriptor.WRITE_SIZE ∣ buffer.length
        ∨ buffer.length > p.programmer_descriptor.max_write
        ∨ buffer.length > p.device_descriptor.ERASE_SIZE) := by
    unfold Programmer.erase_write
    rw [Run.validation_failed_catch_prepend, Run.remainder_pos _ _ _ hE,
      Run.remainder_pos _ _ _ hW]
    simp only [Nat.dvd_iff_mod_eq_zero]
    split_ifs with h1 h2 h3
    · simp [Run.validation_failed_throw, h1]
    · simp [Run.validation_failed_throw, h2]
    · simp only [Run.validation_failed_throw, true_iff]
      exact Or.inr (Or.inr h3)
    · simp only [ne_eq, not_not] at h1 h2
      simp only [not_or] at h3
      simp [Run.not_validation_failed_call, h1, h2, h3.1, h3.2]
  refine ⟨key, fun hdvd => ?_⟩
  rw [key]
  constructor
  · rintro (h | h | h | h)
    · exact Or.inl h
    · exact Or.inr (Or.inr (Or.inl h))
    · exact Or.inr (Or.inr (Or.inr (Or.inl h)))
    · exact Or.inr (Or.inr (Or.inr (Or.inr h)))
  · rintro (h | h | h | h | h)
    · exact Or.inl h
    · exact Or.inl (fun hE' => h (dvd_trans hdvd hE'))
    · exact Or.inr (Or.inl h)
    · exact Or.inr (Or.inr (Or.inl h))
    · exact Or.inr (Or.inr (Or.inr h))

/-- Instance of the amended C2 on the sample facade (WRITE_SIZE = 64,
ERASE_SIZE = 1024): a 64-byte buffer at address 64, which is write-aligned and
not erase-aligned, is rejected. -/
theorem Programmer_erase_write_validation_witness :
    0 < sample_programmer.device_descriptor.WRITE_SIZE
    ∧ 0 < sample_programmer.device_descriptor.ERASE_SIZE
    ∧ (sample_programmer.erase_write 64 (List.replicate 64 0)).validation_failed :=
  ⟨by decide, by decide,
    ((Programmer_erase_write_validation sample_programmer 64 (List.replicate 64 0)
      (by decide) (by decide)).1).mpr (Or.inl (by decide))⟩

/-- Claim C3.  For a bound device, every buffer longer than ERASE_SIZE and
shorter than max_write makes `Programmer::erase_write` fail in validation,
with no call on the strategy, whatever the address and whatever the alignment
of address and length. -/
theorem Programmer_erase_write_rejects_above_ERASE_SIZE (p : Programmer) (address : Nat)
    (buffer : List Nat) (hW : 0 < p.device_descriptor.WRITE_SIZE)
    (hE : 0 < p.device_descriptor.ERASE_SIZE)
    (hlow : p.device_descriptor.ERASE_SIZE < buffer.length)
    (hhigh : buffer.length < p.programmer_descriptor.max_write) :
    (p.erase_write address buffer).validation_failed
    ∧ (p.erase_write address buffer).calls = [] := by
  have _ := hhigh
  have hv : (p.erase_write address buffer).validation_failed := by
    unfold Programmer.erase_write
    rw [Run.validation_failed_catch_prepend, Run.remainder_pos _ _ _ hE,
      Run.remainder_pos _ _ _ hW]
    split_ifs with h1 h2 h3
    · exact Run.validation_failed_throw _
    · exact Run.validation_failed_throw _
    · exact Run.validation_failed_throw _
    · exact absurd (Or.inr hlow) h3
  exact ⟨hv, hv.1⟩

/-- Instance of C3 on the sample facade (ERASE_SIZE = 1024, max_write = 2048):
an aligned 1088-byte buffer at the aligned address 1024 is rejected. -/
theorem Programmer_erase_write_rejects_above_ERASE_SIZE_witness :
    0 < sample_programmer.device_descriptor.WRITE_SIZE
    ∧ 0 < sample_programmer.device_descriptor.ERASE_SIZE
    ∧ sample_programmer.device_descriptor.ERASE_SIZE < (List.replicate 1088 0).length
    ∧ (List.replicate 1088 0).length < sample_programmer.programmer_descriptor.max_write
    ∧ (sample_programmer.erase_write 1024 (List.replicate 1088 0)).validation_failed
    ∧ (sample_programmer.erase_write 1024 (List.replicate 1088 0)).calls = [] :=
  ⟨by decide, by decide, by rw [List.length_replicate]; decide,
    by rw [List.length_replicate]; decide,
    Programmer_erase_write_rejects_above_ERASE_SIZE sample_programmer 1024
      (List.replicate 1088 0) (by decide) (by decide)
      (by rw [List.length_replicate]; decide)
      (by rw [List.length_replicate]; decide)⟩

/-- Claim C4.  `Programmer::read` fails in validation, without any call on the
strategy, exactly when size is greater than max_read; when size is at most
max_read it makes exactly one strategy call, `read(address, size)`, and it
returns a value exactly when that call returns it. -/
theorem Programmer_read_validation (p : Programmer) (address size : Nat) :
    ((p.read address size).validation_failed ↔ size > p.programmer_descriptor.max_read)
    ∧ (size ≤ p.programmer_descriptor.max_read →
        (p.read address size).calls = [StrategyCall.read address size]
        ∧ ∀ bytes : List Nat, (p.read address size).result = .ok bytes ↔
            p._programmer.read address size = .ok bytes) := by
  constructor
  · unfold Programmer.read
    rw [Run.validation_failed_catch_prepend]
    split_ifs with h
    · simp [Run.validation_failed_throw, h]
    · simp [Run.not_validation_failed_call, h]
  · intro hle
    unfold Programmer.read
    rw [Run.catch_prepend_calls, if_neg (Nat.not_lt.mpr hle)]
    refine ⟨rfl, fun bytes => ?_⟩
    rw [Run.catch_prepend_ok]
    rfl

/-- Instance of C4 on the sample facade (max_read = 2048): a read of 4 bytes
is passed on and returns what the strategy returns, a read of 4096 bytes is
rejected. -/
theorem Programmer_read_validation_witness :
    (sample_programmer.read 1024 4).result = .ok [0, 0, 0, 0]
    ∧ (sample_programmer.read 1024 4).calls = [StrategyCall.read 1024 4]
    ∧ (sample_programmer.read 1024 4096).validation_failed :=
  ⟨(((Programmer_read_validation sample_programmer 1024 4).2 (by decide)).2 _).mpr rfl,
    ((Programmer_read_validation sample_programmer 1024 4).2 (by decide)).1,
    ((Programmer_read_validation sample_programmer 1024 4096).1).mpr (by decide)⟩

/-- Claim C5.  For a bound device (ERASE_SIZE positive), `Programmer::erase`
fails in validation, without any call on the strategy, exactly when the
address is not a multiple of ERASE_SIZE; otherwise it makes exactly one
strategy call, `erase` with that address. -/
theorem Programmer_erase_validation (p : Programmer) (address : Nat)
    (hE : 0 < p.device_descriptor.ERASE_SIZE) :
    ((p.erase address).validation_failed ↔ ¬ p.device_descriptor.ERASE_SIZE ∣ address)
    ∧ (p.device_descriptor.ERASE_SIZE ∣ address →
        (p.erase address).calls = [StrategyCall.erase address]) := by
  constructor
  · unfold Programmer.erase
    rw [Run.validation_failed_catch_prepend, Run.remainder_pos _ _ _ hE]
    simp only [Nat.dvd_iff_mod_eq_zero]
    split_ifs with h
    · simp [Run.validation_failed_throw, h]
    · simp only [ne_eq, not_not] at h
      simp [Run.not_validation_failed_call, h]
  · intro hdvd
    unfold Programmer.erase
    rw [Run.catch_prepend_calls, Run.remainder_pos _ _ _ hE,
      if_neg (by simpa using Nat.mod_eq_zero_of_dvd hdvd)]
    rfl

/-- Instance of C5 on the sample facade (ERASE_SIZE = 1024): address 2048 is
passed to the strategy, address 64 is rejected. -/
theorem Programmer_erase_validation_witness :
    0 < sample_programmer.device_descriptor.ERASE_SIZE
    ∧ (sample_programmer.erase 64).validation_failed
    ∧ (sample_programmer.erase 2048).calls = [StrategyCall.erase 2048] :=
  ⟨by decide,
    ((Programmer_erase_validation sample_programmer 64 (by decide)).1).mpr (by decide),
    (Programmer_erase_validation sample_programmer 2048 (by decide)).2 (by decide)⟩

/-! ## Reply processing -/

/-- The header fields that `process` reads from the receive buffer are those
of the datagram just received, once the datagram holds a whole header. -/
theorem Header.fields_of_received (d rest : List Nat)
    (hlen : Protocol.sizeof_ReplyHeader ≤ d.length) :
    Protocol.Header.version (d ++ rest) = Protocol.Header.version d
    ∧ Protocol.Header.seq (d ++ rest) = Protocol.Header.seq d
    ∧ Protocol.Header.operation (d ++ rest) = Protocol.Header.operation d
    ∧ Protocol.Header.status (d ++ rest) = Protocol.Header.status d := by
  have h4 : 4 ≤ d.length := hlen
  unfold Protocol.Header.version Protocol.Header.seq Protocol.Header.operation
    Protocol.Header.status
  exact ⟨List.getD_append _ _ _ _ (by omega), List.getD_append _ _ _ _ (by omega),
    List.getD_append _ _ _ _ (by omega), List.getD_append _ _ _ _ (by omega)⟩

/-- The decision `process` takes on a datagram that holds a whole reply header
and fits the receive buffer, written over the fields of that datagram. -/
theorem NetworkProgrammer.process_datagram (np : NetworkProgrammer) (d : List Nat)
    (source : sockaddr_in) (hlen : Protocol.sizeof_ReplyHeader ≤ d.length)
    (hcap : d.length ≤ ReceiveBuffer.capacity) :
    (np.process (.datagram d source)).1 =
      if Protocol.Header.version d ≠ Protocol.VERSION then
        .error (.exception { _message := "Unsupported protocol version." })
      else if Protocol.Header.seq d ≠ np._tx_buf.get_sequence then
        .ok Result.Ignore
      else if Protocol.Header.operation d ≠ np._tx_buf.get_operation then
        .error (.exception { _message := "Invalid operation code in response." })
      else if Protocol.Header.status d = Protocol.STATUS_OK then
        .ok Result.Done
      else if Protocol.Header.status d = Protocol.STATUS_INPROGRESS then
        if Protocol.Header.operation d ≠ Protocol.OP_READ
            ∧ Protocol.Header.operation d ≠ Protocol.OP_WRITE
            ∧ Protocol.Header.operation d ≠ Protocol.OP_ERASE
            ∧ Protocol.Header.operation d ≠ Protocol.OP_ERASE_WRITE
            ∧ Protocol.Header.operation d ≠ Protocol.OP_CHIP_ERASE
            ∧ Protocol.Header.operation d ≠ Protocol.OP_CHECKSUM then
          .error (.exception { _message := "Received unexcepted status from target." })
        else
          .ok Result.ExtendTime
      else
        .error (.exception (ETarget.ETarget (Protocol.Header.status d))) := by
  obtain ⟨hv, hs, ho, hst⟩ :=
    Header.fields_of_received d (np._rx_buf._buffer.drop d.length) hlen
  simp only [NetworkProgrammer.process, SocketUDP.recvfrom, Nat.not_lt.mpr hlen, if_false,
    ReceiveBuffer.set_content_length, if_pos hcap, ReceiveBuffer.get_version,
    ReceiveBuffer.get_sequence, ReceiveBuffer.get_operation, ReceiveBuffer.get_status,
    hv, hs, ho, hst]
  split_ifs <;> rfl

/-- The constructor of `ETarget` stores the status it is given. -/
theorem ETarget.status_stored (status : Nat) :
    (ETarget.ETarget status)._status = some status :=
  rfl

/-- Claim C6.  A received datagram that holds a whole reply header (and fits
the receive buffer), carries the protocol version and a sequence different
from the sequence in the transmit buffer, i.e. of the last transmitted frame,
makes `process` return Ignore and raise nothing, whatever its operation and
status bytes are. -/
theorem process_ignores_other_sequence (np : NetworkProgrammer) (d : List Nat)
    (source : sockaddr_in) (hlen : Protocol.sizeof_ReplyHeader ≤ d.length)
    (hcap : d.length ≤ ReceiveBuffer.capacity)
    (hver : Protocol.Header.version d = Protocol.VERSION)
    (hseq : Protocol.Header.seq d ≠ np._tx_buf.get_sequence) :
    (np.process (.datagram d source)).1 = .ok Result.Ignore := by
  rw [NetworkProgrammer.process_datagram np d source hlen hcap]
  simp [hver, hseq]

/-- Instance of C6: the request is a Read with sequence 7; a reply with
sequence 9, the wrong operation (Write) and a rejection status is ignored. -/
theorem process_ignores_other_sequence_witness :
    Protocol.sizeof_ReplyHeader ≤ [1, 9, 3, 6].length
    ∧ [1, 9, 3, 6].length ≤ ReceiveBuffer.capacity
    ∧ Protocol.Header.version [1, 9, 3, 6] = Protocol.VERSION
    ∧ Protocol.Header.seq [1, 9, 3, 6]
        ≠ (sample_session [1, 7, 2, 0, 0, 0, 4, 0, 0, 16])._tx_buf.get_sequence
    ∧ ((sample_session [1, 7, 2, 0, 0, 0, 4, 0, 0, 16]).process
        (.datagram [1, 9, 3, 6] sample_source)).1 = .ok Result.Ignore :=
  ⟨by decide, by decide, by decide, by decide,
    process_ignores_other_sequence (sample_session [1, 7, 2, 0, 0, 0, 4, 0, 0, 16])
      [1, 9, 3, 6] sample_source (by decide) (by decide) (by decide) (by decide)⟩

/-- Claim C7.  A received datagram that holds a whole reply header (and fits
the receive buffer), carries the protocol version and the sequence of the
last transmitted frame, and an operation different from the operation in the
transmit buffer, makes `process` raise the Exception "Invalid operation code
in response.", whatever its status byte is (Ok included). -/
theorem process_rejects_other_operation (np : NetworkProgrammer) (d : List Nat)
    (source : sockaddr_in) (hlen : Protocol.sizeof_ReplyHeader ≤ d.length)
    (hcap : d.length ≤ ReceiveBuffer.capacity)
    (hver : Protocol.Header.version d = Protocol.VERSION)
    (hseq : Protocol.Header.seq d = np._tx_buf.get_sequence)
    (hop : Protocol.Header.operation d ≠ np._tx_buf.get_operation) :
    (np.process (.datagram d source)).1 =
      .error (.exception { _message := "Invalid operation code in response." }) := by
  rw [NetworkProgrammer.process_datagram np d source hlen hcap]
  simp [hver, hseq, hop]

/-- Instance of C7: the request is a Read with sequence 7; a reply with
sequence 7, operation Write and status Ok raises the error. -/
theorem process_rejects_other_operation_witness :
    Protocol.sizeof_ReplyHeader ≤ [1, 7, 3, 1].length
    ∧ [1, 7, 3, 1].length ≤ ReceiveBuffer.capacity
    ∧ Protocol.Header.version [1, 7, 3, 1] = Protocol.VERSION
    ∧ Protocol.Header.seq [1, 7, 3, 1]
        = (sample_session [1, 7, 2, 0, 0, 0, 4, 0, 0, 16])._tx_buf.get_sequence
    ∧ Protocol.Header.operation [1, 7, 3, 1]
        ≠ (sample_session [1, 7, 2, 0, 0, 0, 4, 0, 0, 16])._tx_buf.get_operation
    ∧ Protocol.Header.status [1, 7, 3, 1] = Protocol.STATUS_OK
    ∧ ((sample_session [1, 7, 2, 0, 0, 0, 4, 0, 0, 16]).process
        (.datagram [1, 7, 3, 1] sample_source)).1 =
      .error (.exception { _message := "Invalid operation code in response." }) :=
  ⟨by decide, by decide, by decide, by decide, by decide, by decide,
    process_rejects_other_operation (sample_session [1, 7, 2, 0, 0, 0, 4, 0, 0, 16])
      [1, 7, 3, 1] sample_source (by decide) (by decide) (by decide) (by decide)
      (by decide)⟩

/-- Claim C8.  The reply header has 4 bytes and the protocol version is 1.
For every state of the session (so whether or not the sequence matches):
a received datagram shorter than the reply header makes `process` raise the
Exception "A truncated frame was received."; a datagram that holds a whole
header (and fits the receive buffer) with a version byte other than the
protocol version makes it raise "Unsupported protocol version."; and a
datagram of exactly the header length does not raise the truncation error. -/
theorem process_rejects_truncated_and_version (np : NetworkProgrammer) (d : List Nat)
    (source : sockaddr_in) :
    Protocol.sizeof_ReplyHeader = 4 ∧ Protocol.VERSION = 1
    ∧ (d.length < Protocol.sizeof_ReplyHeader →
        (np.process (.datagram d source)).1 =
          .error (.exception { _message := "A truncated frame was received." }))
    ∧ (Protocol.sizeof_ReplyHeader ≤ d.length → d.length ≤ ReceiveBuffer.capacity →
        Protocol.Header.version d ≠ Protocol.VERSION →
        (np.process (.datagram d source)).1 =
          .error (.exception { _message := "Unsupported protocol version." }))
    ∧ (d.length = Protocol.sizeof_ReplyHeader →
        (np.process (.datagram d source)).1 ≠
          .error (.exception { _message := "A truncated frame was received." })) := by
  refine ⟨rfl, rfl, ?_, ?_, ?_⟩
  · intro hshort
    simp only [NetworkProgrammer.process, SocketUDP.recvfrom, if_pos hshort]
  · intro hlen hcap hver
    rw [NetworkProgrammer.process_datagram np d source hlen hcap]
    simp [hver]
  · intro h4
    have hlen : Protocol.sizeof_ReplyHeader ≤ d.length := by omega
    have hcap : d.length ≤ ReceiveBuffer.capacity := by
      rw [h4]; decide
    rw [NetworkProgrammer.process_datagram np d source hlen hcap]
    split_ifs <;> simp [ETarget.ETarget]

/-- Instance of C8 with a matching sequence (7): three bytes are a truncated
frame, four bytes with version 2 are an unsupported version. -/
theorem process_rejects_truncated_and_version_witness :
    ((sample_session [1, 7, 2, 0, 0, 0, 4, 0, 0, 16]).process
        (.datagram [1, 7, 2] sample_source)).1 =
      .error (.exception { _message := "A truncated frame was received." })
    ∧ ((sample_session [1, 7, 2, 0, 0, 0, 4, 0, 0, 16]).process
        (.datagram [2, 7, 2, 1] sample_source)).1 =
      .error (.exception { _message := "Unsupported protocol version." }) :=
  ⟨(process_rejects_truncated_and_version (sample_session [1, 7, 2, 0, 0, 0, 4, 0, 0, 16])
      [1, 7, 2] sample_source).2.2.1 (by decide),
    (process_rejects_truncated_and_version (sample_session [1, 7, 2, 0, 0, 0, 4, 0, 0, 16])
      [2, 7, 2, 1] sample_source).2.2.2.1 (by decide) (by decide) (by decide)⟩

/-- Claim C9 as stated fails: the request is a Discover with sequence 7, the
reply carries the protocol version, sequence 7, operation Discover and status
InProgress, and `process` raises an Exception instead of returning
ExtendTime. -/
theorem process_InProgress_Discover_raises :
    Protocol.Header.version [1, 7, 0, 2] = Protocol.VERSION
    ∧ Protocol.Header.seq [1, 7, 0, 2]
        = (sample_session [1, 7, 0, 0, 0, 0, 0, 0, 0, 0])._tx_buf.get_sequence
    ∧ (sample_session [1, 7, 0, 0, 0, 0, 0, 0, 0, 0])._tx_buf.get_operation
        = Protocol.OP_DISCOVER
    ∧ Protocol.Header.operation [1, 7, 0, 2] = Protocol.OP_DISCOVER
    ∧ Protocol.Header.status [1, 7, 0, 2] = Protocol.STATUS_INPROGRESS
    ∧ ((sample_session [1, 7, 0, 0, 0, 0, 0, 0, 0, 0]).process
        (.datagram [1, 7, 0, 2] sample_source)).1 =
      .error (.exception { _message := "Received unexcepted status from target." })
    ∧ ((sample_session [1, 7, 0, 0, 0, 0, 0, 0, 0, 0]).process
        (.datagram [1, 7, 0, 2] sample_source)).1 ≠ .ok Result.ExtendTime := by
  have h : ((sample_session [1, 7, 0, 0, 0, 0, 0, 0, 0, 0]).process
        (.datagram [1, 7, 0, 2] sample_source)).1 =
      .error (.exception { _message := "Received unexcepted status from target." }) := by
    rw [NetworkProgrammer.process_datagram _ _ _ (by decide) (by decide)]
    rfl
  refine ⟨by decide, by decide, by decide, by decide, by decide, h, ?_⟩
  rw [h]
  simp

/-- Claim C9, amended.  A reply that holds a whole header (and fits the
receive buffer), with the protocol version, the matching sequence, the
matching operation and status InProgress, makes `process` return ExtendTime
and raise nothing when the request operation is Read, Write, Erase,
EraseWrite, ChipErase or Checksum; when the request operation is Discover,
NetConfig or Reset it makes `process` raise the Exception "Received
unexcepted status from target.". -/
theorem process_InProgress (np : NetworkProgrammer) (d : List Nat)
    (source : sockaddr_in) (hlen : Protocol.sizeof_ReplyHeader ≤ d.length)
    (hcap : d.length ≤ ReceiveBuffer.capacity)
    (hver : Protocol.Header.version d = Protocol.VERSION)
    (hseq : Protocol.Header.seq d = np._tx_buf.get_sequence)
    (hop : Protocol.Header.operation d = np._tx_buf.get_operation)
    (hstatus : Protocol.Header.status d = Protocol.STATUS_INPROGRESS) :
    (np._tx_buf.get_operation ∈ [Protocol.OP_READ, Protocol.OP_WRITE, Protocol.OP_ERASE,
        Protocol.OP_ERASE_WRITE, Protocol.OP_CHIP_ERASE, Protocol.OP_CHECKSUM] →
      (np.process (.datagram d source)).1 = .ok Result.ExtendTime)
    ∧ (np._tx_buf.get_operation ∈ [Protocol.OP_DISCOVER, Protocol.OP_NET_CONFIG,
        Protocol.OP_RESET] →
      (np.process (.datagram d source)).1 =
        .error (.exception { _message := "Received unexcepted status from target." })) := by
  rw [NetworkProgrammer.process_datagram np d source hlen hcap]
  have hin : Protocol.STATUS_INPROGRESS ≠ Protocol.STATUS_OK := by decide
  constructor
  · intro hmem
    simp only [List.mem_cons, List.mem_singleton, List.not_mem_nil, or_false] at hmem
    rw [← hop] at hmem
    simp only [hver, hseq, hop, hstatus, hin, ne_eq, not_true_eq_false, if_false, if_true]
    rw [← hop]
    rcases hmem with h | h | h | h | h | h <;> simp [h]
  · intro hmem
    simp only [List.mem_cons, List.mem_singleton, List.not_mem_nil, or_false] at hmem
    rw [← hop] at hmem
    simp only [hver, hseq, hop, hstatus, hin, ne_eq, not_true_eq_false, if_false, if_true]
    rw [← hop]
    rcases hmem with h | h | h <;> rw [h] <;> exact if_pos (by decide)

/-- Instance of the amended C9: a Write request with sequence 7 and the reply
[1, 7, Write, InProgress] give ExtendTime. -/
theorem process_InProgress_witness :
    Protocol.sizeof_ReplyHeader ≤ [1, 7, 3, 2].length
    ∧ [1, 7, 3, 2].length ≤ ReceiveBuffer.capacity
    ∧ Protocol.Header.version [1, 7, 3, 2] = Protocol.VERSION
    ∧ Protocol.Header.seq [1, 7, 3, 2]
        = (sample_session [1, 7, 3, 0, 0, 0, 4, 0, 0, 0])._tx_buf.get_sequence
    ∧ Protocol.Header.operation [1, 7, 3, 2]
        = (sample_session [1, 7, 3, 0, 0, 0, 4, 0, 0, 0])._tx_buf.get_operation
    ∧ Protocol.Header.status [1, 7, 3, 2] = Protocol.STATUS_INPROGRESS
    ∧ ((sample_session [1, 7, 3, 0, 0, 0, 4, 0, 0, 0]).process
        (.datagram [1, 7, 3, 2] sample_source)).1 = .ok Result.ExtendTime :=
  ⟨by decide, by decide, by decide, by decide, by decide, by decide,
    (process_InProgress (sample_session [1, 7, 3, 0, 0, 0, 4, 0, 0, 0]) [1, 7, 3, 2]
      sample_source (by decide) (by decide) (by decide) (by decide) (by decide)
      (by decide)).1 (by decide)⟩

/-- Claim C10.  A reply that holds a whole header (and fits the receive
buffer), with the protocol version, the matching sequence and the matching
operation, whose status is neither Ok nor InProgress, makes `process` raise
the device error `ETarget` built from the status byte of the reply, and the
status code stored in that error is that byte. -/
theorem process_rejection_raises_ETarget (np : NetworkProgrammer) (d : List Nat)
    (source : sockaddr_in) (hlen : Protocol.sizeof_ReplyHeader ≤ d.length)
    (hcap : d.length ≤ ReceiveBuffer.capacity)
    (hver : Protocol.Header.version d = Protocol.VERSION)
    (hseq : Protocol.Header.seq d = np._tx_buf.get_sequence)
    (hop : Protocol.Header.operation d = np._tx_buf.get_operation)
    (hok : Protocol.Header.status d ≠ Protocol.STATUS_OK)
    (hprogress : Protocol.Header.status d ≠ Protocol.STATUS_INPROGRESS) :
    (np.process (.datagram d source)).1 =
        .error (.exception (ETarget.ETarget (Protocol.Header.status d)))
    ∧ (ETarget.ETarget (Protocol.Header.status d))._status
        = some (Protocol.Header.status d) := by
  rw [NetworkProgrammer.process_datagram np d source hlen hcap]
  simp [hver, hseq, hop, hok, hprogress, ETarget.status_stored]

/-- Instance of C10: an Erase request with sequence 7 and the reply
[1, 7, Erase, InvAddr] raise an `ETarget` that stores the code 6. -/
theorem process_rejection_raises_ETarget_witness :
    Protocol.sizeof_ReplyHeader ≤ [1, 7, 4, 6].length
    ∧ [1, 7, 4, 6].length ≤ ReceiveBuffer.capacity
    ∧ Protocol.Header.version [1, 7, 4, 6] = Protocol.VERSION
    ∧ Protocol.Header.seq [1, 7, 4, 6]
        = (sample_session [1, 7, 4, 0, 0, 0, 4, 0, 0, 0])._tx_buf.get_sequence
    ∧ Protocol.Header.operation [1, 7, 4, 6]
        = (sample_session [1, 7, 4, 0, 0, 0, 4, 0, 0, 0])._tx_buf.get_operation
    ∧ Protocol.Header.status [1, 7, 4, 6] ≠ Protocol.STATUS_OK
    ∧ Protocol.Header.status [1, 7, 4, 6] ≠ Protocol.STATUS_INPROGRESS
    ∧ ((sample_session [1, 7, 4, 0, 0, 0, 4, 0, 0, 0]).process
          (.datagram [1, 7, 4, 6] sample_source)).1 =
        .error (.exception (ETarget.ETarget (Protocol.Header.status [1, 7, 4, 6])))
    ∧ (ETarget.ETarget (Protocol.Header.status [1, 7, 4, 6]))._status
        = some (Protocol.Header.status [1, 7, 4, 6]) :=
  ⟨by decide, by decide, by decide, by decide, by decide, by decide, by decide,
    process_rejection_raises_ETarget (sample_session [1, 7, 4, 0, 0, 0, 4, 0, 0, 0])
      [1, 7, 4, 6] sample_source (by decide) (by decide) (by decide) (by decide)
      (by decide) (by decide) (by decide)⟩

/-! ## The message of the device error -/

/-- Whatever label control enters the switch at, the run ends with the
assignment under `default:`, because no case ends with `break`. -/
theorem ETarget.run_switch_falls_through (status : Nat) (cases : List (Nat × String)) :
    ∀ (entered : Bool) (message : String),
      ETarget.run_switch status cases entered message = ETarget.default_message := by
  induction cases with
  | nil => intro _ _; rfl
  | cons head rest ih =>
    intro entered message
    obtain ⟨label, text⟩ := head
    unfold ETarget.run_switch
    split_ifs <;> exact ih _ _

/-- Claim C11, evaluated on the code: the constructor of `ETarget` leaves the
same message, "Target reported an invalid status.", for every status code.  So
the messages for InvAddr and InvParam are equal, and the message for InvOp is
not "Operation not supported by the target.". -/
theorem ETarget_message_same_for_every_status :
    (∀ status : Nat,
      (ETarget.ETarget status)._message = "Target reported an invalid status.")
    ∧ (ETarget.ETarget Protocol.STATUS_INV_ADDR)._message
        = (ETarget.ETarget Protocol.STATUS_INV_PARAM)._message
    ∧ (ETarget.ETarget Protocol.STATUS_INV_OP)._message
        ≠ "Operation not supported by the target." := by
  have h : ∀ status : Nat,
      (ETarget.ETarget status)._message = "Target reported an invalid status." :=
    fun status => ETarget.run_switch_falls_through status ETarget.cases false ""
  refine ⟨h, ?_, ?_⟩
  · rw [h, h]
  · rw [h]; decide

/-! ## Lemmas on the send-wait-retry loop -/

/-- Processing a datagram changes the receive side only. -/
theorem NetworkProgrammer.process_keeps (np : NetworkProgrammer) (incoming : Incoming) :
    (np.process incoming).2._tx_buf = np._tx_buf
    ∧ (np.process incoming).2._socket = np._socket
    ∧ (np.process incoming).2._tx_address = np._tx_address
    ∧ (np.process incoming).2._bootloader = np._bootloader
    ∧ (np.process incoming).2._dev_desc = np._dev_desc := by
  unfold NetworkProgrammer.process
  cases incoming with
  | socket_error => simp [SocketUDP.recvfrom]
  | datagram d source =>
    simp only [SocketUDP.recvfrom, ReceiveBuffer.set_content_length]
    split_ifs
    · simp
    · dsimp only
      split_ifs <;> simp
    · simp

/-- What `process` returns depends on the transmit buffer and the datagram
only, not on what the receive buffer held before. -/
theorem NetworkProgrammer.process_result_congr (np np' : NetworkProgrammer)
    (incoming : Incoming) (h : np._tx_buf = np'._tx_buf) :
    (np.process incoming).1 = (np'.process incoming).1 := by
  cases incoming with
  | socket_error => simp [NetworkProgrammer.process, SocketUDP.recvfrom]
  | datagram d source =>
    by_cases hshort : d.length < Protocol.sizeof_ReplyHeader
    · simp only [NetworkProgrammer.process, SocketUDP.recvfrom, if_pos hshort]
    · by_cases hcap : d.length ≤ ReceiveBuffer.capacity
      · rw [NetworkProgrammer.process_datagram np d source (Nat.not_lt.mp hshort) hcap,
          NetworkProgrammer.process_datagram np' d source (Nat.not_lt.mp hshort) hcap, h]
      · simp only [NetworkProgrammer.process, SocketUDP.recvfrom, if_neg hshort,
          ReceiveBuffer.set_content_length, if_neg hcap]

theorem PollStep.harmless_congr (np np' : NetworkProgrammer) (step : PollStep)
    (h : np._tx_buf = np'._tx_buf) (hstep : step.harmless np) : step.harmless np' := by
  intro hready
  rw [← NetworkProgrammer.process_result_congr np np' step.incoming h]
  exact hstep hready

theorem NetworkProgrammer.wait_reply_keeps (deadline : Nat) (polls : List PollStep) :
    ∀ (np : NetworkProgrammer) (now : Nat),
      NetworkProgrammer.same_send_side (np.wait_reply deadline now polls).2.1 np := by
  induction polls with
  | nil => intro np now; exact ⟨rfl, rfl, rfl, rfl, rfl⟩
  | cons step rest ih =>
    intro np now
    unfold NetworkProgrammer.wait_reply
    have hk := NetworkProgrammer.process_keeps np step.incoming
    split_ifs with hd hr
    · rcases hp : np.process step.incoming with ⟨r, np₁⟩
      rw [hp] at hk
      rcases r with f | res
      · exact hk
      · cases res
        · obtain ⟨h1, h2, h3, h4, h5⟩ := ih np₁ (now + step.elapsed)
          obtain ⟨k1, k2, k3, k4, k5⟩ := hk
          exact ⟨h1.trans k1, h2.trans k2, h3.trans k3, h4.trans k4, h5.trans k5⟩
        · obtain ⟨h1, h2, h3, h4, h5⟩ := ih np₁ (now + step.elapsed)
          obtain ⟨k1, k2, k3, k4, k5⟩ := hk
          exact ⟨h1.trans k1, h2.trans k2, h3.trans k3, h4.trans k4, h5.trans k5⟩
        · exact hk
    · exact ih np _
    · exact ⟨rfl, rfl, rfl, rfl, rfl⟩

theorem NetworkProgrammer.wait_reply_silent (deadline : Nat) (polls : List PollStep) :
    ∀ (np : NetworkProgrammer) (now : Nat), (∀ step ∈ polls, step.ready = false) →
      ∃ clock rest, np.wait_reply deadline now polls = (Waited.expired, np, clock, rest)
        ∧ ∀ step ∈ rest, step.ready = false := by
  induction polls with
  | nil => intro np now _; exact ⟨_, _, rfl, fun _ h => absurd h (List.not_mem_nil _)⟩
  | cons step rest ih =>
    intro np now hq
    unfold NetworkProgrammer.wait_reply
    have hs : step.ready = false := hq step (List.mem_cons_self _ _)
    by_cases hd : deadline > now
    · rw [if_pos hd, if_neg (by simp [hs])]
      exact ih np _ (fun s h => hq s (List.mem_cons_of_mem _ h))
    · rw [if_neg hd]
      exact ⟨_, _, rfl, hq⟩

theorem NetworkProgrammer.wait_reply_late (deadline : Nat) (np : NetworkProgrammer)
    (now : Nat) (step : PollStep) (rest : List PollStep) (hd : ¬ deadline > now) :
    np.wait_reply deadline now (step :: rest) = (Waited.expired, np, now, step :: rest) := by
  rw [NetworkProgrammer.wait_reply, if_neg hd]

theorem NetworkProgrammer.wait_reply_skip (deadline : Nat) (np : NetworkProgrammer)
    (now : Nat) (step : PollStep) (rest : List PollStep) (hd : deadline > now)
    (hr : step.ready = false) :
    np.wait_reply deadline now (step :: rest)
      = np.wait_reply deadline (now + step.elapsed) rest := by
  rw [NetworkProgrammer.wait_reply, if_pos hd, if_neg (by simp [hr])]

theorem NetworkProgrammer.wait_reply_continue (deadline : Nat) (np : NetworkProgrammer)
    (now : Nat) (step : PollStep) (rest : List PollStep) (hd : deadline > now)
    (hr : step.ready = true)
    (hp : (np.process step.incoming).1 = .ok Result.Ignore
      ∨ (np.process step.incoming).1 = .ok Result.ExtendTime) :
    np.wait_reply deadline now (step :: rest)
      = (np.process step.incoming).2.wait_reply deadline (now + step.elapsed) rest := by
  rw [NetworkProgrammer.wait_reply, if_pos hd, if_pos hr]
  rcases hq : np.process step.incoming with ⟨r, np₁⟩
  rw [hq] at hp
  rcases hp with h | h <;> simp only at h <;> subst h <;> rfl

theorem NetworkProgrammer.wait_reply_done (deadline : Nat) (np : NetworkProgrammer)
    (now : Nat) (step : PollStep) (rest : List PollStep) (hd : deadline > now)
    (hr : step.ready = true) (hp : (np.process step.incoming).1 = .ok Result.Done) :
    np.wait_reply deadline now (step :: rest)
      = (Waited.done, (np.process step.incoming).2, now, rest) := by
  rw [NetworkProgrammer.wait_reply, if_pos hd, if_pos hr]
  rcases hq : np.process step.incoming with ⟨r, np₁⟩
  rw [hq] at hp
  simp only at hp
  subst hp
  rfl

theorem NetworkProgrammer.wait_reply_raised (deadline : Nat) (np : NetworkProgrammer)
    (now : Nat) (step : PollStep) (rest : List PollStep) (hd : deadline > now)
    (hr : step.ready = true) (failure : Failure)
    (hp : (np.process step.incoming).1 = .error failure) :
    np.wait_reply deadline now (step :: rest)
      = (Waited.raised failure, (np.process step.incoming).2, now, rest) := by
  rw [NetworkProgrammer.wait_reply, if_pos hd, if_pos hr]
  rcases hq : np.process step.incoming with ⟨r, np₁⟩
  rw [hq] at hp
  simp only at hp
  subst hp
  rfl

theorem PollStep.total_elapsed_cons (step : PollStep) (rest : List PollStep) :
    PollStep.total_elapsed (step :: rest) = step.elapsed + PollStep.total_elapsed rest := by
  simp [PollStep.total_elapsed]

theorem NetworkProgrammer.absorb_cons (np : NetworkProgrammer) (step : PollStep)
    (rest : List PollStep) :
    np.absorb (step :: rest)
      = NetworkProgrammer.absorb
          (if step.ready then (np.process step.incoming).2 else np) rest := by
  simp [NetworkProgrammer.absorb]

theorem NetworkProgrammer.wait_reply_absorb (deadline : Nat) (tail : List PollStep)
    (quiet : List PollStep) :
    ∀ (np : NetworkProgrammer) (now : Nat), (∀ step ∈ quiet, step.harmless np) →
      now + PollStep.total_elapsed quiet < deadline →
      np.wait_reply deadline now (quiet ++ tail)
        = (np.absorb quiet).wait_reply deadline (now + PollStep.total_elapsed quiet) tail := by
  induction quiet with
  | nil => intro np now _ _; simp [NetworkProgrammer.absorb, PollStep.total_elapsed]
  | cons step rest ih =>
    intro np now hq ht
    rw [PollStep.total_elapsed_cons] at ht
    have hd : deadline > now := by omega
    have hstep := hq step (List.mem_cons_self _ _)
    rw [List.cons_append, PollStep.total_elapsed_cons, ← Nat.add_assoc,
      NetworkProgrammer.absorb_cons]
    by_cases hr : step.ready = true
    · rw [NetworkProgrammer.wait_reply_continue deadline np now step _ hd hr (hstep hr),
        if_pos hr]
      have hk := (NetworkProgrammer.process_keeps np step.incoming).1
      exact ih _ (now + step.elapsed)
        (fun s hs => PollStep.harmless_congr np _ s hk.symm (hq s (List.mem_cons_of_mem _ hs)))
        (by omega)
    · rw [NetworkProgrammer.wait_reply_skip deadline np now step _ hd (by simpa using hr),
        if_neg hr]
      exact ih np (now + step.elapsed) (fun s hs => hq s (List.mem_cons_of_mem _ hs))
        (by omega)

theorem Environment.sends_succeed_head (env : Environment) (h : env.sends_succeed) :
    env.sendto_errors.headD false = false := by
  unfold Environment.sends_succeed at h
  cases hl : env.sendto_errors with
  | nil => rfl
  | cons e rest => rw [hl] at h; exact h e (List.mem_cons_self _ _)

theorem NetworkProgrammer.attempt_sent (np : NetworkProgrammer) (env : Environment)
    (hsend : env.sendto_errors.headD false = false) :
    np.attempt env =
      ((np.after_send.wait_reply env.deadline env.clock env.polls).1.attempted,
        (np.after_send.wait_reply env.deadline env.clock env.polls).2.1,
        { clock := (np.after_send.wait_reply env.deadline env.clock env.polls).2.2.1,
          sendto_errors := env.sendto_errors.tail,
          polls := (np.after_send.wait_reply env.deadline env.clock env.polls).2.2.2 }) := by
  unfold NetworkProgrammer.attempt NetworkProgrammer.after_send Environment.deadline
  simp only [hsend, SocketUDP.sendto, Bool.false_eq_true, if_false]
  split <;> simp_all [Waited.attempted]

theorem Environment.sends_succeed_tail (env : Environment) (h : env.sends_succeed)
    (clock : Nat) (polls : List PollStep) :
    Environment.sends_succeed
      { clock := clock, sendto_errors := env.sendto_errors.tail, polls := polls } := by
  intro e he
  exact h e (List.mem_of_mem_tail he)

/-- An attempt during which no pass is ready ends at its deadline; the only
change to the object is the transmission. -/
theorem NetworkProgrammer.attempt_silent (np : NetworkProgrammer) (env : Environment)
    (hsend : env.sends_succeed) (hquiet : ∀ step ∈ env.polls, step.ready = false) :
    ∃ env₁ : Environment, np.attempt env = (Attempted.expired, np.after_send, env₁)
      ∧ env₁.sends_succeed ∧ ∀ step ∈ env₁.polls, step.ready = false := by
  obtain ⟨clock, rest, hw, hrest⟩ :=
    NetworkProgrammer.wait_reply_silent env.deadline env.polls np.after_send env.clock hquiet
  refine ⟨{ clock := clock, sendto_errors := env.sendto_errors.tail, polls := rest }, ?_,
    Environment.sends_succeed_tail env hsend clock rest, hrest⟩
  rw [NetworkProgrammer.attempt_sent np env (Environment.sends_succeed_head env hsend), hw]
  rfl

theorem NetworkProgrammer.communicate_from_expired (remaining : Nat)
    (np np₁ : NetworkProgrammer) (env env₁ : Environment)
    (h : np.attempt env = (Attempted.expired, np₁, env₁)) :
    NetworkProgrammer.communicate_from (remaining + 1) np env
      = NetworkProgrammer.communicate_from remaining np₁ env₁ := by
  rw [NetworkProgrammer.communicate_from, h]

theorem NetworkProgrammer.communicate_from_done (remaining : Nat)
    (np np₁ : NetworkProgrammer) (env env₁ : Environment)
    (h : np.attempt env = (Attempted.done, np₁, env₁)) :
    NetworkProgrammer.communicate_from (remaining + 1) np env = (.ok (), np₁, env₁) := by
  rw [NetworkProgrammer.communicate_from, h]

theorem NetworkProgrammer.communicate_from_raised (remaining : Nat)
    (np np₁ : NetworkProgrammer) (env env₁ : Environment) (failure : Failure)
    (h : np.attempt env = (Attempted.raised failure, np₁, env₁)) :
    NetworkProgrammer.communicate_from (remaining + 1) np env = (.error failure, np₁, env₁) := by
  rw [NetworkProgrammer.communicate_from, h]

theorem NetworkProgrammer.communicate_from_send_failed (remaining : Nat)
    (np np₁ : NetworkProgrammer) (env env₁ : Environment) (failure : Failure)
    (h : np.attempt env = (Attempted.send_failed failure, np₁, env₁)) :
    NetworkProgrammer.communicate_from (remaining + 1) np env = (.error failure, np₁, env₁) := by
  rw [NetworkProgrammer.communicate_from, h]

/-- The log of datagrams after one, two and three transmissions. -/
theorem NetworkProgrammer.after_send_sent (np : NetworkProgrammer) :
    np.after_send._socket.sent = np._socket.sent ++ [(np._tx_buf.data.1, np._tx_address)] :=
  rfl

/-- Claim C12.  When every `sendto` succeeds and no pass of the inner loop
finds a datagram to read (the transport delivers nothing before any
deadline), `communicate()` ends with the Exception "The target did not respond
within the specified time."; the object it leaves is the one after exactly
three transmissions, so the log of sent datagrams has grown by exactly 3. -/
theorem communicate_silent_times_out (np : NetworkProgrammer) (env : Environment)
    (hsend : env.sends_succeed) (hquiet : ∀ step ∈ env.polls, step.ready = false) :
    (np.communicate env).1 =
        .error (.exception
          { _message := "The target did not respond within the specified time." })
    ∧ (np.communicate env).2.1 = np.after_send.after_send.after_send
    ∧ (np.communicate env).2.1._socket.sent.length = np._socket.sent.length + 3 := by
  obtain ⟨env₁, h₁, hs₁, hq₁⟩ := NetworkProgrammer.attempt_silent np env hsend hquiet
  obtain ⟨env₂, h₂, hs₂, hq₂⟩ := NetworkProgrammer.attempt_silent np.after_send env₁ hs₁ hq₁
  obtain ⟨env₃, h₃, _, _⟩ :=
    NetworkProgrammer.attempt_silent np.after_send.after_send env₂ hs₂ hq₂
  have h : np.communicate env
      = (.error NetworkProgrammer.timeout_error, np.after_send.after_send.after_send, env₃) := by
    unfold NetworkProgrammer.communicate
    rw [NetworkProgrammer.communicate_from_expired 2 _ _ _ _ h₁,
      NetworkProgrammer.communicate_from_expired 1 _ _ _ _ h₂,
      NetworkProgrammer.communicate_from_expired 0 _ _ _ _ h₃]
    rfl
  rw [h]
  refine ⟨rfl, rfl, ?_⟩
  simp [NetworkProgrammer.after_send_sent]

/-- Instance of C12: a Read request, sequence 7, and three passes in which
`poll` times out (after 60 ms, 60 ms and 250 ms). -/
theorem communicate_silent_times_out_witness :
    (sample_environment [silent_pass 60000000, silent_pass 60000000,
        silent_pass 250000000]).sends_succeed
    ∧ (∀ step ∈ (sample_environment [silent_pass 60000000, silent_pass 60000000,
        silent_pass 250000000]).polls, step.ready = false)
    ∧ ((sample_session [1, 7, 2, 0, 0, 0, 4, 0, 0, 16]).communicate
        (sample_environment [silent_pass 60000000, silent_pass 60000000,
          silent_pass 250000000])).1 =
        .error (.exception
          { _message := "The target did not respond within the specified time." })
    ∧ ((sample_session [1, 7, 2, 0, 0, 0, 4, 0, 0, 16]).communicate
        (sample_environment [silent_pass 60000000, silent_pass 60000000,
          silent_pass 250000000])).2.1._socket.sent.length = 0 + 3 :=
  have hsend : (sample_environment [silent_pass 60000000, silent_pass 60000000,
      silent_pass 250000000]).sends_succeed := fun _ h => absurd h (List.not_mem_nil _)
  have hquiet : ∀ step ∈ (sample_environment [silent_pass 60000000, silent_pass 60000000,
      silent_pass 250000000]).polls, step.ready = false := by decide
  ⟨hsend, hquiet,
    (communicate_silent_times_out (sample_session [1, 7, 2, 0, 0, 0, 4, 0, 0, 16]) _
      hsend hquiet).1,
    (communicate_silent_times_out (sample_session [1, 7, 2, 0, 0, 0, 4, 0, 0, 16]) _
      hsend hquiet).2.2⟩
theorem NetworkProgrammer.same_send_side_after_send (a b : NetworkProgrammer)
    (h : NetworkProgrammer.same_send_side a b) :
    NetworkProgrammer.same_send_side a.after_send b.after_send := by
  obtain ⟨h1, h2, h3, h4, h5⟩ := h
  unfold NetworkProgrammer.after_send
  exact ⟨by simp [h1], by simp [h1, h2, h3], h3, h4, h5⟩

theorem NetworkProgrammer.same_send_side_trans {a b c : NetworkProgrammer}
    (h : NetworkProgrammer.same_send_side a b) (k : NetworkProgrammer.same_send_side b c) :
    NetworkProgrammer.same_send_side a c :=
  ⟨h.1.trans k.1, h.2.1.trans k.2.1, h.2.2.1.trans k.2.2.1, h.2.2.2.1.trans k.2.2.2.1,
    h.2.2.2.2.trans k.2.2.2.2⟩

theorem NetworkProgrammer.same_send_side_iterate (k : Nat) :
    ∀ (a b : NetworkProgrammer), NetworkProgrammer.same_send_side a b →
      NetworkProgrammer.same_send_side (NetworkProgrammer.after_send^[k] a)
        (NetworkProgrammer.after_send^[k] b) := by
  induction k with
  | zero => intro a b h; exact h
  | succ j ih =>
    intro a b h
    rw [Function.iterate_succ_apply, Function.iterate_succ_apply]
    exact ih _ _ (NetworkProgrammer.same_send_side_after_send a b h)

/-- With a successful `sendto`, an attempt leaves the send side of the object
as one transmission leaves it. -/
theorem NetworkProgrammer.attempt_send_side (np : NetworkProgrammer) (env : Environment)
    (hsend : env.sends_succeed) :
    NetworkProgrammer.same_send_side (np.attempt env).2.1 np.after_send
    ∧ (np.attempt env).2.2.sends_succeed
    ∧ ∀ failure, (np.attempt env).1 ≠ Attempted.send_failed failure := by
  rw [NetworkProgrammer.attempt_sent np env (Environment.sends_succeed_head env hsend)]
  refine ⟨NetworkProgrammer.wait_reply_keeps _ _ _ _,
    Environment.sends_succeed_tail env hsend _ _, ?_⟩
  intro failure
  cases (np.after_send.wait_reply env.deadline env.clock env.polls).1 <;>
    simp [Waited.attempted]

/-- With successful `sendto` calls, `communicate` with `remaining` passes to go
leaves the send side of the object as some number `k` of transmissions, at
most `remaining`, leaves it. -/
theorem NetworkProgrammer.communicate_from_send_side (remaining : Nat) :
    ∀ (np : NetworkProgrammer) (env : Environment), env.sends_succeed →
      ∃ k, k ≤ remaining ∧ (remaining ≠ 0 → 1 ≤ k) ∧ NetworkProgrammer.same_send_side
        (NetworkProgrammer.communicate_from remaining np env).2.1
        (NetworkProgrammer.after_send^[k] np) := by
  induction remaining with
  | zero => intro np env _; exact ⟨0, le_refl _, fun h => absurd rfl h, rfl, rfl, rfl, rfl, rfl⟩
  | succ n ih =>
    intro np env hsend
    obtain ⟨hside, hs₁, hne⟩ := NetworkProgrammer.attempt_send_side np env hsend
    rcases hat : np.attempt env with ⟨outcome, np₁, env₁⟩
    rw [hat] at hside hs₁ hne
    cases outcome with
    | send_failed failure => exact absurd rfl (hne failure)
    | raised failure =>
      rw [NetworkProgrammer.communicate_from_raised n _ _ _ _ _ hat]
      exact ⟨1, by omega, fun _ => le_refl _, hside⟩
    | done =>
      rw [NetworkProgrammer.communicate_from_done n _ _ _ _ hat]
      exact ⟨1, by omega, fun _ => le_refl _, hside⟩
    | expired =>
      rw [NetworkProgrammer.communicate_from_expired n _ _ _ _ hat]
      obtain ⟨k, hk, _, hsame⟩ := ih np₁ env₁ hs₁
      refine ⟨k + 1, by omega, fun _ => by omega,
        NetworkProgrammer.same_send_side_trans hsame ?_⟩
      rw [Function.iterate_succ_apply]
      exact NetworkProgrammer.same_send_side_iterate k _ _ hside

/-- The call `data()` changes nothing but the sequence byte, which becomes the
old value plus 1 modulo 256, and the
frame it returns carries the new value when the frame has at least two
bytes. -/
theorem TransmitBuffer.data_sequence (tx : TransmitBuffer) (hlen : 2 ≤ tx._buffer.length) :
    tx.data.2.get_sequence = (tx.get_sequence + 1) % 256
    ∧ tx.data.2._buffer.length = tx._buffer.length
    ∧ tx.data.2._size = tx._size
    ∧ tx.data.2.get_operation = tx.get_operation
    ∧ (2 ≤ tx._size → Protocol.Header.seq tx.data.1 = (tx.get_sequence + 1) % 256) := by
  unfold TransmitBuffer.data TransmitBuffer.get_sequence TransmitBuffer.get_operation
    Protocol.Header.seq Protocol.Header.operation
  have h1 : 1 < tx._buffer.length := by omega
  refine ⟨?_, ?_, rfl, ?_, ?_⟩
  · simp [List.getD_eq_getElem?_getD, List.getElem?_set, h1]
  · simp
  · simp [List.getD_eq_getElem?_getD, List.getElem?_set]
  · intro hsize
    have h2 : 1 < tx._size := by omega
    simp [List.getD_eq_getElem?_getD, List.getElem?_set, List.getElem?_take, h1, h2]

theorem NetworkProgrammer.after_send_iterate_length (k : Nat) :
    ∀ (np : NetworkProgrammer),
      (NetworkProgrammer.after_send^[k] np)._tx_buf._buffer.length = np._tx_buf._buffer.length
      ∧ (NetworkProgrammer.after_send^[k] np)._socket.sent.length
          = np._socket.sent.length + k := by
  induction k with
  | zero => intro np; exact ⟨rfl, rfl⟩
  | succ j ih =>
    intro np
    rw [Function.iterate_succ_apply]
    obtain ⟨h1, h2⟩ := ih np.after_send
    rw [h1, h2]
    constructor
    · simp [NetworkProgrammer.after_send, TransmitBuffer.data]
    · simp [NetworkProgrammer.after_send]; omega

/-- The sequence byte after `k + 1` transmissions. -/
theorem NetworkProgrammer.after_send_iterate_sequence (k : Nat) (np : NetworkProgrammer)
    (hlen : 2 ≤ np._tx_buf._buffer.length) :
    (NetworkProgrammer.after_send^[k + 1] np)._tx_buf.get_sequence
      = (np._tx_buf.get_sequence + (k + 1)) % 256 := by
  induction k with
  | zero => exact (TransmitBuffer.data_sequence np._tx_buf hlen).1
  | succ j ih =>
    rw [Function.iterate_succ_apply']
    have hl : 2 ≤ (NetworkProgrammer.after_send^[j + 1] np)._tx_buf._buffer.length := by
      rw [(NetworkProgrammer.after_send_iterate_length (j + 1) np).1]; exact hlen
    have := (TransmitBuffer.data_sequence (NetworkProgrammer.after_send^[j + 1] np)._tx_buf hl).1
    change (NetworkProgrammer.after_send^[j + 1] np)._tx_buf.data.2.get_sequence = _
    rw [this, ih]
    omega

/-- Claim C13.  `TransmitBuffer::data()` sets the sequence byte of the header to
its old value plus 1 modulo 256 (so 255 becomes 0), and the frame it returns
carries the new value.  `communicate()` calls it once per transmission: when
every `sendto` succeeds, a call that transmits `k` datagrams (1 to 3) leaves
the sequence byte at the old value plus `k` modulo 256. -/
theorem data_advances_sequence (np : NetworkProgrammer) (env : Environment)
    (hlen : 2 ≤ np._tx_buf._buffer.length) (hsend : env.sends_succeed) :
    np._tx_buf.data.2.get_sequence = (np._tx_buf.get_sequence + 1) % 256
    ∧ (np._tx_buf.get_sequence = 255 → np._tx_buf.data.2.get_sequence = 0)
    ∧ (2 ≤ np._tx_buf._size →
        Protocol.Header.seq np._tx_buf.data.1 = (np._tx_buf.get_sequence + 1) % 256)
    ∧ ∃ k, 1 ≤ k ∧ k ≤ 3
        ∧ (np.communicate env).2.1._socket.sent.length = np._socket.sent.length + k
        ∧ (np.communicate env).2.1._tx_buf.get_sequence
            = (np._tx_buf.get_sequence + k) % 256 := by
  obtain ⟨h1, _, _, _, h5⟩ := TransmitBuffer.data_sequence np._tx_buf hlen
  refine ⟨h1, fun h255 => by rw [h1, h255], h5, ?_⟩
  obtain ⟨k, hk3, hk1, hside⟩ := NetworkProgrammer.communicate_from_send_side 3 np env hsend
  have hk : 1 ≤ k := hk1 (by decide)
  refine ⟨k, hk, hk3, ?_, ?_⟩
  · unfold NetworkProgrammer.communicate
    rw [hside.2.1, (NetworkProgrammer.after_send_iterate_length k np).2]
  · unfold NetworkProgrammer.communicate
    rw [hside.1]
    obtain ⟨j, rfl⟩ : ∃ j, k = j + 1 := ⟨k - 1, by omega⟩
    exact NetworkProgrammer.after_send_iterate_sequence j np hlen

/-- Instance of C13: the sequence byte is 255 before the call; the first
attempt runs to its deadline, the reply to the second one is accepted.  Two
datagrams were sent and the sequence byte is 1. -/
theorem data_advances_sequence_witness :
    2 ≤ (sample_session [1, 255, 2, 0, 0, 0, 4, 0, 0, 16])._tx_buf._buffer.length
    ∧ (sample_environment [silent_pass 100000000,
        reply_pass [1, 1, 2, 1, 9, 9, 9, 9] sample_source 500]).sends_succeed
    ∧ (sample_session [1, 255, 2, 0, 0, 0, 4, 0, 0, 16])._tx_buf.data.2.get_sequence = 0
    ∧ ((sample_session [1, 255, 2, 0, 0, 0, 4, 0, 0, 16]).communicate
        (sample_environment [silent_pass 100000000,
          reply_pass [1, 1, 2, 1, 9, 9, 9, 9] sample_source 500])).2.1._socket.sent.length = 2
    ∧ ∃ k, 1 ≤ k ∧ k ≤ 3
        ∧ ((sample_session [1, 255, 2, 0, 0, 0, 4, 0, 0, 16]).communicate
            (sample_environment [silent_pass 100000000,
              reply_pass [1, 1, 2, 1, 9, 9, 9, 9] sample_source 500])).2.1._socket.sent.length
            = (sample_session [1, 255, 2, 0, 0, 0, 4, 0, 0, 16])._socket.sent.length + k
        ∧ ((sample_session [1, 255, 2, 0, 0, 0, 4, 0, 0, 16]).communicate
            (sample_environment [silent_pass 100000000,
              reply_pass [1, 1, 2, 1, 9, 9, 9, 9] sample_source 500])).2.1._tx_buf.get_sequence
            = ((sample_session [1, 255, 2, 0, 0, 0, 4, 0, 0, 16])._tx_buf.get_sequence + k)
                % 256 :=
  have hlen : 2 ≤ (sample_session [1, 255, 2, 0, 0, 0, 4, 0, 0, 16])._tx_buf._buffer.length := by
    simp only [sample_session, List.length_append, List.length_replicate, List.length_cons,
      List.length_nil]
    decide
  have hsend : (sample_environment [silent_pass 100000000,
      reply_pass [1, 1, 2, 1, 9, 9, 9, 9] sample_source 500]).sends_succeed :=
    fun _ h => absurd h (List.not_mem_nil _)
  ⟨hlen, hsend,
    (data_advances_sequence _ _ hlen hsend).2.1 (by decide),
    by decide,
    (data_advances_sequence _ _ hlen hsend).2.2.2⟩

/-- The three frames `communicate` hands to `sendto`, in order, when it starts
from the object `np`. -/
theorem NetworkProgrammer.frames_sequence (np : NetworkProgrammer)
    (hlen : 2 ≤ np._tx_buf._buffer.length) (hsize : 2 ≤ np._tx_buf._size) :
    Protocol.Header.seq np._tx_buf.data.1 = (np._tx_buf.get_sequence + 1) % 256
    ∧ Protocol.Header.seq np.after_send._tx_buf.data.1 = (np._tx_buf.get_sequence + 2) % 256
    ∧ Protocol.Header.seq np.after_send.after_send._tx_buf.data.1
        = (np._tx_buf.get_sequence + 3) % 256
    ∧ np.after_send._tx_buf.get_sequence = (np._tx_buf.get_sequence + 1) % 256
    ∧ np.after_send.after_send._tx_buf.get_sequence = (np._tx_buf.get_sequence + 2) % 256
    ∧ np.after_send.after_send.after_send._tx_buf.get_sequence
        = (np._tx_buf.get_sequence + 3) % 256 := by
  obtain ⟨a1, a2, a3, _, a5⟩ := TransmitBuffer.data_sequence np._tx_buf hlen
  have hl1 : 2 ≤ np.after_send._tx_buf._buffer.length := by
    show 2 ≤ np._tx_buf.data.2._buffer.length
    rw [a2]; exact hlen
  have hs1 : 2 ≤ np.after_send._tx_buf._size := by
    show 2 ≤ np._tx_buf.data.2._size
    rw [a3]; exact hsize
  obtain ⟨b1, b2, b3, _, b5⟩ := TransmitBuffer.data_sequence np.after_send._tx_buf hl1
  have hl2 : 2 ≤ np.after_send.after_send._tx_buf._buffer.length := by
    show 2 ≤ np.after_send._tx_buf.data.2._buffer.length
    rw [b2]; exact hl1
  have hs2 : 2 ≤ np.after_send.after_send._tx_buf._size := by
    show 2 ≤ np.after_send._tx_buf.data.2._size
    rw [b3]; exact hs1
  obtain ⟨c1, _, _, _, c5⟩ := TransmitBuffer.data_sequence np.after_send.after_send._tx_buf hl2
  have e1 : np.after_send._tx_buf.get_sequence = (np._tx_buf.get_sequence + 1) % 256 := a1
  have e2 : np.after_send.after_send._tx_buf.get_sequence
      = (np._tx_buf.get_sequence + 2) % 256 := by
    show np.after_send._tx_buf.data.2.get_sequence = _
    rw [b1, e1]; omega
  have e3 : np.after_send.after_send.after_send._tx_buf.get_sequence
      = (np._tx_buf.get_sequence + 3) % 256 := by
    show np.after_send.after_send._tx_buf.data.2.get_sequence = _
    rw [c1, e2]; omega
  refine ⟨a5 hsize, ?_, ?_, e1, e2, e3⟩
  · rw [b5 hs1, e1]; omega
  · rw [c5 hs2, e2]; omega

/-- The first attempt runs to its deadline in silence, the second one meets a
datagram that `process` ignores and then silence, the third one silence: the
call times out after three transmissions. -/
theorem NetworkProgrammer.communicate_ignored_in_second_attempt (np : NetworkProgrammer)
    (env : Environment) (s₁ s₂ : PollStep) (quiet : List PollStep)
    (hsend : env.sends_succeed) (hpolls : env.polls = s₁ :: s₂ :: quiet)
    (h₁ : s₁.ready = false)
    (hlong : NetworkProgrammer.TIMEOUT * steady_clock.ticks_per_millisecond ≤ s₁.elapsed)
    (h₂ : s₂.ready = true)
    (hignore : (np.after_send.after_send.process s₂.incoming).1 = .ok Result.Ignore)
    (hquiet : ∀ step ∈ quiet, step.ready = false) :
    (np.communicate env).1 = .error NetworkProgrammer.timeout_error
    ∧ (np.communicate env).2.1
        = (np.after_send.after_send.process s₂.incoming).2.after_send := by
  have hpos : 0 < NetworkProgrammer.TIMEOUT * steady_clock.ticks_per_millisecond := by decide
  -- first attempt
  have hw₁ : np.after_send.wait_reply env.deadline env.clock env.polls
      = (Waited.expired, np.after_send, env.clock + s₁.elapsed, s₂ :: quiet) := by
    rw [hpolls, NetworkProgrammer.wait_reply_skip _ _ _ _ _
        (by unfold Environment.deadline; omega) h₁,
      NetworkProgrammer.wait_reply_late _ _ _ _ _ (by unfold Environment.deadline; omega)]
  have ha₁ := NetworkProgrammer.attempt_sent np env (Environment.sends_succeed_head env hsend)
  rw [hw₁] at ha₁
  have hs₁ := Environment.sends_succeed_tail env hsend (env.clock + s₁.elapsed) (s₂ :: quiet)
  -- second attempt
  obtain ⟨clock₂, rest₂, hsil, hrest₂⟩ := NetworkProgrammer.wait_reply_silent
    (env.clock + s₁.elapsed + NetworkProgrammer.TIMEOUT * steady_clock.ticks_per_millisecond)
    quiet (np.after_send.after_send.process s₂.incoming).2
    (env.clock + s₁.elapsed + s₂.elapsed) hquiet
  have ha₂ := NetworkProgrammer.attempt_sent np.after_send
    { clock := env.clock + s₁.elapsed, sendto_errors := env.sendto_errors.tail,
      polls := s₂ :: quiet } (Environment.sends_succeed_head _ hs₁)
  simp only [Environment.deadline] at ha₂
  rw [NetworkProgrammer.wait_reply_continue _ _ _ _ _ (by omega) h₂ (Or.inl hignore),
    hsil] at ha₂
  have hs₂ := Environment.sends_succeed_tail _ hs₁ clock₂ rest₂
  -- third attempt
  obtain ⟨env₃, ha₃, _, _⟩ := NetworkProgrammer.attempt_silent
    (np.after_send.after_send.process s₂.incoming).2
    { clock := clock₂, sendto_errors := env.sendto_errors.tail.tail, polls := rest₂ }
    hs₂ hrest₂
  have h : np.communicate env = (.error NetworkProgrammer.timeout_error,
      (np.after_send.after_send.process s₂.incoming).2.after_send, env₃) := by
    unfold NetworkProgrammer.communicate
    rw [NetworkProgrammer.communicate_from_expired 2 _ _ _ _ ha₁,
      NetworkProgrammer.communicate_from_expired 1 _ _ _ _ ha₂,
      NetworkProgrammer.communicate_from_expired 0 _ _ _ _ ha₃]
    rfl
  rw [h]
  exact ⟨rfl, rfl⟩

/-- The datagrams a call of `communicate` adds to the log when every `sendto`
succeeds: the first `k` of the three frames, `k` between 1 and 3. -/
theorem NetworkProgrammer.communicate_sent (np : NetworkProgrammer) (env : Environment)
    (hsend : env.sends_succeed) :
    ∃ k, 1 ≤ k ∧ k ≤ 3 ∧ (np.communicate env).2.1._socket.sent
      = np._socket.sent ++ ([np._tx_buf.data.1, np.after_send._tx_buf.data.1,
          np.after_send.after_send._tx_buf.data.1].take k).map
            (fun frame => (frame, np._tx_address)) := by
  obtain ⟨k, hk3, hk1, hside⟩ := NetworkProgrammer.communicate_from_send_side 3 np env hsend
  have hk : 1 ≤ k := hk1 (by decide)
  refine ⟨k, hk, hk3, ?_⟩
  unfold NetworkProgrammer.communicate
  rw [hside.2.1]
  interval_cases k
  · simp [NetworkProgrammer.after_send]
  · simp [NetworkProgrammer.after_send]
  · simp [NetworkProgrammer.after_send]

/-- Claim C14.  The three frames a call of `communicate()` can transmit carry
pairwise distinct sequence values, and the frames it does transmit are the
first `k` of them.  A reply that carries the sequence of the first attempt is
ignored by `process()` while the second or the third attempt waits, and one
that carries the sequence of the second attempt is ignored while the third
waits, whatever its operation and status (Ok included).  Such a reply does not
end the call: when the first attempt passes in silence and the reply to it
arrives during the second, followed by silence, `communicate()` transmits three
times and times out. -/
theorem attempts_carry_distinct_sequences (np : NetworkProgrammer)
    (hlen : 2 ≤ np._tx_buf._buffer.length) (hsize : 2 ≤ np._tx_buf._size) :
    (Protocol.Header.seq np._tx_buf.data.1 ≠ Protocol.Header.seq np.after_send._tx_buf.data.1
      ∧ Protocol.Header.seq np._tx_buf.data.1
          ≠ Protocol.Header.seq np.after_send.after_send._tx_buf.data.1
      ∧ Protocol.Header.seq np.after_send._tx_buf.data.1
          ≠ Protocol.Header.seq np.after_send.after_send._tx_buf.data.1)
    ∧ (∀ env : Environment, env.sends_succeed →
        ∃ k, 1 ≤ k ∧ k ≤ 3 ∧ (np.communicate env).2.1._socket.sent
          = np._socket.sent ++ ([np._tx_buf.data.1, np.after_send._tx_buf.data.1,
              np.after_send.after_send._tx_buf.data.1].take k).map
                (fun frame => (frame, np._tx_address)))
    ∧ (∀ (waiting : NetworkProgrammer) (d : List Nat) (source : sockaddr_in),
        Protocol.sizeof_ReplyHeader ≤ d.length → d.length ≤ ReceiveBuffer.capacity →
        Protocol.Header.version d = Protocol.VERSION →
        (Protocol.Header.seq d = Protocol.Header.seq np._tx_buf.data.1 →
          (waiting._tx_buf = np.after_send.after_send._tx_buf
            ∨ waiting._tx_buf = np.after_send.after_send.after_send._tx_buf) →
          (waiting.process (.datagram d source)).1 = .ok Result.Ignore)
        ∧ (Protocol.Header.seq d = Protocol.Header.seq np.after_send._tx_buf.data.1 →
          waiting._tx_buf = np.after_send.after_send.after_send._tx_buf →
          (waiting.process (.datagram d source)).1 = .ok Result.Ignore))
    ∧ (∀ (env : Environment) (s₁ s₂ : PollStep) (quiet : List PollStep) (d : List Nat)
        (source : sockaddr_in),
        env.sends_succeed → env.polls = s₁ :: s₂ :: quiet → s₁.ready = false →
        NetworkProgrammer.TIMEOUT * steady_clock.ticks_per_millisecond ≤ s₁.elapsed →
        s₂.ready = true → s₂.incoming = .datagram d source →
        Protocol.sizeof_ReplyHeader ≤ d.length → d.length ≤ ReceiveBuffer.capacity →
        Protocol.Header.version d = Protocol.VERSION →
        Protocol.Header.seq d = Protocol.Header.seq np._tx_buf.data.1 →
        (∀ step ∈ quiet, step.ready = false) →
        (np.communicate env).1 = .error NetworkProgrammer.timeout_error
        ∧ (np.communicate env).2.1._socket.sent.length = np._socket.sent.length + 3) := by
  obtain ⟨f1, f2, f3, e1, e2, e3⟩ := NetworkProgrammer.frames_sequence np hlen hsize
  have stale : ∀ (waiting : NetworkProgrammer) (d : List Nat) (source : sockaddr_in),
      Protocol.sizeof_ReplyHeader ≤ d.length → d.length ≤ ReceiveBuffer.capacity →
      Protocol.Header.version d = Protocol.VERSION →
      Protocol.Header.seq d ≠ waiting._tx_buf.get_sequence →
      (waiting.process (.datagram d source)).1 = .ok Result.Ignore := by
    intro waiting d source h4 hcap hver hseq
    rw [NetworkProgrammer.process_datagram waiting d source h4 hcap]
    simp [hver, hseq]
  refine ⟨⟨?_, ?_, ?_⟩, fun env hsend => NetworkProgrammer.communicate_sent np env hsend,
    ?_, ?_⟩
  · rw [f1, f2]; omega
  · rw [f1, f3]; omega
  · rw [f2, f3]; omega
  · intro waiting d source h4 hcap hver
    constructor
    · intro hseq hw
      apply stale waiting d source h4 hcap hver
      rcases hw with hw | hw
      · rw [hw, hseq, f1, e2]; omega
      · rw [hw, hseq, f1, e3]; omega
    · intro hseq hw
      apply stale waiting d source h4 hcap hver
      rw [hw, hseq, f2, e3]; omega
  · intro env s₁ s₂ quiet d source hsend hpolls h₁ hlong h₂ hinc h4 hcap hver hseq hquiet
    have hignore : (np.after_send.after_send.process s₂.incoming).1 = .ok Result.Ignore := by
      rw [hinc]
      apply stale _ d source h4 hcap hver
      rw [hseq, f1, e2]; omega
    obtain ⟨hres, hstate⟩ := NetworkProgrammer.communicate_ignored_in_second_attempt np env
      s₁ s₂ quiet hsend hpolls h₁ hlong h₂ hignore hquiet
    refine ⟨hres, ?_⟩
    rw [hstate, NetworkProgrammer.after_send_sent,
      (NetworkProgrammer.process_keeps _ _).2.1]
    simp [NetworkProgrammer.after_send]

/-- Instance of C14: a Read request whose attempts carry the sequences 8, 9
and 10.  The first attempt passes in silence; during the second one the Ok
reply to the first (sequence 8) arrives.  The call still transmits three times
and times out. -/
theorem attempts_carry_distinct_sequences_witness :
    2 ≤ (sample_session [1, 7, 2, 0, 0, 0, 4, 0, 0, 16])._tx_buf._buffer.length
    ∧ 2 ≤ (sample_session [1, 7, 2, 0, 0, 0, 4, 0, 0, 16])._tx_buf._size
    ∧ Protocol.Header.seq [1, 8, 2, 1]
        = Protocol.Header.seq (sample_session [1, 7, 2, 0, 0, 0, 4, 0, 0, 16])._tx_buf.data.1
    ∧ Protocol.Header.status [1, 8, 2, 1] = Protocol.STATUS_OK
    ∧ ((sample_session [1, 7, 2, 0, 0, 0, 4, 0, 0, 16]).communicate
        (sample_environment [silent_pass 100000000,
          reply_pass [1, 8, 2, 1] sample_source 500])).1
        = .error NetworkProgrammer.timeout_error
    ∧ ((sample_session [1, 7, 2, 0, 0, 0, 4, 0, 0, 16]).communicate
        (sample_environment [silent_pass 100000000,
          reply_pass [1, 8, 2, 1] sample_source 500])).2.1._socket.sent.length
        = (sample_session [1, 7, 2, 0, 0, 0, 4, 0, 0, 16])._socket.sent.length + 3 :=
  have hlen : 2 ≤ (sample_session [1, 7, 2, 0, 0, 0, 4, 0, 0, 16])._tx_buf._buffer.length := by
    simp only [sample_session, List.length_append, List.length_replicate, List.length_cons,
      List.length_nil]
    decide
  have hsize : 2 ≤ (sample_session [1, 7, 2, 0, 0, 0, 4, 0, 0, 16])._tx_buf._size := by decide
  ⟨hlen, hsize, by decide, by decide,
    (attempts_carry_distinct_sequences _ hlen hsize).2.2.2
      (sample_environment [silent_pass 100000000, reply_pass [1, 8, 2, 1] sample_source 500])
      (silent_pass 100000000) (reply_pass [1, 8, 2, 1] sample_source 500) [] [1, 8, 2, 1]
      sample_source (fun _ h => absurd h (List.not_mem_nil _)) rfl rfl (by decide) rfl rfl
      (by decide) (by decide) (by decide) (by decide)
      (fun _ h => absurd h (List.not_mem_nil _))⟩

theorem NetworkProgrammer.absorb_keeps (steps : List PollStep) :
    ∀ np : NetworkProgrammer, NetworkProgrammer.same_send_side (np.absorb steps) np := by
  induction steps with
  | nil => intro np; exact ⟨rfl, rfl, rfl, rfl, rfl⟩
  | cons step rest ih =>
    intro np
    rw [NetworkProgrammer.absorb_cons]
    by_cases hr : step.ready = true
    · rw [if_pos hr]
      exact NetworkProgrammer.same_send_side_trans (ih _)
        (NetworkProgrammer.process_keeps np step.incoming)
    · rw [if_neg hr]
      exact ih np

/-- An attempt whose `sendto` did not fail has transmitted exactly once. -/
theorem NetworkProgrammer.attempt_transmits_once (np : NetworkProgrammer) (env : Environment)
    (h : ∀ failure, (np.attempt env).1 ≠ Attempted.send_failed failure) :
    NetworkProgrammer.same_send_side (np.attempt env).2.1 np.after_send := by
  by_cases hsend : env.sendto_errors.headD false = false
  · rw [NetworkProgrammer.attempt_sent np env hsend]
    exact NetworkProgrammer.wait_reply_keeps _ _ _ _
  · exfalso
    have ht : env.sendto_errors.headD false = true := by simpa using hsend
    apply h (.socket "sendto")
    unfold NetworkProgrammer.attempt
    simp only [ht, SocketUDP.sendto, if_true]

/-- An attempt in which harmless passes are followed, before the deadline, by a
pass whose datagram `process` answers with `outcome`: the inner loop reaches
that pass in the state the harmless ones left. -/
theorem NetworkProgrammer.attempt_reaches (np : NetworkProgrammer) (env : Environment)
    (quiet : List PollStep) (last : PollStep) (rest : List PollStep)
    (hsend : env.sendto_errors.headD false = false)
    (hpolls : env.polls = quiet ++ last :: rest)
    (hquiet : ∀ step ∈ quiet, step.harmless np.after_send)
    (htime : PollStep.total_elapsed quiet
      < NetworkProgrammer.TIMEOUT * steady_clock.ticks_per_millisecond) :
    np.attempt env =
      (((np.after_send.absorb quiet).wait_reply env.deadline
          (env.clock + PollStep.total_elapsed quiet) (last :: rest)).1.attempted,
        ((np.after_send.absorb quiet).wait_reply env.deadline
          (env.clock + PollStep.total_elapsed quiet) (last :: rest)).2.1,
        { clock := ((np.after_send.absorb quiet).wait_reply env.deadline
            (env.clock + PollStep.total_elapsed quiet) (last :: rest)).2.2.1,
          sendto_errors := env.sendto_errors.tail,
          polls := ((np.after_send.absorb quiet).wait_reply env.deadline
            (env.clock + PollStep.total_elapsed quiet) (last :: rest)).2.2.2 }) := by
  rw [NetworkProgrammer.attempt_sent np env hsend, hpolls,
    NetworkProgrammer.wait_reply_absorb env.deadline (last :: rest) quiet np.after_send
      env.clock hquiet (by unfold Environment.deadline; omega)]

theorem NetworkProgrammer.attempt_sent_length (np np₁ : NetworkProgrammer)
    (env env₁ : Environment) (outcome : Attempted)
    (h : np.attempt env = (outcome, np₁, env₁))
    (hout : ∀ failure, outcome ≠ Attempted.send_failed failure) :
    np₁._socket.sent.length = np._socket.sent.length + 1 := by
  have hside := NetworkProgrammer.attempt_transmits_once np env (by rw [h]; exact hout)
  rw [h] at hside
  rw [hside.2.1, NetworkProgrammer.after_send_sent]
  simp

/-- Claim C15.  Inside an attempt, the pass at which `process()` raises a
failure ends the attempt with that failure, and the passes behind it stay
unread.  An attempt that ends so ends `communicate()` with the same failure,
in the same state and with the same unread passes: when it is attempt number
1, 2 or 3 (the earlier ones having run to their deadlines), exactly 1, 2 or 3
datagrams have been transmitted, and the failure is the one `process()`
raised, not the timeout error. -/
theorem communicate_propagates_process_error (np : NetworkProgrammer) (env : Environment)
    (failure : Failure) :
    (∀ (quiet : List PollStep) (bad : PollStep) (rest : List PollStep),
        env.sendto_errors.headD false = false → env.polls = quiet ++ bad :: rest →
        (∀ step ∈ quiet, step.harmless np.after_send) →
        PollStep.total_elapsed quiet
          < NetworkProgrammer.TIMEOUT * steady_clock.ticks_per_millisecond →
        bad.ready = true → (np.after_send.process bad.incoming).1 = .error failure →
        (np.attempt env).1 = Attempted.raised failure ∧ (np.attempt env).2.2.polls = rest)
    ∧ (∀ (np₁ : NetworkProgrammer) (env₁ : Environment),
        np.attempt env = (Attempted.raised failure, np₁, env₁) →
        np.communicate env = (.error failure, np₁, env₁)
        ∧ np₁._socket.sent.length = np._socket.sent.length + 1)
    ∧ (∀ (np₁ np₂ : NetworkProgrammer) (env₁ env₂ : Environment),
        np.attempt env = (Attempted.expired, np₁, env₁) →
        np₁.attempt env₁ = (Attempted.raised failure, np₂, env₂) →
        np.communicate env = (.error failure, np₂, env₂)
        ∧ np₂._socket.sent.length = np._socket.sent.length + 2)
    ∧ (∀ (np₁ np₂ np₃ : NetworkProgrammer) (env₁ env₂ env₃ : Environment),
        np.attempt env = (Attempted.expired, np₁, env₁) →
        np₁.attempt env₁ = (Attempted.expired, np₂, env₂) →
        np₂.attempt env₂ = (Attempted.raised failure, np₃, env₃) →
        np.communicate env = (.error failure, np₃, env₃)
        ∧ np₃._socket.sent.length = np._socket.sent.length + 3) := by
  have hexp : ∀ f, Attempted.expired ≠ Attempted.send_failed f := fun _ h => by cases h
  have hrai : ∀ f, Attempted.raised failure ≠ Attempted.send_failed f := fun _ h => by cases h
  refine ⟨?_, ?_, ?_, ?_⟩
  · intro quiet bad rest hsend hpolls hquiet htime hready hraise
    have hd : env.deadline > env.clock + PollStep.total_elapsed quiet := by
      unfold Environment.deadline; omega
    have hk := (NetworkProgrammer.absorb_keeps quiet np.after_send).1
    have hraise' : ((np.after_send.absorb quiet).process bad.incoming).1 = .error failure := by
      rw [NetworkProgrammer.process_result_congr _ np.after_send bad.incoming hk]
      exact hraise
    rw [NetworkProgrammer.attempt_reaches np env quiet bad rest hsend hpolls hquiet htime,
      NetworkProgrammer.wait_reply_raised _ _ _ _ _ hd hready failure hraise']
    exact ⟨rfl, rfl⟩
  · intro np₁ env₁ h₁
    refine ⟨?_, NetworkProgrammer.attempt_sent_length np np₁ env env₁ _ h₁ hrai⟩
    unfold NetworkProgrammer.communicate
    rw [NetworkProgrammer.communicate_from_raised 2 _ _ _ _ _ h₁]
  · intro np₁ np₂ env₁ env₂ h₁ h₂
    constructor
    · unfold NetworkProgrammer.communicate
      rw [NetworkProgrammer.communicate_from_expired 2 _ _ _ _ h₁,
        NetworkProgrammer.communicate_from_raised 1 _ _ _ _ _ h₂]
    · rw [NetworkProgrammer.attempt_sent_length np₁ np₂ env₁ env₂ _ h₂ hrai,
        NetworkProgrammer.attempt_sent_length np np₁ env env₁ _ h₁ hexp]
  · intro np₁ np₂ np₃ env₁ env₂ env₃ h₁ h₂ h₃
    constructor
    · unfold NetworkProgrammer.communicate
      rw [NetworkProgrammer.communicate_from_expired 2 _ _ _ _ h₁,
        NetworkProgrammer.communicate_from_expired 1 _ _ _ _ h₂,
        NetworkProgrammer.communicate_from_raised 0 _ _ _ _ _ h₃]
    · rw [NetworkProgrammer.attempt_sent_length np₂ np₃ env₂ env₃ _ h₃ hrai,
        NetworkProgrammer.attempt_sent_length np₁ np₂ env₁ env₂ _ h₂ hexp,
        NetworkProgrammer.attempt_sent_length np np₁ env env₁ _ h₁ hexp]

/-- Instance of C15: a Read request.  The first attempt passes in silence.  In
the second one (sequence 9) a datagram with another sequence is ignored, then
a reply with sequence 9 and the operation Write arrives; a third datagram is
waiting behind it.  The call ends with the error of `process()` after two
transmissions, and the third datagram stays unread. -/
theorem communicate_propagates_process_error_witness :
    ((sample_session [1, 7, 2, 0, 0, 0, 4, 0, 0, 16]).communicate
        (sample_environment [silent_pass 100000000, reply_pass [1, 3, 2, 1] sample_source 500,
          reply_pass [1, 9, 3, 1] sample_source 500,
          reply_pass [1, 9, 2, 1] sample_source 500])).1
        = .error (.exception { _message := "Invalid operation code in response." })
    ∧ ((sample_session [1, 7, 2, 0, 0, 0, 4, 0, 0, 16]).communicate
        (sample_environment [silent_pass 100000000, reply_pass [1, 3, 2, 1] sample_source 500,
          reply_pass [1, 9, 3, 1] sample_source 500,
          reply_pass [1, 9, 2, 1] sample_source 500])).2.1._socket.sent.length = 0 + 2
    ∧ ((sample_session [1, 7, 2, 0, 0, 0, 4, 0, 0, 16]).communicate
        (sample_environment [silent_pass 100000000, reply_pass [1, 3, 2, 1] sample_source 500,
          reply_pass [1, 9, 3, 1] sample_source 500,
          reply_pass [1, 9, 2, 1] sample_source 500])).2.2.polls
        = [reply_pass [1, 9, 2, 1] sample_source 500] :=
  have h := (communicate_propagates_process_error
      (sample_session [1, 7, 2, 0, 0, 0, 4, 0, 0, 16])
      (sample_environment [silent_pass 100000000, reply_pass [1, 3, 2, 1] sample_source 500,
        reply_pass [1, 9, 3, 1] sample_source 500,
        reply_pass [1, 9, 2, 1] sample_source 500])
      (.exception { _message := "Invalid operation code in response." })).2.2.1
      _ _ _ _ rfl rfl
  ⟨congrArg Prod.fst h.1, (congrArg (fun r => r.2.1._socket.sent.length) h.1).trans h.2,
    (congrArg (fun r => r.2.2.polls) h.1).trans rfl⟩

/-- The object `process` leaves after a datagram that holds a whole header and
fits the receive buffer: the datagram lies at the start of the buffer, its
length is the content length, its source is `_rx_address`. -/
theorem NetworkProgrammer.process_datagram_state (np : NetworkProgrammer) (d : List Nat)
    (source : sockaddr_in) (hlen : Protocol.sizeof_ReplyHeader ≤ d.length)
    (hcap : d.length ≤ ReceiveBuffer.capacity) :
    (np.process (.datagram d source)).2 =
      { np with
        _rx_buf := { _size := d.length, _buffer := d ++ np._rx_buf._buffer.drop d.length },
        _rx_address := source } := by
  simp only [NetworkProgrammer.process, SocketUDP.recvfrom, Nat.not_lt.mpr hlen, if_false,
    ReceiveBuffer.set_content_length, if_pos hcap]
  split_ifs <;> rfl

/-- The reply `process` accepts: protocol version, the sequence and the
operation of the transmit buffer, status Ok. -/
theorem NetworkProgrammer.process_accepts (np : NetworkProgrammer) (d : List Nat)
    (source : sockaddr_in) (hlen : Protocol.sizeof_ReplyHeader ≤ d.length)
    (hcap : d.length ≤ ReceiveBuffer.capacity)
    (hver : Protocol.Header.version d = Protocol.VERSION)
    (hseq : Protocol.Header.seq d = np._tx_buf.get_sequence)
    (hop : Protocol.Header.operation d = np._tx_buf.get_operation)
    (hstatus : Protocol.Header.status d = Protocol.STATUS_OK) :
    (np.process (.datagram d source)).1 = .ok Result.Done := by
  rw [NetworkProgrammer.process_datagram np d source hlen hcap]
  simp [hver, hseq, hop, hstatus]

theorem NetworkProgrammer.attempt_done_length (np np₁ : NetworkProgrammer)
    (env env₁ : Environment) (h : np.attempt env = (Attempted.done, np₁, env₁)) :
    np₁._socket.sent.length = np._socket.sent.length + 1 :=
  NetworkProgrammer.attempt_sent_length np np₁ env env₁ _ h (fun _ hh => by cases hh)

/-- Claim C16.  Inside an attempt, when the passes that arrive before the
deadline are harmless ones (not read, or answered by `process()` with Ignore or
ExtendTime) followed by a reply with the protocol version, the sequence and
the operation of the request and status Ok, the attempt ends as done at that
reply: the passes behind it stay unread, the attempt has transmitted once, and
the receive buffer holds that reply (its bytes, its length, its source)
whatever came before it.  An attempt that ends as done ends `communicate()`
with success in the same state: as attempt 1, 2 or 3 (the earlier ones having
run to their deadlines) after exactly 1, 2 or 3 transmissions. -/
theorem communicate_returns_at_first_Done (np : NetworkProgrammer) (env : Environment) :
    (∀ (quiet : List PollStep) (win : PollStep) (rest : List PollStep) (d : List Nat)
        (source : sockaddr_in),
        env.sendto_errors.headD false = false → env.polls = quiet ++ win :: rest →
        (∀ step ∈ quiet, step.harmless np.after_send) →
        PollStep.total_elapsed quiet
          < NetworkProgrammer.TIMEOUT * steady_clock.ticks_per_millisecond →
        win.ready = true → win.incoming = .datagram d source →
        Protocol.sizeof_ReplyHeader ≤ d.length → d.length ≤ ReceiveBuffer.capacity →
        Protocol.Header.version d = Protocol.VERSION →
        Protocol.Header.seq d = np.after_send._tx_buf.get_sequence →
        Protocol.Header.operation d = np.after_send._tx_buf.get_operation →
        Protocol.Header.status d = Protocol.STATUS_OK →
        (np.attempt env).1 = Attempted.done
        ∧ (np.attempt env).2.2.polls = rest
        ∧ (np.attempt env).2.1._socket.sent
            = np._socket.sent ++ [(np._tx_buf.data.1, np._tx_address)]
        ∧ (np.attempt env).2.1._rx_buf._size = d.length
        ∧ (np.attempt env).2.1._rx_buf._buffer.take d.length = d
        ∧ (np.attempt env).2.1._rx_address = source)
    ∧ (∀ (np₁ : NetworkProgrammer) (env₁ : Environment),
        np.attempt env = (Attempted.done, np₁, env₁) →
        np.communicate env = (.ok (), np₁, env₁)
        ∧ np₁._socket.sent.length = np._socket.sent.length + 1)
    ∧ (∀ (np₁ np₂ : NetworkProgrammer) (env₁ env₂ : Environment),
        np.attempt env = (Attempted.expired, np₁, env₁) →
        np₁.attempt env₁ = (Attempted.done, np₂, env₂) →
        np.communicate env = (.ok (), np₂, env₂)
        ∧ np₂._socket.sent.length = np._socket.sent.length + 2)
    ∧ (∀ (np₁ np₂ np₃ : NetworkProgrammer) (env₁ env₂ env₃ : Environment),
        np.attempt env = (Attempted.expired, np₁, env₁) →
        np₁.attempt env₁ = (Attempted.expired, np₂, env₂) →
        np₂.attempt env₂ = (Attempted.done, np₃, env₃) →
        np.communicate env = (.ok (), np₃, env₃)
        ∧ np₃._socket.sent.length = np._socket.sent.length + 3) := by
  have hexp : ∀ f, Attempted.expired ≠ Attempted.send_failed f := fun _ h => by cases h
  refine ⟨?_, ?_, ?_, ?_⟩
  · intro quiet win rest d source hsend hpolls hquiet htime hready hinc hlen hcap hver hseq
      hop hstatus
    have hd : env.deadline > env.clock + PollStep.total_elapsed quiet := by
      unfold Environment.deadline; omega
    have hk := NetworkProgrammer.absorb_keeps quiet np.after_send
    have hdone : ((np.after_send.absorb quiet).process win.incoming).1 = .ok Result.Done := by
      rw [hinc]
      exact NetworkProgrammer.process_accepts _ d source hlen hcap hver
        (by rw [hk.1]; exact hseq) (by rw [hk.1]; exact hop) hstatus
    rw [NetworkProgrammer.attempt_reaches np env quiet win rest hsend hpolls hquiet htime,
      NetworkProgrammer.wait_reply_done _ _ _ _ _ hd hready hdone, hinc,
      NetworkProgrammer.process_datagram_state _ d source hlen hcap]
    refine ⟨rfl, rfl, ?_, rfl, ?_, rfl⟩
    · show (np.after_send.absorb quiet)._socket.sent = _
      rw [hk.2.1]; rfl
    · show (d ++ _).take d.length = d
      simp
  · intro np₁ env₁ h₁
    refine ⟨?_, NetworkProgrammer.attempt_done_length np np₁ env env₁ h₁⟩
    unfold NetworkProgrammer.communicate
    rw [NetworkProgrammer.communicate_from_done 2 _ _ _ _ h₁]
  · intro np₁ np₂ env₁ env₂ h₁ h₂
    constructor
    · unfold NetworkProgrammer.communicate
      rw [NetworkProgrammer.communicate_from_expired 2 _ _ _ _ h₁,
        NetworkProgrammer.communicate_from_done 1 _ _ _ _ h₂]
    · rw [NetworkProgrammer.attempt_done_length np₁ np₂ env₁ env₂ h₂,
        NetworkProgrammer.attempt_sent_length np np₁ env env₁ _ h₁ hexp]
  · intro np₁ np₂ np₃ env₁ env₂ env₃ h₁ h₂ h₃
    constructor
    · unfold NetworkProgrammer.communicate
      rw [NetworkProgrammer.communicate_from_expired 2 _ _ _ _ h₁,
        NetworkProgrammer.communicate_from_expired 1 _ _ _ _ h₂,
        NetworkProgrammer.communicate_from_done 0 _ _ _ _ h₃]
    · rw [NetworkProgrammer.attempt_done_length np₂ np₃ env₂ env₃ h₃,
        NetworkProgrammer.attempt_sent_length np₁ np₂ env₁ env₂ _ h₂ hexp,
        NetworkProgrammer.attempt_sent_length np np₁ env env₁ _ h₁ hexp]

/-- Instance of C16: a Read request sent with sequence 8.  A datagram with
another sequence and an InProgress reply come first, then the Ok reply with
four payload bytes; one more datagram is waiting behind it.  The call returns
success after one transmission, the last datagram is unread and the receive
buffer holds the Ok reply. -/
theorem communicate_returns_at_first_Done_witness :
    ((sample_session [1, 7, 2, 0, 0, 0, 4, 0, 0, 16]).communicate
        (sample_environment [reply_pass [1, 3, 2, 1] sample_source 500,
          reply_pass [1, 8, 2, 2] sample_source 500,
          reply_pass [1, 8, 2, 1, 170, 187, 204, 221] sample_source 500,
          reply_pass [1, 8, 2, 6] sample_source 500])).1 = .ok ()
    ∧ ((sample_session [1, 7, 2, 0, 0, 0, 4, 0, 0, 16]).communicate
        (sample_environment [reply_pass [1, 3, 2, 1] sample_source 500,
          reply_pass [1, 8, 2, 2] sample_source 500,
          reply_pass [1, 8, 2, 1, 170, 187, 204, 221] sample_source 500,
          reply_pass [1, 8, 2, 6] sample_source 500])).2.1._socket.sent.length = 0 + 1
    ∧ ((sample_session [1, 7, 2, 0, 0, 0, 4, 0, 0, 16]).communicate
        (sample_environment [reply_pass [1, 3, 2, 1] sample_source 500,
          reply_pass [1, 8, 2, 2] sample_source 500,
          reply_pass [1, 8, 2, 1, 170, 187, 204, 221] sample_source 500,
          reply_pass [1, 8, 2, 6] sample_source 500])).2.2.polls
        = [reply_pass [1, 8, 2, 6] sample_source 500]
    ∧ ((sample_session [1, 7, 2, 0, 0, 0, 4, 0, 0, 16]).communicate
        (sample_environment [reply_pass [1, 3, 2, 1] sample_source 500,
          reply_pass [1, 8, 2, 2] sample_source 500,
          reply_pass [1, 8, 2, 1, 170, 187, 204, 221] sample_source 500,
          reply_pass [1, 8, 2, 6] sample_source 500])).2.1._rx_buf._buffer.take 8
        = [1, 8, 2, 1, 170, 187, 204, 221] :=
  have h := (communicate_returns_at_first_Done
      (sample_session [1, 7, 2, 0, 0, 0, 4, 0, 0, 16])
      (sample_environment [reply_pass [1, 3, 2, 1] sample_source 500,
        reply_pass [1, 8, 2, 2] sample_source 500,
        reply_pass [1, 8, 2, 1, 170, 187, 204, 221] sample_source 500,
        reply_pass [1, 8, 2, 6] sample_source 500])).2.1 _ _ rfl
  ⟨congrArg Prod.fst h.1, (congrArg (fun r => r.2.1._socket.sent.length) h.1).trans h.2,
    (congrArg (fun r => r.2.2.polls) h.1).trans rfl,
    (congrArg (fun r => r.2.1._rx_buf._buffer.take 8) h.1).trans rfl⟩

/-- Claim C17.  While no device descriptor is bound (`_dev_desc` is null), each
of `NetworkProgrammer::read`, `write`, `erase` and `reset` ends with the
Exception "Not connected to a target." for every argument, and leaves the
object and the environment exactly as they were: the transmit buffer is
unchanged and no datagram has been handed to `sendto`. -/
theorem strategy_requires_connection (np : NetworkProgrammer) (env : Environment)
    (address size : Nat) (buffer : List Nat) (hnone : np._dev_desc = none) :
    np.read env address size =
        (.error (.exception { _message := "Not connected to a target." }), np, env)
    ∧ np.write env address buffer =
        (.error (.exception { _message := "Not connected to a target." }), np, env)
    ∧ np.erase env address =
        (.error (.exception { _message := "Not connected to a target." }), np, env)
    ∧ np.reset env =
        (.error (.exception { _message := "Not connected to a target." }), np, env) := by
  have hc : np.check_connection
      = .error (.exception { _message := "Not connected to a target." }) := by
    unfold NetworkProgrammer.check_connection
    rw [hnone]
  refine ⟨?_, ?_, ?_, ?_⟩
  · unfold NetworkProgrammer.read; rw [hc]
  · unfold NetworkProgrammer.write; rw [hc]
  · unfold NetworkProgrammer.erase; rw [hc]
  · unfold NetworkProgrammer.reset; rw [hc]

/-- Instance of C17: an unbound session; a reply is waiting in the
environment.  `read(1024, 128)` fails with "Not connected to a target.", the
transmit buffer keeps its bytes and nothing is sent. -/
theorem strategy_requires_connection_witness :
    (sample_session [1, 7, 2, 0, 0, 0, 4, 0, 0, 16])._dev_desc = none
    ∧ ((sample_session [1, 7, 2, 0, 0, 0, 4, 0, 0, 16]).read
        (sample_environment [reply_pass [1, 8, 2, 1, 0] sample_source 500]) 1024 128).1
        = .error (.exception { _message := "Not connected to a target." })
    ∧ ((sample_session [1, 7, 2, 0, 0, 0, 4, 0, 0, 16]).read
        (sample_environment [reply_pass [1, 8, 2, 1, 0] sample_source 500]) 1024 128).2.1._tx_buf
        = (sample_session [1, 7, 2, 0, 0, 0, 4, 0, 0, 16])._tx_buf
    ∧ ((sample_session [1, 7, 2, 0, 0, 0, 4, 0, 0, 16]).read
        (sample_environment [reply_pass [1, 8, 2, 1, 0] sample_source 500]) 1024 128
        ).2.1._socket.sent = [] :=
  have h := (strategy_requires_connection (sample_session [1, 7, 2, 0, 0, 0, 4, 0, 0, 16])
    (sample_environment [reply_pass [1, 8, 2, 1, 0] sample_source 500]) 1024 128 [] rfl).1
  ⟨rfl, congrArg Prod.fst h, congrArg (fun r => r.2.1._tx_buf) h,
    congrArg (fun r => r.2.1._socket.sent) h⟩

/-- Three attempts that pass in silence: `communicate` ends with the timeout
error in the object left by three transmissions. -/
theorem NetworkProgrammer.communicate_quiet (np : NetworkProgrammer) (env : Environment)
    (hsend : env.sends_succeed) (hquiet : ∀ step ∈ env.polls, step.ready = false) :
    ∃ env₃ : Environment, np.communicate env
      = (.error NetworkProgrammer.timeout_error, np.after_send.after_send.after_send, env₃) := by
  obtain ⟨env₁, h₁, hs₁, hq₁⟩ := NetworkProgrammer.attempt_silent np env hsend hquiet
  obtain ⟨env₂, h₂, hs₂, hq₂⟩ := NetworkProgrammer.attempt_silent np.after_send env₁ hs₁ hq₁
  obtain ⟨env₃, h₃, _, _⟩ :=
    NetworkProgrammer.attempt_silent np.after_send.after_send env₂ hs₂ hq₂
  refine ⟨env₃, ?_⟩
  unfold NetworkProgrammer.communicate
  rw [NetworkProgrammer.communicate_from_expired 2 _ _ _ _ h₁,
    NetworkProgrammer.communicate_from_expired 1 _ _ _ _ h₂,
    NetworkProgrammer.communicate_from_expired 0 _ _ _ _ h₃]
  rfl

/-- The request `checksum` hands to `communicate`. -/
theorem NetworkProgrammer.checksum_error (np np₂ : NetworkProgrammer) (env env₂ : Environment)
    (address size : Nat) (failure : Failure)
    (h : NetworkProgrammer.communicate
        { np with _tx_buf := np._tx_buf.select_operation Protocol.OP_CHECKSUM address size }
        env = (.error failure, np₂, env₂)) :
    np.checksum env address size = (.error failure, np₂, env₂) := by
  simp only [NetworkProgrammer.checksum, h]

/-- Whatever `checksum` returns, the object it leaves is the one its call of
`communicate` left. -/
theorem NetworkProgrammer.checksum_state (np : NetworkProgrammer) (env : Environment)
    (address size : Nat) :
    (np.checksum env address size).2.1 =
      (NetworkProgrammer.communicate
        { np with _tx_buf := np._tx_buf.select_operation Protocol.OP_CHECKSUM address size }
        env).2.1 := by
  simp only [NetworkProgrammer.checksum]
  rcases NetworkProgrammer.communicate
      { np with _tx_buf := np._tx_buf.select_operation Protocol.OP_CHECKSUM address size }
      env with ⟨result, np₂, env₂⟩
  cases result with
  | error failure => rfl
  | ok u =>
    dsimp only
    split
    · rfl
    · split <;> rfl

/-- Claim C18, evaluated on the code: with no device descriptor bound,
`NetworkProgrammer::checksum` does not stop with "Not connected to a target.".
It builds the Checksum request and runs `communicate()`: when the `sendto`
calls succeed at least one datagram is transmitted, and when nothing answers
it transmits three and ends with the timeout error. -/
theorem checksum_transmits_without_connection (np : NetworkProgrammer) (env : Environment)
    (address size : Nat) (hnone : np._dev_desc = none) (hsend : env.sends_succeed) :
    np.check_connection = .error (.exception { _message := "Not connected to a target." })
    ∧ (∃ k, 1 ≤ k ∧ k ≤ 3 ∧ (np.checksum env address size).2.1._socket.sent.length
        = np._socket.sent.length + k)
    ∧ ((∀ step ∈ env.polls, step.ready = false) →
        (np.checksum env address size).1
          = .error (.exception
              { _message := "The target did not respond within the specified time." })
        ∧ (np.checksum env address size).1
          ≠ .error (.exception { _message := "Not connected to a target." })
        ∧ (np.checksum env address size).2.1._socket.sent.length
          = np._socket.sent.length + 3) := by
  refine ⟨?_, ?_, ?_⟩
  · unfold NetworkProgrammer.check_connection; rw [hnone]
  · obtain ⟨k, hk1, hk3, hsent⟩ := NetworkProgrammer.communicate_sent
      { np with _tx_buf := np._tx_buf.select_operation Protocol.OP_CHECKSUM address size }
      env hsend
    refine ⟨k, hk1, hk3, ?_⟩
    rw [NetworkProgrammer.checksum_state, hsent]
    have : k ⊓ 3 = k := by omega
    simp [this]
  · intro hquiet
    obtain ⟨env₃, h⟩ := NetworkProgrammer.communicate_quiet
      { np with _tx_buf := np._tx_buf.select_operation Protocol.OP_CHECKSUM address size }
      env hsend hquiet
    rw [NetworkProgrammer.checksum_error np _ env env₃ address size _ h]
    refine ⟨rfl, ?_, ?_⟩
    · simp [NetworkProgrammer.timeout_error]
    · simp [NetworkProgrammer.after_send_sent]

/-- The failing input of C18: a session with no descriptor bound, whose last
frame was a Read request with sequence 7, asked for the checksum of 16 bytes at
address 0 while nothing answers.  The call ends with the timeout error, after
three transmissions. -/
theorem checksum_transmits_without_connection_witness :
    (sample_session [1, 7, 2, 0, 0, 0, 4, 0, 0, 16])._dev_desc = none
    ∧ (sample_environment [silent_pass 250000000]).sends_succeed
    ∧ (∀ step ∈ (sample_environment [silent_pass 250000000]).polls, step.ready = false)
    ∧ ((sample_session [1, 7, 2, 0, 0, 0, 4, 0, 0, 16]).checksum
        (sample_environment [silent_pass 250000000]) 0 16).1
        = .error (.exception
            { _message := "The target did not respond within the specified time." })
    ∧ ((sample_session [1, 7, 2, 0, 0, 0, 4, 0, 0, 16]).checksum
        (sample_environment [silent_pass 250000000]) 0 16).2.1._socket.sent.length = 0 + 3 :=
  have hsend : (sample_environment [silent_pass 250000000]).sends_succeed :=
    fun _ h => absurd h (List.not_mem_nil _)
  have hquiet : ∀ step ∈ (sample_environment [silent_pass 250000000]).polls,
      step.ready = false := by decide
  have h := (checksum_transmits_without_connection
    (sample_session [1, 7, 2, 0, 0, 0, 4, 0, 0, 16])
    (sample_environment [silent_pass 250000000]) 0 16 rfl hsend).2.2 hquiet
  ⟨rfl, hsend, hquiet, h.1, h.2.2⟩

/-- A call of `process` that returns a result has read a datagram, and the
source of that datagram is what `_rx_address` holds afterwards. -/
theorem NetworkProgrammer.process_source (np np₁ : NetworkProgrammer) (incoming : Incoming)
    (result : Result) (h : np.process incoming = (.ok result, np₁)) :
    ∃ bytes, incoming = .datagram bytes np₁._rx_address := by
  cases incoming with
  | socket_error => simp [NetworkProgrammer.process, SocketUDP.recvfrom] at h
  | datagram d source =>
    refine ⟨d, ?_⟩
    have hs : (np.process (.datagram d source)).2._rx_address = source := by
      simp only [NetworkProgrammer.process, SocketUDP.recvfrom,
        ReceiveBuffer.set_content_length]
      split_ifs
      · simp
      · dsimp only
        split_ifs <;> simp
      · simp
    rw [h] at hs
    rw [← hs]

/-- The passes the inner loop leaves are a tail of the passes it was given, and
when it ends as done the last pass it used delivered the datagram that
`process` answered with Done, whose source `_rx_address` holds. -/
theorem NetworkProgrammer.wait_reply_trace (deadline : Nat) (polls : List PollStep) :
    ∀ (np : NetworkProgrammer) (now : Nat),
      (∃ used, polls = used ++ (np.wait_reply deadline now polls).2.2.2)
      ∧ ((np.wait_reply deadline now polls).1 = Waited.done →
          ∃ (before : List PollStep) (step : PollStep) (bytes : List Nat)
              (np₀ : NetworkProgrammer),
            polls = before ++ step :: (np.wait_reply deadline now polls).2.2.2
            ∧ step.incoming = .datagram bytes (np.wait_reply deadline now polls).2.1._rx_address
            ∧ np₀.process step.incoming
                = ((.ok Result.Done : Except Failure Result),
                    (np.wait_reply deadline now polls).2.1)) := by
  induction polls with
  | nil =>
    intro np now
    exact ⟨⟨[], rfl⟩, fun h => by simp [NetworkProgrammer.wait_reply] at h⟩
  | cons step rest ih =>
    intro np now
    by_cases hd : deadline > now
    · cases hr : step.ready with
      | false =>
        rw [NetworkProgrammer.wait_reply_skip deadline np now step rest hd hr]
        obtain ⟨⟨used, hu⟩, hdone⟩ := ih np (now + step.elapsed)
        refine ⟨⟨step :: used, by rw [List.cons_append, ← hu]⟩, fun h => ?_⟩
        obtain ⟨before, win, bytes, np₀, hb, hi, hp⟩ := hdone h
        exact ⟨step :: before, win, bytes, np₀, by rw [List.cons_append, ← hb], hi, hp⟩
      | true =>
        rcases hp : np.process step.incoming with ⟨r, np₁⟩
        rcases r with f | res
        · rw [NetworkProgrammer.wait_reply_raised deadline np now step rest hd hr f
            (by rw [hp])]
          exact ⟨⟨[step], rfl⟩, fun h => by simp at h⟩
        · cases res with
          | Done =>
            rw [NetworkProgrammer.wait_reply_done deadline np now step rest hd hr
              (by rw [hp])]
            refine ⟨⟨[step], rfl⟩, fun _ => ?_⟩
            obtain ⟨bytes, hb⟩ := NetworkProgrammer.process_source np np₁ step.incoming _ hp
            exact ⟨[], step, bytes, np, rfl, by rw [hp]; exact hb, by rw [hp]⟩
          | Ignore =>
            rw [NetworkProgrammer.wait_reply_continue deadline np now step rest hd hr
              (by rw [hp]; exact Or.inl rfl)]
            obtain ⟨⟨used, hu⟩, hdone⟩ :=
              ih (np.process step.incoming).2 (now + step.elapsed)
            refine ⟨⟨step :: used, by rw [List.cons_append, ← hu]⟩, fun h => ?_⟩
            obtain ⟨before, win, bytes, np₀, hb, hi, hq⟩ := hdone h
            exact ⟨step :: before, win, bytes, np₀, by rw [List.cons_append, ← hb], hi, hq⟩
          | ExtendTime =>
            rw [NetworkProgrammer.wait_reply_continue deadline np now step rest hd hr
              (by rw [hp]; exact Or.inr rfl)]
            obtain ⟨⟨used, hu⟩, hdone⟩ :=
              ih (np.process step.incoming).2 (now + step.elapsed)
            refine ⟨⟨step :: used, by rw [List.cons_append, ← hu]⟩, fun h => ?_⟩
            obtain ⟨before, win, bytes, np₀, hb, hi, hq⟩ := hdone h
            exact ⟨step :: before, win, bytes, np₀, by rw [List.cons_append, ← hb], hi, hq⟩
    · rw [NetworkProgrammer.wait_reply_late deadline np now step rest hd]
      exact ⟨⟨[], rfl⟩, fun h => by simp at h⟩

/-- An attempt whose `sendto` throws reads no pass. -/
theorem NetworkProgrammer.attempt_send_failed (np : NetworkProgrammer) (env : Environment)
    (hsend : env.sendto_errors.headD false = true) :
    (np.attempt env).1 = Attempted.send_failed (.socket "sendto")
    ∧ (np.attempt env).2.2.polls = env.polls := by
  unfold NetworkProgrammer.attempt
  simp only [hsend, SocketUDP.sendto, if_true]
  exact ⟨trivial, trivial⟩

/-- The passes an attempt leaves are a tail of the passes it was given, and
when it ends as done the last pass it used delivered the datagram that
`process` answered with Done, whose source `_rx_address` holds. -/
theorem NetworkProgrammer.attempt_trace (np : NetworkProgrammer) (env : Environment) :
    (∃ used, env.polls = used ++ (np.attempt env).2.2.polls)
    ∧ ((np.attempt env).1 = Attempted.done →
        ∃ (before : List PollStep) (step : PollStep) (bytes : List Nat)
            (np₀ : NetworkProgrammer),
          env.polls = before ++ step :: (np.attempt env).2.2.polls
          ∧ step.incoming = .datagram bytes (np.attempt env).2.1._rx_address
          ∧ np₀.process step.incoming
              = ((.ok Result.Done : Except Failure Result), (np.attempt env).2.1)) := by
  cases hsend : env.sendto_errors.headD false with
  | true =>
    obtain ⟨h1, h2⟩ := NetworkProgrammer.attempt_send_failed np env hsend
    rw [h1, h2]
    exact ⟨⟨[], rfl⟩, fun h => by cases h⟩
  | false =>
    rw [NetworkProgrammer.attempt_sent np env hsend]
    obtain ⟨hused, hdone⟩ :=
      NetworkProgrammer.wait_reply_trace env.deadline env.polls np.after_send env.clock
    refine ⟨hused, fun h => hdone ?_⟩
    revert h
    cases (np.after_send.wait_reply env.deadline env.clock env.polls).1 <;>
      simp [Waited.attempted]

/-- The passes `communicate` leaves are a tail of the passes it was given, and
when it returns the last pass it used delivered the datagram that `process`
answered with Done, whose source `_rx_address` holds. -/
theorem NetworkProgrammer.communicate_from_trace (remaining : Nat) :
    ∀ (np : NetworkProgrammer) (env : Environment),
      (∃ used, env.polls = used ++ (NetworkProgrammer.communicate_from remaining np env).2.2.polls)
      ∧ ((NetworkProgrammer.communicate_from remaining np env).1 = .ok () →
          ∃ (before : List PollStep) (step : PollStep) (bytes : List Nat)
              (np₀ : NetworkProgrammer),
            env.polls = before ++ step ::
                (NetworkProgrammer.communicate_from remaining np env).2.2.polls
            ∧ step.incoming = .datagram bytes
                (NetworkProgrammer.communicate_from remaining np env).2.1._rx_address
            ∧ np₀.process step.incoming
                = ((.ok Result.Done : Except Failure Result),
                    (NetworkProgrammer.communicate_from remaining np env).2.1)) := by
  induction remaining with
  | zero =>
    intro np env
    exact ⟨⟨[], rfl⟩, fun h => by simp [NetworkProgrammer.communicate_from] at h⟩
  | succ n ih =>
    intro np env
    obtain ⟨⟨used, hused⟩, hdone⟩ := NetworkProgrammer.attempt_trace np env
    rcases hat : np.attempt env with ⟨outcome, np₁, env₁⟩
    rw [hat] at hused hdone
    cases outcome with
    | send_failed failure =>
      rw [NetworkProgrammer.communicate_from_send_failed n _ _ _ _ _ hat]
      exact ⟨⟨used, hused⟩, fun h => by cases h⟩
    | raised failure =>
      rw [NetworkProgrammer.communicate_from_raised n _ _ _ _ _ hat]
      exact ⟨⟨used, hused⟩, fun h => by cases h⟩
    | done =>
      rw [NetworkProgrammer.communicate_from_done n _ _ _ _ hat]
      exact ⟨⟨used, hused⟩, fun _ => hdone rfl⟩
    | expired =>
      rw [NetworkProgrammer.communicate_from_expired n _ _ _ _ hat]
      obtain ⟨⟨used₁, hused₁⟩, hdone₁⟩ := ih np₁ env₁
      dsimp only at hused
      refine ⟨⟨used ++ used₁, by rw [List.append_assoc, ← hused₁, hused]⟩, fun h => ?_⟩
      obtain ⟨before, win, bytes, np₀, hb, hi, hp⟩ := hdone₁ h
      exact ⟨used ++ before, win, bytes, np₀,
        by rw [List.append_assoc, ← hb, hused], hi, hp⟩

/-- Once `communicate` has returned, `process_discover` leaves `_tx_address`
equal to the `_rx_address` of that moment and the broadcast option off,
however the decoding behind it ends. -/
theorem NetworkProgrammer.process_discover_pins (np np₁ : NetworkProgrammer)
    (env env₁ : Environment) (find : Nat → Option DeviceDescriptor) (op : Nat)
    (h : np.communicate env = (.ok (), np₁, env₁)) :
    (np.process_discover env find op).2.1._tx_address = np₁._rx_address
    ∧ (np.process_discover env find op).2.1._socket.broadcast = false := by
  simp only [NetworkProgrammer.process_discover, h]
  repeat' split
  all_goals exact ⟨rfl, rfl⟩

/-- The handler around a call changes the exception only. -/
theorem catch_prepend_exception_state {α : Type}
    (outcome : Except Failure α × NetworkProgrammer × Environment) (context : String) :
    (catch_prepend_exception outcome context).2 = outcome.2 := by
  unfold catch_prepend_exception
  split <;> rfl

/-- Claim C19.  Let `communicate()` return inside a handshake.  The last pass of
the inner loop it used delivered the datagram that `process()` answered with
Done, and `_rx_address` holds the source of that datagram, not the source of a
datagram read earlier in the call.  In the object
`process_discover` leaves, for every operation and however the rest of the
function ends, the destination `_tx_address` is that source, and the broadcast
option is off.  So it is after `discover_device` and after `connect_device`,
whatever address the request went to. -/
theorem handshake_pins_source_of_accepted_reply (np np₁ : NetworkProgrammer)
    (env env₁ : Environment) (find : Nat → Option DeviceDescriptor)
    (h : np.communicate env = (.ok (), np₁, env₁)) :
    (∃ (before : List PollStep) (step : PollStep) (bytes : List Nat)
        (np₀ : NetworkProgrammer),
      env.polls = before ++ step :: env₁.polls
      ∧ step.incoming = .datagram bytes np₁._rx_address
      ∧ np₀.process step.incoming = ((.ok Result.Done : Except Failure Result), np₁))
    ∧ (∀ op, (np.process_discover env find op).2.1._tx_address = np₁._rx_address
        ∧ (np.process_discover env find op).2.1._socket.broadcast = false)
    ∧ (∀ (session : NetworkProgrammer) (port : Nat),
        np = { session.set_address INADDR_BROADCAST port with
                _tx_buf := (session.set_address INADDR_BROADCAST port)._tx_buf.select_operation
                  Protocol.OP_DISCOVER 0 0 } →
        (session.discover_device env find port).2.1._tx_address = np₁._rx_address)
    ∧ (∀ (session : NetworkProgrammer) (ip_address port : Nat),
        np = { session.set_address ip_address port with
                _tx_buf := (session.set_address ip_address port)._tx_buf.select_operation
                  Protocol.OP_DISCOVER 0 0 } →
        (session.connect_device env find ip_address port).2.1._tx_address
          = np₁._rx_address) := by
  refine ⟨?_, fun op => NetworkProgrammer.process_discover_pins np np₁ env env₁ find op h,
    ?_, ?_⟩
  · have ht := (NetworkProgrammer.communicate_from_trace 3 np env).2
    unfold NetworkProgrammer.communicate at h
    rw [h] at ht
    exact ht rfl
  · intro session port hnp
    have hp := (NetworkProgrammer.process_discover_pins np np₁ env env₁ find
      Protocol.OP_DISCOVER h).1
    rw [hnp] at hp
    exact hp
  · intro session ip_address port hnp
    have hp := (NetworkProgrammer.process_discover_pins np np₁ env env₁ find
      Protocol.OP_DISCOVER h).1
    rw [hnp] at hp
    unfold NetworkProgrammer.connect_device
    rw [catch_prepend_exception_state]
    exact hp

set_option maxRecDepth 4000 in
/-- Instance of C19: a broadcast Discover with sequence 8.  A datagram from
10.0.0.9 with another sequence is read and ignored, then the Ok reply arrives
from 10.0.0.5: the request went to 255.255.255.255, and the destination the
handshake leaves is 10.0.0.5. -/
theorem handshake_pins_source_of_accepted_reply_witness :
    ((sample_session [1, 7, 2, 0, 0, 0, 4, 0, 0, 16]).set_address INADDR_BROADCAST 666
        )._tx_address.sin_addr = 0xFFFFFFFF
    ∧ ((sample_session [1, 7, 2, 0, 0, 0, 4, 0, 0, 16]).discover_device
        (sample_environment
          [reply_pass [1, 3, 0, 1, 1, 2, 0, 0, 126, 0, 52, 18]
            { sin_family := 2, sin_port := 666, sin_addr := 0x0A000009 } 500,
           reply_pass [1, 8, 0, 1, 1, 2, 0, 0, 126, 0, 52, 18] sample_source 500])
        (fun _ => none) 666).2.1._tx_address = sample_source
    ∧ sample_source.sin_addr = 0x0A000005 :=
  ⟨rfl,
    ((handshake_pins_source_of_accepted_reply
      { (sample_session [1, 7, 2, 0, 0, 0, 4, 0, 0, 16]).set_address INADDR_BROADCAST 666 with
        _tx_buf := ((sample_session [1, 7, 2, 0, 0, 0, 4, 0, 0, 16]).set_address
          INADDR_BROADCAST 666)._tx_buf.select_operation Protocol.OP_DISCOVER 0 0 }
      _
      (sample_environment
        [reply_pass [1, 3, 0, 1, 1, 2, 0, 0, 126, 0, 52, 18]
          { sin_family := 2, sin_port := 666, sin_addr := 0x0A000009 } 500,
         reply_pass [1, 8, 0, 1, 1, 2, 0, 0, 126, 0, 52, 18] sample_source 500])
      _ (fun _ => none) rfl).2.2.1
      (sample_session [1, 7, 2, 0, 0, 0, 4, 0, 0, 16]) 666 rfl).trans rfl,
    rfl⟩

/-- An attempt leaves the bootloader identity and the bound descriptor alone. -/
theorem NetworkProgrammer.attempt_keeps_identity (np : NetworkProgrammer) (env : Environment) :
    (np.attempt env).2.1._bootloader = np._bootloader
    ∧ (np.attempt env).2.1._dev_desc = np._dev_desc := by
  cases hsend : env.sendto_errors.headD false with
  | true =>
    unfold NetworkProgrammer.attempt
    simp only [hsend, SocketUDP.sendto, if_true, and_self]
  | false =>
    rw [NetworkProgrammer.attempt_sent np env hsend]
    have hk := NetworkProgrammer.wait_reply_keeps env.deadline env.polls np.after_send env.clock
    exact ⟨hk.2.2.2.1, hk.2.2.2.2⟩

/-- The loop of `communicate` leaves the bootloader identity and the bound
descriptor alone. -/
theorem NetworkProgrammer.communicate_from_keeps_identity (remaining : Nat) :
    ∀ (np : NetworkProgrammer) (env : Environment),
      (NetworkProgrammer.communicate_from remaining np env).2.1._bootloader = np._bootloader
      ∧ (NetworkProgrammer.communicate_from remaining np env).2.1._dev_desc = np._dev_desc := by
  induction remaining with
  | zero => intro np env; exact ⟨rfl, rfl⟩
  | succ n ih =>
    intro np env
    have hk := NetworkProgrammer.attempt_keeps_identity np env
    rcases hat : np.attempt env with ⟨outcome, np₁, env₁⟩
    rw [hat] at hk
    cases outcome with
    | send_failed failure =>
      rw [NetworkProgrammer.communicate_from_send_failed n _ _ _ _ _ hat]; exact hk
    | raised failure =>
      rw [NetworkProgrammer.communicate_from_raised n _ _ _ _ _ hat]; exact hk
    | done =>
      rw [NetworkProgrammer.communicate_from_done n _ _ _ _ hat]; exact hk
    | expired =>
      rw [NetworkProgrammer.communicate_from_expired n _ _ _ _ hat]
      exact ⟨(ih np₁ env₁).1.trans hk.1, (ih np₁ env₁).2.trans hk.2⟩

/-- With a reply of at least header plus payload in the receive buffer and the
operation asked for, the typed accessor returns the pointer made from the
byte behind the header, and every read through it is undefined. -/
theorem ReceiveBuffer.get_payload_typed_wild (rx : ReceiveBuffer) (sizeof_T op : Nat)
    (hsize : Protocol.sizeof_ReplyHeader + sizeof_T ≤ rx._size)
    (hop : rx.get_operation = op) :
    rx.get_payload_typed sizeof_T op
      = .ok (Pointer.from_integer (rx._buffer.getD Protocol.sizeof_ReplyHeader 0))
    ∧ ∀ offset count,
        rx.load (Pointer.from_integer (rx._buffer.getD Protocol.sizeof_ReplyHeader 0))
            offset count
          = .error (.undefined "read through a pointer made from a byte value") := by
  constructor
  · unfold ReceiveBuffer.get_payload_typed
    rw [if_neg (by omega), if_neg (by simp [hop])]
  · intro offset count; rfl

/-- The fields of a `DiscoverReply` as its declaration lays them out, read
through the address of the byte behind the header: `version` big-endian at
offset 0, `bootloader_address` big-endian at offset 2, `device_id`
little-endian at offset 6. -/
theorem ReceiveBuffer.DiscoverReply_fields (rx : ReceiveBuffer) (header tail : List Nat)
    (p0 p1 p2 p3 p4 p5 p6 p7 : Nat) (hheader : header.length = Protocol.sizeof_ReplyHeader)
    (hbuf : rx._buffer = header ++ [p0, p1, p2, p3, p4, p5, p6, p7] ++ tail) :
    (rx.load (Pointer.element Protocol.sizeof_ReplyHeader) 0 2).map Protocol.be16_value
      = .ok (p0 * 256 + p1)
    ∧ (rx.load (Pointer.element Protocol.sizeof_ReplyHeader) 2 4).map Protocol.be32_value
      = .ok (p2 * 2 ^ 24 + p3 * 2 ^ 16 + p4 * 2 ^ 8 + p5)
    ∧ (rx.load (Pointer.element Protocol.sizeof_ReplyHeader) 6 2).map Protocol.le16_value
      = .ok (p6 + p7 * 256) := by
  have hd : rx._buffer.drop Protocol.sizeof_ReplyHeader
      = [p0, p1, p2, p3, p4, p5, p6, p7] ++ tail := by
    rw [hbuf, List.append_assoc, ← hheader, List.drop_left]
  have h0 : rx._buffer.drop (Protocol.sizeof_ReplyHeader + 0)
      = [p0, p1, p2, p3, p4, p5, p6, p7] ++ tail := hd
  have h2 : rx._buffer.drop (Protocol.sizeof_ReplyHeader + 2)
      = [p2, p3, p4, p5, p6, p7] ++ tail := by
    rw [← List.drop_drop, hd]; rfl
  have h6 : rx._buffer.drop (Protocol.sizeof_ReplyHeader + 6) = [p6, p7] ++ tail := by
    rw [← List.drop_drop, hd]; rfl
  refine ⟨?_, ?_, ?_⟩
  · simp only [ReceiveBuffer.load, h0, Except.map]
    simp [Protocol.be16_value]
  · simp only [ReceiveBuffer.load, h2, Except.map]
    simp [Protocol.be32_value]
  · simp only [ReceiveBuffer.load, h6, Except.map]
    simp [Protocol.le16_value]

/-- Claim C20, evaluated on the code: when `communicate()` has accepted a
Discover reply with the eight payload bytes behind its header,
`process_discover` does not store the decoded fields.  The accessor
`get_payload<DiscoverReply>` returns a pointer made from the value of the
byte behind the header, the first read through it (`info->bootloader_address`)
is undefined, and `_bootloader` and `_dev_desc` are as they were before the
handshake: no version, address or device id is stored and no descriptor is
looked up. -/
theorem process_discover_reads_through_wild_pointer (np np₁ : NetworkProgrammer)
    (env env₁ : Environment) (find : Nat → Option DeviceDescriptor) (op : Nat)
    (h : np.communicate env = (.ok (), np₁, env₁))
    (hsize : Protocol.sizeof_ReplyHeader + Protocol.sizeof_DiscoverReply ≤ np₁._rx_buf._size)
    (hop : np₁._rx_buf.get_operation = op) :
    np₁._rx_buf.get_payload_typed Protocol.sizeof_DiscoverReply op
      = .ok (Pointer.from_integer (np₁._rx_buf._buffer.getD Protocol.sizeof_ReplyHeader 0))
    ∧ (np.process_discover env find op).1
      = .error (.undefined "read through a pointer made from a byte value")
    ∧ (np.process_discover env find op).2.1._bootloader = np._bootloader
    ∧ (np.process_discover env find op).2.1._dev_desc = np._dev_desc := by
  obtain ⟨hptr, hload⟩ :=
    ReceiveBuffer.get_payload_typed_wild np₁._rx_buf Protocol.sizeof_DiscoverReply op hsize hop
  have hid := NetworkProgrammer.communicate_from_keeps_identity 3 np env
  unfold NetworkProgrammer.communicate at h
  rw [h] at hid
  refine ⟨hptr, ?_⟩
  simp only [NetworkProgrammer.process_discover, NetworkProgrammer.communicate, h, hptr, hload]
  exact ⟨trivial, hid.1, hid.2⟩

set_option maxRecDepth 4000 in
/-- The failing input of C20: a broadcast Discover with sequence 8 answered
from 10.0.0.5 with version 1.02, bootloader address 0x00007E00 and device id
0x1234 (payload 01 02 00 00 7E 00 34 12), with a registry that knows that id.
The handshake ends in the undefined read, and the bootloader identity is still
the zeroed one the session started with; no descriptor is bound. -/
theorem process_discover_reads_through_wild_pointer_witness :
    ((sample_session [1, 7, 2, 0, 0, 0, 4, 0, 0, 16]).discover_device
        (sample_environment
          [reply_pass [1, 8, 0, 1, 1, 2, 0, 0, 126, 0, 52, 18] sample_source 500])
        sample_registry 666).1
      = .error (.undefined "read through a pointer made from a byte value")
    ∧ ((sample_session [1, 7, 2, 0, 0, 0, 4, 0, 0, 16]).discover_device
        (sample_environment
          [reply_pass [1, 8, 0, 1, 1, 2, 0, 0, 126, 0, 52, 18] sample_source 500])
        sample_registry 666).2.1._bootloader = { address := 0, version := 0, device_id := 0 }
    ∧ ((sample_session [1, 7, 2, 0, 0, 0, 4, 0, 0, 16]).discover_device
        (sample_environment
          [reply_pass [1, 8, 0, 1, 1, 2, 0, 0, 126, 0, 52, 18] sample_source 500])
        sample_registry 666).2.1._dev_desc = none
    ∧ sample_registry (Protocol.le16_value [52, 18]) ≠ none :=
  have h := process_discover_reads_through_wild_pointer
    { (sample_session [1, 7, 2, 0, 0, 0, 4, 0, 0, 16]).set_address INADDR_BROADCAST 666 with
      _tx_buf := ((sample_session [1, 7, 2, 0, 0, 0, 4, 0, 0, 16]).set_address
        INADDR_BROADCAST 666)._tx_buf.select_operation Protocol.OP_DISCOVER 0 0 }
    _
    (sample_environment
      [reply_pass [1, 8, 0, 1, 1, 2, 0, 0, 126, 0, 52, 18] sample_source 500])
    _ sample_registry Protocol.OP_DISCOVER rfl (by decide) rfl
  ⟨h.2.1, h.2.2.1, h.2.2.2, by decide⟩

/-! ## The typed accessor, the base-class defaults, the dispatch of `erase_write` -/

/-- Claim C24.  For every payload size, content length and requested
operation, the typed accessor `get_payload<T>(op)` of the receive buffer
throws exactly when the content length is smaller than the header size plus
the size of `T`, or the operation stored in the received header differs from
`op`.  In particular a buffer of exactly header plus payload size with the
matching operation is accepted. -/
theorem get_payload_typed_fails_iff (rx : ReceiveBuffer) (sizeof_T op : Nat) :
    ((∃ failure, rx.get_payload_typed sizeof_T op = .error failure)
      ↔ (rx._size < Protocol.sizeof_ReplyHeader + sizeof_T ∨ rx.get_operation ≠ op))
    ∧ ((rx._size = Protocol.sizeof_ReplyHeader + sizeof_T ∧ rx.get_operation = op) →
        ∃ pointer, rx.get_payload_typed sizeof_T op = .ok pointer)
    ∧ (rx._size < Protocol.sizeof_ReplyHeader + sizeof_T →
        rx.get_payload_typed sizeof_T op
          = .error (.exception { _message := "Not enough data in the buffer." }))
    ∧ (Protocol.sizeof_ReplyHeader + sizeof_T ≤ rx._size → rx.get_operation ≠ op →
        rx.get_payload_typed sizeof_T op
          = .error (.exception { _message := "The buffer contains another data type." })) := by
  unfold ReceiveBuffer.get_payload_typed
  refine ⟨?_, ?_, ?_, ?_⟩
  · constructor
    · rintro ⟨failure, h⟩
      by_contra hcon
      rw [not_or, not_lt, not_not] at hcon
      rw [if_neg (by omega), if_neg (by simp [hcon.2])] at h
      cases h
    · rintro (h | h)
      · exact ⟨_, if_pos (by omega)⟩
      · by_cases hs : Protocol.sizeof_ReplyHeader + sizeof_T > rx._size
        · exact ⟨_, if_pos hs⟩
        · rw [if_neg hs, if_pos h]; exact ⟨_, rfl⟩
  · rintro ⟨hs, ho⟩
    rw [if_neg (by omega), if_neg (by simp [ho])]
    exact ⟨_, rfl⟩
  · intro hs
    rw [if_pos (by omega)]
  · intro hs ho
    rw [if_neg (by omega), if_pos ho]

/-- Claim C26.  In a strategy that overrides none of them, `checksum`,
`chip_erase` and `erase_write` each end with the Exception "Operation is not
supported." for every argument; the bodies do nothing else, so a facade call
that reaches one of them logs that single call and fails. -/
theorem IProgrammerStrategy_defaults_unsupported (descriptor : ProgrammerDescriptor)
    (read : Nat → Nat → Except Failure (List Nat))
    (write : Nat → List Nat → Except Failure Unit)
    (erase : Nat → Except Failure Unit) (reset : Except Failure Unit)
    (device : DeviceDescriptor) (address size : Nat) (buffer : List Nat) :
    (IProgrammerStrategy.without_overrides descriptor read write erase reset).checksum
        address size = .error (.exception { _message := "Operation is not supported." })
    ∧ (IProgrammerStrategy.without_overrides descriptor read write erase reset).chip_erase
        = .error (.exception { _message := "Operation is not supported." })
    ∧ (IProgrammerStrategy.without_overrides descriptor read write erase reset).erase_write
        address buffer = .error (.exception { _message := "Operation is not supported." })
    ∧ (Programmer.chip_erase
        { _programmer := IProgrammerStrategy.without_overrides descriptor read write erase reset,
          _device := device }).calls = [StrategyCall.chip_erase]
    ∧ (Programmer.chip_erase
        { _programmer := IProgrammerStrategy.without_overrides descriptor read write erase reset,
          _device := device }).result
        = .error (.exception { _message := "Chip erase failed. Operation is not supported." })
    ∧ (Programmer.checksum
        { _programmer := IProgrammerStrategy.without_overrides descriptor read write erase reset,
          _device := device } address size).calls = [StrategyCall.checksum address size] :=
  ⟨rfl, rfl, rfl, rfl, rfl, rfl⟩

/-- Instance of C24 at the boundary: a Checksum reply of exactly 8 bytes
(header plus the 4-byte `ChecksumReply`) is accepted for `OP_CHECKSUM`; the
same buffer is refused for `OP_READ`, and a 7-byte content is refused. -/
theorem get_payload_typed_fails_iff_witness :
    (∃ pointer, ReceiveBuffer.get_payload_typed
        { _size := 8, _buffer := [1, 8, 8, 1, 222, 173, 190, 239] ++ List.replicate 1492 0 }
        Protocol.sizeof_ChecksumReply Protocol.OP_CHECKSUM = .ok pointer)
    ∧ (∃ failure, ReceiveBuffer.get_payload_typed
        { _size := 8, _buffer := [1, 8, 8, 1, 222, 173, 190, 239] ++ List.replicate 1492 0 }
        Protocol.sizeof_ChecksumReply Protocol.OP_READ = .error failure)
    ∧ (∃ failure, ReceiveBuffer.get_payload_typed
        { _size := 7, _buffer := [1, 8, 8, 1, 222, 173, 190, 239] ++ List.replicate 1492 0 }
        Protocol.sizeof_ChecksumReply Protocol.OP_CHECKSUM = .error failure) :=
  ⟨(get_payload_typed_fails_iff
      { _size := 8, _buffer := [1, 8, 8, 1, 222, 173, 190, 239] ++ List.replicate 1492 0 }
      Protocol.sizeof_ChecksumReply Protocol.OP_CHECKSUM).2.1 ⟨rfl, rfl⟩,
    ⟨_, rfl⟩, ⟨_, rfl⟩⟩

/-- Claim C27, evaluated on the code: for arguments that pass validation the
one strategy call `Programmer::erase_write` makes is `write(address, buffer)`;
it never calls the strategy's `erase_write`.  Its outcome is the outcome of
that `write` behind the handler, so where `write` succeeds the facade call
succeeds, also over a strategy whose `erase_write` is the unsupported
default. -/
theorem Programmer_erase_write_calls_write (p : Programmer) (address : Nat)
    (buffer : List Nat) (hW : 0 < p.device_descriptor.WRITE_SIZE)
    (hE : 0 < p.device_descriptor.ERASE_SIZE)
    (haddress : address % p.device_descriptor.ERASE_SIZE = 0)
    (hsize : buffer.length % p.device_descriptor.WRITE_SIZE = 0)
    (hmax : buffer.length ≤ p.programmer_descriptor.max_write)
    (hblock : buffer.length ≤ p.device_descriptor.ERASE_SIZE) :
    (p.erase_write address buffer).calls = [StrategyCall.write address buffer]
    ∧ StrategyCall.erase_write address buffer ∉ (p.erase_write address buffer).calls
    ∧ (p._programmer.write address buffer = .ok () →
        (p.erase_write address buffer).result = .ok ()) := by
  have hrun : p.erase_write address buffer
      = Run.catch_prepend
          (Run.call (.write address buffer) (p._programmer.write address buffer))
          ("Erase and write " ++ format_dec buffer.length ++ " bytes at address "
            ++ format_06X address ++ " failed.") := by
    unfold Programmer.erase_write
    rw [Run.remainder_pos _ _ _ hE, Run.remainder_pos _ _ _ hW, haddress, hsize]
    rw [if_neg (by simp), if_neg (by simp), if_neg (by omega)]
  rw [hrun, Run.catch_prepend_calls]
  refine ⟨rfl, by simp [Run.call], fun hok => ?_⟩
  rw [Run.catch_prepend_ok]
  exact hok

/-- The failing input of C27: the facade over a strategy that overrides none of
the optional operations, `erase_write(1024, 64 zero bytes)` with WRITE_SIZE 64
and ERASE_SIZE 1024.  The strategy's `erase_write` would fail as unsupported;
the facade call succeeds, having called `write`. -/
theorem Programmer_erase_write_calls_write_witness :
    plain_programmer._programmer.erase_write 1024 (List.replicate 64 0)
      = .error (.exception { _message := "Operation is not supported." })
    ∧ (plain_programmer.erase_write 1024 (List.replicate 64 0)).calls
      = [StrategyCall.write 1024 (List.replicate 64 0)]
    ∧ (plain_programmer.erase_write 1024 (List.replicate 64 0)).result = .ok () :=
  have h := Programmer_erase_write_calls_write plain_programmer 1024 (List.replicate 64 0)
    (by decide) (by decide) (by decide) (by rw [List.length_replicate]; decide)
    (by rw [List.length_replicate]; decide) (by rw [List.length_replicate]; decide)
  ⟨rfl, h.1, h.2.2 rfl⟩

/-! ## The facade wraps what the strategy throws -/

/-- The handler prepends the context to an `Exception` and rethrows the same
object. -/
theorem Run.catch_prepend_exception {α : Type} (r : Run α) (context : String)
    (e : Exception) (h : r.result = .error (.exception e)) :
    (r.catch_prepend context).result = .error (.exception (e.prepend context)) := by
  unfold Run.catch_prepend
  rw [h]

/-- The handler lets a failure that is not an `Exception` pass. -/
theorem Run.catch_prepend_other {α : Type} (r : Run α) (context : String)
    (failure : Failure) (hkind : ∀ e, failure ≠ .exception e)
    (h : r.result = .error failure) :
    (r.catch_prepend context).result = .error failure := by
  unfold Run.catch_prepend
  split
  · next err herr =>
    rw [h] at herr
    cases herr
    exact absurd rfl (hkind err)
  · exact h

/-- A facade `read` that reached the strategy is the strategy call behind the
handler. -/
theorem Programmer.read_reached (p : Programmer) (address size : Nat)
    (h : (p.read address size).calls ≠ []) :
    p.read address size
      = Run.catch_prepend (Run.call (.read address size) (p._programmer.read address size))
          ("Unable to read " ++ format_dec size ++ " bytes from address "
            ++ format_06X address ++ ".") := by
  unfold Programmer.read at h ⊢
  rw [Run.catch_prepend_calls] at h
  split_ifs at h ⊢
  · exact absurd rfl h
  · rfl

/-- A facade `write` that reached the strategy is the strategy call behind the
handler. -/
theorem Programmer.write_reached (p : Programmer) (address : Nat) (buffer : List Nat)
    (h : (p.write address buffer).calls ≠ []) :
    p.write address buffer
      = Run.catch_prepend (Run.call (.write address buffer) (p._programmer.write address buffer))
          ("Write " ++ format_dec buffer.length ++ " bytes at address "
            ++ format_06X address ++ " failed.") := by
  simp only [Programmer.write, Run.remainder, Run.catch_prepend_calls] at h ⊢
  split_ifs at h ⊢
  all_goals first | exact absurd rfl h | rfl

/-- A facade `erase` that reached the strategy is the strategy call behind the
handler. -/
theorem Programmer.erase_reached (p : Programmer) (address : Nat)
    (h : (p.erase address).calls ≠ []) :
    p.erase address
      = Run.catch_prepend (Run.call (.erase address) (p._programmer.erase address))
          ("Erase device memory at address " ++ format_06X address ++ " failed.") := by
  simp only [Programmer.erase, Run.remainder, Run.catch_prepend_calls] at h ⊢
  split_ifs at h ⊢
  all_goals first | exact absurd rfl h | rfl

/-- A facade `erase_write` that reached the strategy is the call of the
strategy's `write` behind the handler. -/
theorem Programmer.erase_write_reached (p : Programmer) (address : Nat) (buffer : List Nat)
    (h : (p.erase_write address buffer).calls ≠ []) :
    p.erase_write address buffer
      = Run.catch_prepend (Run.call (.write address buffer) (p._programmer.write address buffer))
          ("Erase and write " ++ format_dec buffer.length ++ " bytes at address "
            ++ format_06X address ++ " failed.") := by
  simp only [Programmer.erase_write, Run.remainder, Run.catch_prepend_calls] at h ⊢
  split_ifs at h ⊢
  all_goals first | exact absurd rfl h | rfl

/-- An outcome that carries a failure is that failure. -/
theorem failure_of_outcome_some {α : Type} (outcome : Except Failure α) (failure : Failure)
    (h : failure_of_outcome outcome = some failure) : outcome = .error failure := by
  cases outcome with
  | error f =>
    simp only [failure_of_outcome, Option.some.injEq] at h
    rw [h]
  | ok v => simp [failure_of_outcome] at h

/-- Claim C25 fails as stated: a strategy `read` that ends with a
`SocketException` (thrown by `sendto`) makes the facade `read` end with that
same failure, and no context is put in front of anything: the handler
`catch (Exception&)` does not catch it. -/
theorem Programmer_read_passes_SocketException :
    (failing_programmer (.socket "sendto"))._programmer.read 1024 128
      = .error (.socket "sendto")
    ∧ ((failing_programmer (.socket "sendto")).read 1024 128).calls
      = [StrategyCall.read 1024 128]
    ∧ ((failing_programmer (.socket "sendto")).read 1024 128).result
      = .error (.socket "sendto")
    ∧ ∀ e : Exception, ((failing_programmer (.socket "sendto")).read 1024 128).result
      ≠ .error (.exception e) :=
  ⟨rfl, rfl, rfl, fun _ h => by cases h⟩

/-- Claim C25, amended.  `Exception::prepend(c)` turns the message `m` into
`c`, one blank, `m`, and keeps the rest of the object (the status code of an
`ETarget`).  When a facade operation has reached its strategy call and that
call ends with an `Exception` `e` (or an object of a class derived from it),
the facade operation ends with that object after `prepend` of its context
text; when the call ends with a failure that is not an `Exception`, the
facade operation ends with that failure unchanged.  For `erase_write` the
strategy operation is the one the facade has logged as called, whichever it
is. -/
theorem facade_prepends_context_to_Exception (p : Programmer) (address size : Nat)
    (buffer : List Nat) (e : Exception) (failure : Failure)
    (hkind : ∀ e', failure ≠ .exception e') :
    (∀ c, (e.prepend c)._message = c ++ " " ++ e._message
      ∧ (e.prepend c)._status = e._status)
    ∧ ((p.read address size).calls ≠ [] →
        (p._programmer.read address size = .error (.exception e) →
          (p.read address size).result = .error (.exception (e.prepend
            ("Unable to read " ++ format_dec size ++ " bytes from address "
              ++ format_06X address ++ "."))))
        ∧ (p._programmer.read address size = .error failure →
          (p.read address size).result = .error failure))
    ∧ ((p.write address buffer).calls ≠ [] →
        (p._programmer.write address buffer = .error (.exception e) →
          (p.write address buffer).result = .error (.exception (e.prepend
            ("Write " ++ format_dec buffer.length ++ " bytes at address "
              ++ format_06X address ++ " failed."))))
        ∧ (p._programmer.write address buffer = .error failure →
          (p.write address buffer).result = .error failure))
    ∧ ((p.erase address).calls ≠ [] →
        (p._programmer.erase address = .error (.exception e) →
          (p.erase address).result = .error (.exception (e.prepend
            ("Erase device memory at address " ++ format_06X address ++ " failed."))))
        ∧ (p._programmer.erase address = .error failure →
          (p.erase address).result = .error failure))
    ∧ (∀ call, (p.erase_write address buffer).calls = [call] →
        (p._programmer.failure_of call = some (.exception e) →
          (p.erase_write address buffer).result = .error (.exception (e.prepend
            ("Erase and write " ++ format_dec buffer.length ++ " bytes at address "
              ++ format_06X address ++ " failed."))))
        ∧ (p._programmer.failure_of call = some failure →
          (p.erase_write address buffer).result = .error failure))
    ∧ ((p._programmer.chip_erase = .error (.exception e) →
          p.chip_erase.result = .error (.exception (e.prepend "Chip erase failed.")))
        ∧ (p._programmer.chip_erase = .error failure →
          p.chip_erase.result = .error failure))
    ∧ ((p._programmer.reset = .error (.exception e) →
          p.reset.result = .error (.exception (e.prepend "Unable to reset device.")))
        ∧ (p._programmer.reset = .error failure → p.reset.result = .error failure))
    ∧ ((p._programmer.checksum address size = .error (.exception e) →
          (p.checksum address size).result = .error (.exception (e.prepend
            ("Unable to checksum memory region " ++ format_X address ++ " - "
              ++ format_X ((address + size + (2 ^ size_t_bits - 1)) % 2 ^ size_t_bits)
              ++ "."))))
        ∧ (p._programmer.checksum address size = .error failure →
          (p.checksum address size).result = .error failure)) := by
  refine ⟨fun c => ⟨by simp [Exception.prepend, String.append_assoc], rfl⟩,
    ?_, ?_, ?_, ?_, ?_, ?_, ?_⟩
  · intro hcalls
    rw [Programmer.read_reached p address size hcalls]
    exact ⟨fun h => Run.catch_prepend_exception _ _ e h,
      fun h => Run.catch_prepend_other _ _ failure hkind h⟩
  · intro hcalls
    rw [Programmer.write_reached p address buffer hcalls]
    exact ⟨fun h => Run.catch_prepend_exception _ _ e h,
      fun h => Run.catch_prepend_other _ _ failure hkind h⟩
  · intro hcalls
    rw [Programmer.erase_reached p address hcalls]
    exact ⟨fun h => Run.catch_prepend_exception _ _ e h,
      fun h => Run.catch_prepend_other _ _ failure hkind h⟩
  · intro call hcall
    have hcalls : (p.erase_write address buffer).calls ≠ [] := by
      rw [hcall]
      exact List.cons_ne_nil _ _
    rw [Programmer.erase_write_reached p address buffer hcalls] at hcall ⊢
    rw [Run.catch_prepend_calls] at hcall
    have hlogged : call = .write address buffer := (List.cons.inj hcall).1.symm
    subst hlogged
    exact ⟨fun h => Run.catch_prepend_exception _ _ e (failure_of_outcome_some _ _ h),
      fun h => Run.catch_prepend_other _ _ failure hkind (failure_of_outcome_some _ _ h)⟩
  · exact ⟨fun h => Run.catch_prepend_exception _ _ e h,
      fun h => Run.catch_prepend_other _ _ failure hkind h⟩
  · exact ⟨fun h => Run.catch_prepend_exception _ _ e h,
      fun h => Run.catch_prepend_other _ _ failure hkind h⟩
  · exact ⟨fun h => Run.catch_prepend_exception _ _ e h,
      fun h => Run.catch_prepend_other _ _ failure hkind h⟩

/-- Instance of the amended C25: every operation of the strategy ends with the
`ETarget` for status 6.  The facade `read(1024, 128)` ends with that object,
its status code kept and its message behind the context of `read`; the facade
`erase_write` of 64 bytes at 1024 ends with it behind the context of
`erase_write`. -/
theorem facade_prepends_context_to_Exception_witness :
    (∀ e', Failure.socket "sendto" ≠ .exception e')
    ∧ ((failing_programmer (.exception (ETarget.ETarget 6))).read 1024 128).calls ≠ []
    ∧ (ETarget.ETarget 6)._status = some 6
    ∧ ((failing_programmer (.exception (ETarget.ETarget 6))).read 1024 128).result
      = .error (.exception
          { _message := "Unable to read 128 bytes from address 0X0400. "
              ++ (ETarget.ETarget 6)._message,
            _status := some 6 })
    ∧ ((failing_programmer (.exception (ETarget.ETarget 6))).erase_write 1024
        (List.replicate 64 0)).result
      = .error (.exception
          { _message := "Erase and write 64 bytes at address 0X0400 failed. "
              ++ (ETarget.ETarget 6)._message,
            _status := some 6 }) :=
  have hmessage : (ETarget.ETarget 6).prepend
      ("Unable to read " ++ format_dec 128 ++ " bytes from address " ++ format_06X 1024 ++ ".")
      = { _message := "Unable to read 128 bytes from address 0X0400. "
            ++ (ETarget.ETarget 6)._message,
          _status := some 6 } := by decide
  have hcontext : (ETarget.ETarget 6).prepend
      ("Erase and write " ++ format_dec (List.replicate 64 0).length ++ " bytes at address "
        ++ format_06X 1024 ++ " failed.")
      = { _message := "Erase and write 64 bytes at address 0X0400 failed. "
            ++ (ETarget.ETarget 6)._message,
          _status := some 6 } := by decide
  ⟨(fun _ h => by cases h), (by decide), rfl,
    (((facade_prepends_context_to_Exception
      (failing_programmer (.exception (ETarget.ETarget 6))) 1024 128 (List.replicate 64 0)
      (ETarget.ETarget 6) (.socket "sendto") (fun _ h => by cases h)).2.1
        (by decide)).1 rfl).trans (by rw [hmessage]),
    (((facade_prepends_context_to_Exception
      (failing_programmer (.exception (ETarget.ETarget 6))) 1024 128 (List.replicate 64 0)
      (ETarget.ETarget 6) (.socket "sendto") (fun _ h => by cases h)).2.2.2.2.1
        _ rfl).1 rfl).trans (by rw [hcontext])⟩

/-! ## Byte order of the header fields (`protocol.hpp`) -/

theorem Protocol.le_bytes_two (v : Nat) : le_bytes 2 v = [v % 256, v / 256 % 256] := by
  simp [le_bytes, List.range_succ]

theorem Protocol.le_bytes_four (v : Nat) :
    le_bytes 4 v = [v % 256, v / 256 % 256, v / 65536 % 256, v / 16777216 % 256] := by
  simp [le_bytes, List.range_succ]

theorem Protocol.byteswap_two (v : Nat) : byteswap 2 v = v / 256 % 256 + 256 * (v % 256) := by
  simp [byteswap, le_bytes_two, le_value]

theorem Protocol.byteswap_four (v : Nat) : byteswap 4 v
    = v / 16777216 % 256 + 256 * (v / 65536 % 256 + 256 * (v / 256 % 256 + 256 * (v % 256))) := by
  simp [byteswap, le_bytes_four, le_value]

theorem Protocol.byteswap_two_bytes (v : Nat) (hv : v < 65536) :
    le_bytes 2 (byteswap 2 v) = [v / 256, v % 256] := by
  rw [byteswap_two, le_bytes_two]
  have h1 : (v / 256 % 256 + 256 * (v % 256)) / 256 = v % 256 := by omega
  have h2 : (v / 256 % 256 + 256 * (v % 256)) % 256 = v / 256 := by omega
  have h3 : v % 256 % 256 = v % 256 := by omega
  rw [h1, h2, h3]

theorem Protocol.byteswap_two_twice (v : Nat) (hv : v < 65536) :
    byteswap 2 (byteswap 2 v) = v := by
  have hb := byteswap_two_bytes v hv
  rw [byteswap, hb]
  simp only [List.reverse_cons, List.reverse_nil, List.nil_append, List.cons_append, le_value,
    List.foldr]
  omega

theorem Protocol.swapped_bytes (b0 b1 b2 b3 : Nat) (h0 : b0 < 256) (h1 : b1 < 256) (h2 : b2 < 256)
    (h3 : b3 < 256) :
    (b3 + 256 * (b2 + 256 * (b1 + 256 * b0))) % 256 = b3
    ∧ (b3 + 256 * (b2 + 256 * (b1 + 256 * b0))) / 256 % 256 = b2
    ∧ (b3 + 256 * (b2 + 256 * (b1 + 256 * b0))) / 65536 % 256 = b1
    ∧ (b3 + 256 * (b2 + 256 * (b1 + 256 * b0))) / 16777216 % 256 = b0 := by
  refine ⟨by omega, by omega, by omega, by omega⟩

theorem Protocol.byteswap_four_bytes (v : Nat) (hv : v < 4294967296) :
    le_bytes 4 (byteswap 4 v)
      = [v / 16777216, v / 65536 % 256, v / 256 % 256, v % 256] := by
  rw [byteswap_four, le_bytes_four]
  have h3 : v / 16777216 % 256 = v / 16777216 := by omega
  obtain ⟨k0, k1, k2, k3⟩ := swapped_bytes (v % 256) (v / 256 % 256) (v / 65536 % 256)
    (v / 16777216 % 256) (Nat.mod_lt _ (by decide)) (Nat.mod_lt _ (by decide))
    (Nat.mod_lt _ (by decide)) (Nat.mod_lt _ (by decide))
  rw [k0, k1, k2, k3, h3]

theorem Protocol.byteswap_four_twice (v : Nat) (hv : v < 4294967296) :
    byteswap 4 (byteswap 4 v) = v := by
  have hb := byteswap_four_bytes v hv
  rw [byteswap, hb]
  simp only [List.reverse_cons, List.reverse_nil, List.nil_append, List.cons_append, le_value,
    List.foldr]
  omega

theorem Protocol.roundtrip16 (native : endian) (v : Nat) (hv : v < 2 ^ 16) :
    (bigendian.assign native 2 v).operator_T native 2 = v
    ∧ object_representation native 2 (bigendian.assign native 2 v)._value
      = [v / 256, v % 256] := by
  have hv' : v < 65536 := by norm_num at hv; exact hv
  have hm : v % 256 ^ 2 = v := Nat.mod_eq_of_lt (by norm_num; exact hv')
  cases native
  · simp only [bigendian.assign, bigendian.operator_T, object_representation, hm]
    exact ⟨byteswap_two_twice v hv', byteswap_two_bytes v hv'⟩
  · simp only [bigendian.assign, bigendian.operator_T, object_representation, hm, le_bytes_two]
    clear hm hv
    have h1 : v / 256 % 256 = v / 256 := by omega
    simp [h1]

theorem Protocol.roundtrip32 (native : endian) (v : Nat) (hv : v < 2 ^ 32) :
    (bigendian.assign native 4 v).operator_T native 4 = v
    ∧ object_representation native 4 (bigendian.assign native 4 v)._value
      = [v / 16777216, v / 65536 % 256, v / 256 % 256, v % 256] := by
  have hv' : v < 4294967296 := by norm_num at hv; exact hv
  have hm : v % 256 ^ 4 = v := Nat.mod_eq_of_lt (by norm_num; exact hv')
  cases native
  · simp only [bigendian.assign, bigendian.operator_T, object_representation, hm]
    exact ⟨byteswap_four_twice v hv', byteswap_four_bytes v hv'⟩
  · simp only [bigendian.assign, bigendian.operator_T, object_representation, hm, le_bytes_four]
    clear hm hv
    have h1 : v / 16777216 % 256 = v / 16777216 := by omega
    simp [h1]

theorem Protocol.object_value_representation_two (native : endian) (v : Nat) (hv : v < 65536) :
    object_value native (object_representation native 2 v) = v := by
  cases native <;>
    simp only [object_value, object_representation, le_bytes_two, List.reverse_cons,
      List.reverse_nil, List.nil_append, List.cons_append, le_value, List.foldr] <;> omega

theorem Protocol.object_value_representation_four (native : endian) (v : Nat) (hv : v < 4294967296) :
    object_value native (object_representation native 4 v) = v := by
  cases native <;>
    simp only [object_value, object_representation, le_bytes_four, List.reverse_cons,
      List.reverse_nil, List.nil_append, List.cons_append, le_value, List.foldr] <;> omega

theorem Protocol.byteswap_two_lt (v : Nat) : byteswap 2 v < 65536 := by
  rw [byteswap_two]; omega

theorem Protocol.byteswap_four_lt (v : Nat) : byteswap 4 v < 4294967296 := by
  rw [byteswap_four]; omega

theorem Protocol.bigendian.assign_lt_two (native : endian) (v : Nat) :
    (bigendian.assign native 2 v)._value < 65536 := by
  cases native
  · exact byteswap_two_lt _
  · exact Nat.mod_lt _ (by norm_num)

theorem Protocol.bigendian.assign_lt_four (native : endian) (v : Nat) :
    (bigendian.assign native 4 v)._value < 4294967296 := by
  cases native
  · exact byteswap_four_lt _
  · exact Nat.mod_lt _ (by norm_num)

theorem Protocol.object_representation_length (native : endian) (sizeof_T v : Nat) :
    (object_representation native sizeof_T v).length = sizeof_T := by
  cases native <;> simp [object_representation, le_bytes]

theorem Protocol.RequestHeader.overlay_object_representation (native : endian) (h : RequestHeader)
    (ha : h.address._value < 4294967296) (hl : h.length._value < 65536) :
    RequestHeader.overlay native (h.object_representation native) = h := by
  cases h with
  | mk version seq operation status address length =>
    cases address with
    | mk a =>
      cases length with
      | mk l =>
        simp only at ha hl
        cases native
        · simp only [RequestHeader.overlay, RequestHeader.object_representation,
            Protocol.object_representation, object_value, le_bytes_four, le_bytes_two]
          simp only [List.cons_append, List.nil_append, List.drop_succ_cons, List.drop_zero,
            List.take_succ_cons, List.take_zero, le_value, List.foldr, List.getD_cons_zero,
            List.getD_cons_succ]
          have e1 : a % 256 + 256 * (a / 256 % 256 + 256 * (a / 65536 % 256
              + 256 * (a / 16777216 % 256 + 256 * 0))) = a := by omega
          have e2 : l % 256 + 256 * (l / 256 % 256 + 256 * 0) = l := by omega
          rw [e1, e2]
        · simp only [RequestHeader.overlay, RequestHeader.object_representation,
            Protocol.object_representation, object_value, le_bytes_four, le_bytes_two]
          simp only [List.cons_append, List.nil_append, List.drop_succ_cons, List.drop_zero,
            List.take_succ_cons, List.take_zero, le_value, List.foldr, List.getD_cons_zero,
            List.getD_cons_succ, List.reverse_cons, List.reverse_nil]
          have e1 : a % 256 + 256 * (a / 256 % 256 + 256 * (a / 65536 % 256
              + 256 * (a / 16777216 % 256 + 256 * 0))) = a := by omega
          have e2 : l % 256 + 256 * (l / 256 % 256 + 256 * 0) = l := by omega
          rw [e1, e2]

/-- Claim C28.  On a machine of either endianness, a 16-bit value stored in a
`bigendian<uint16_t>` and a 32-bit value stored in a `bigendian<uint32_t>` are
read back unchanged, and the bytes of the field in memory are those of the
value, most significant first.  Hence a `RequestHeader` whose six fields are
assigned values of their types occupies the ten bytes version, seq, operation,
status, the address most significant byte first, the length most significant
byte first, and the header read back from those bytes has every field as
assigned; likewise for the four bytes of a `ReplyHeader`. -/
theorem header_fields_round_trip (native : Protocol.endian)
    (version seq operation status address length : Nat)
    (hversion : version < 2 ^ 8) (hseq : seq < 2 ^ 8) (hoperation : operation < 2 ^ 8)
    (hstatus : status < 2 ^ 8) (haddress : address < 2 ^ 32) (hlength : length < 2 ^ 16) :
    (Protocol.bigendian.assign native 2 length).operator_T native 2 = length
    ∧ Protocol.object_representation native 2 (Protocol.bigendian.assign native 2 length)._value
      = Protocol.be16_bytes length
    ∧ (Protocol.bigendian.assign native 4 address).operator_T native 4 = address
    ∧ Protocol.object_representation native 4
        (Protocol.bigendian.assign native 4 address)._value = Protocol.be32_bytes address
    ∧ (Protocol.RequestHeader.assign native version seq operation status address
        length).object_representation native
      = [version, seq, operation, status] ++ Protocol.be32_bytes address
          ++ Protocol.be16_bytes length
    ∧ Protocol.RequestHeader.overlay native
        ((Protocol.RequestHeader.assign native version seq operation status address
          length).object_representation native)
      = Protocol.RequestHeader.assign native version seq operation status address length
    ∧ (Protocol.RequestHeader.assign native version seq operation status address length).version
      = version
    ∧ (Protocol.RequestHeader.assign native version seq operation status address length).seq
      = seq
    ∧ (Protocol.RequestHeader.assign native version seq operation status address
        length).operation = operation
    ∧ (Protocol.RequestHeader.assign native version seq operation status address length).status
      = status
    ∧ (Protocol.RequestHeader.assign native version seq operation status address
        length).address.operator_T native 4 = address
    ∧ (Protocol.RequestHeader.assign native version seq operation status address
        length).length.operator_T native 2 = length
    ∧ Protocol.ReplyHeader.overlay
        (Protocol.ReplyHeader.assign version seq operation status).object_representation
      = { version := version, seq := seq, operation := operation, status := status } := by
  have hv : version % 256 = version := Nat.mod_eq_of_lt (by norm_num at hversion; exact hversion)
  have hs : seq % 256 = seq := Nat.mod_eq_of_lt (by norm_num at hseq; exact hseq)
  have ho : operation % 256 = operation :=
    Nat.mod_eq_of_lt (by norm_num at hoperation; exact hoperation)
  have hst : status % 256 = status := Nat.mod_eq_of_lt (by norm_num at hstatus; exact hstatus)
  obtain ⟨r16, b16⟩ := Protocol.roundtrip16 native length hlength
  obtain ⟨r32, b32⟩ := Protocol.roundtrip32 native address haddress
  have hl' : length < 65536 := by norm_num at hlength; exact hlength
  have ha' : address < 4294967296 := by norm_num at haddress; exact haddress
  have e16 : Protocol.be16_bytes length = [length / 256, length % 256] := by
    have h1 : length / 256 % 256 = length / 256 := by omega
    simp [Protocol.be16_bytes, h1]
  have e32 : Protocol.be32_bytes address
      = [address / 16777216, address / 65536 % 256, address / 256 % 256, address % 256] := by
    have h1 : address / 16777216 % 256 = address / 16777216 := by omega
    simp [Protocol.be32_bytes, h1]
  refine ⟨r16, by rw [b16, e16], r32, by rw [b32, e32], ?_, ?_, hv, hs, ho, hst, r32, r16, ?_⟩
  · simp only [Protocol.RequestHeader.object_representation, Protocol.RequestHeader.assign,
      b16, b32, e16, e32, hv, hs, ho, hst]
  · exact Protocol.RequestHeader.overlay_object_representation native _
      (Protocol.bigendian.assign_lt_four native address)
      (Protocol.bigendian.assign_lt_two native length)
  · simp [Protocol.ReplyHeader.overlay, Protocol.ReplyHeader.object_representation,
      Protocol.ReplyHeader.assign, hv, hs, ho, hst]

/-- Instance of C28 on a little-endian machine: version 1, sequence 8, operation
Read, status Request, address 0x12345678 and length 0xABCD occupy the bytes
01 08 02 00 12 34 56 78 AB CD, and those bytes read back give the same
values. -/
theorem header_fields_round_trip_witness :
    (Protocol.RequestHeader.assign .little 1 8 2 0 0x12345678 0xABCD).object_representation
        .little = [1, 8, 2, 0, 0x12, 0x34, 0x56, 0x78, 0xAB, 0xCD]
    ∧ (Protocol.RequestHeader.overlay .little
        [1, 8, 2, 0, 0x12, 0x34, 0x56, 0x78, 0xAB, 0xCD]).address.operator_T .little 4
      = 0x12345678
    ∧ (Protocol.RequestHeader.overlay .little
        [1, 8, 2, 0, 0x12, 0x34, 0x56, 0x78, 0xAB, 0xCD]).length.operator_T .little 2
      = 0xABCD :=
  have h := header_fields_round_trip .little 1 8 2 0 0x12345678 0xABCD
    (by decide) (by decide) (by decide) (by decide) (by decide) (by decide)
  ⟨h.2.2.2.2.1.trans (by decide), by decide, by decide⟩

/-! ## The transmit buffer -/

theorem overwrite_length (buffer : List Nat) (start : Nat) (bytes : List Nat)
    (h : start + bytes.length ≤ buffer.length) :
    (overwrite buffer start bytes).length = buffer.length := by
  simp only [overwrite, List.length_take, List.length_append, List.length_drop]
  omega

theorem overwrite_getD_before (buffer : List Nat) (start : Nat) (bytes : List Nat) (i : Nat)
    (hi : i < start) (h : start + bytes.length ≤ buffer.length) :
    (overwrite buffer start bytes).getD i 0 = buffer.getD i 0 := by
  have h1 : i < buffer.length := by omega
  have h2 : i < (buffer.take start).length := by
    rw [List.length_take]; omega
  simp only [overwrite, List.getD_eq_getElem?_getD, List.getElem?_take, if_pos h1,
    List.append_assoc]
  rw [List.getElem?_append_left h2, List.getElem?_take, if_pos hi]

/-- In every transmit buffer the program can hold, the array has its 128 bytes
and the header carries the protocol version and the status Request. -/
theorem TransmitBuffer.reachable_header (tx : TransmitBuffer) (h : tx.reachable) :
    tx._buffer.length = 128
    ∧ Protocol.Header.version tx._buffer = Protocol.VERSION
    ∧ Protocol.Header.status tx._buffer = Protocol.STATUS_REQUEST := by
  induction h with
  | constructed indeterminate hlength =>
    simp [TransmitBuffer.construct, Protocol.Header.version, Protocol.Header.status,
      List.getD_eq_getElem?_getD, List.getElem?_set, hlength]
  | select_operation tx op address length _ ih =>
    obtain ⟨hl, hv, hs⟩ := ih
    have l1 : (tx._buffer.set 2 op).length = 128 := by rw [List.length_set, hl]
    have l2 : (overwrite (tx._buffer.set 2 op) 4
        (Protocol.be32_bytes (address % 2 ^ 32))).length = 128 := by
      rw [overwrite_length _ _ _ (by rw [l1]; simp [Protocol.be32_bytes]), l1]
    refine ⟨?_, ?_, ?_⟩
    · simp only [TransmitBuffer.select_operation]
      rw [overwrite_length _ _ _ (by rw [l2]; simp [Protocol.be16_bytes]), l2]
    · simp only [TransmitBuffer.select_operation, Protocol.Header.version]
      rw [overwrite_getD_before _ _ _ _ (by decide) (by rw [l2]; simp [Protocol.be16_bytes]),
        overwrite_getD_before _ _ _ _ (by decide) (by rw [l1]; simp [Protocol.be32_bytes])]
      simpa [Protocol.Header.version, List.getD_eq_getElem?_getD, List.getElem?_set] using hv
    · simp only [TransmitBuffer.select_operation, Protocol.Header.status]
      rw [overwrite_getD_before _ _ _ _ (by decide) (by rw [l2]; simp [Protocol.be16_bytes]),
        overwrite_getD_before _ _ _ _ (by decide) (by rw [l1]; simp [Protocol.be32_bytes])]
      simpa [Protocol.Header.status, List.getD_eq_getElem?_getD, List.getElem?_set] using hs
  | prepare_payload tx sizeof_T operation _ ih =>
    obtain ⟨hl, hv, hs⟩ := ih
    refine ⟨by simp [TransmitBuffer.prepare_payload, hl], ?_, ?_⟩
    · simpa [TransmitBuffer.prepare_payload, Protocol.Header.version,
        List.getD_eq_getElem?_getD, List.getElem?_set] using hv
    · simpa [TransmitBuffer.prepare_payload, Protocol.Header.status,
        List.getD_eq_getElem?_getD, List.getElem?_set] using hs
  | data tx _ ih =>
    obtain ⟨hl, hv, hs⟩ := ih
    refine ⟨by simp [TransmitBuffer.data, hl], ?_, ?_⟩
    · simpa [TransmitBuffer.data, Protocol.Header.version,
        List.getD_eq_getElem?_getD, List.getElem?_set] using hv
    · simpa [TransmitBuffer.data, Protocol.Header.status,
        List.getD_eq_getElem?_getD, List.getElem?_set] using hs

theorem exists_ten_bytes (l : List Nat) (h : 10 ≤ l.length) :
    ∃ b0 b1 b2 b3 b4 b5 b6 b7 b8 b9 rest,
      l = b0 :: b1 :: b2 :: b3 :: b4 :: b5 :: b6 :: b7 :: b8 :: b9 :: rest := by
  rcases l with _ | ⟨b0, _ | ⟨b1, _ | ⟨b2, _ | ⟨b3, _ | ⟨b4, _ | ⟨b5, _ | ⟨b6, _ | ⟨b7,
    _ | ⟨b8, _ | ⟨b9, rest⟩⟩⟩⟩⟩⟩⟩⟩⟩⟩
  all_goals first
    | exact ⟨_, _, _, _, _, _, _, _, _, _, _, rfl⟩
    | simp at h

/-- Claim C29.  For every transmit buffer the program can hold, with sequence
`s`, and every operation, 32-bit address and 16-bit length: after
`select_operation(op, address, length)` the call `data()` returns exactly ten
bytes, the protocol version 1, the sequence `(s + 1) mod 256`, the operation,
the status Request (0), the four bytes of the address most significant first
and the two bytes of the length most significant first. -/
theorem select_operation_frame (tx : TransmitBuffer) (op address length : Nat)
    (hreach : tx.reachable) (haddress : address < 2 ^ 32) (hlength : length < 2 ^ 16) :
    (tx.select_operation op address length).data.1
      = [1, (tx.get_sequence + 1) % 256, op, 0] ++ Protocol.be32_bytes address
          ++ Protocol.be16_bytes length
    ∧ (tx.select_operation op address length).data.1.length = 10
    ∧ Protocol.VERSION = 1 ∧ Protocol.STATUS_REQUEST = 0 := by
  obtain ⟨hl, hv, hs⟩ := TransmitBuffer.reachable_header tx hreach
  obtain ⟨b0, b1, b2, b3, b4, b5, b6, b7, b8, b9, rest, hb⟩ :=
    exists_ten_bytes tx._buffer (by omega)
  have ha : address % 2 ^ 32 = address := Nat.mod_eq_of_lt haddress
  have hlen : length % 2 ^ 16 = length := Nat.mod_eq_of_lt hlength
  have hframe : (tx.select_operation op address length).data.1
      = [1, (tx.get_sequence + 1) % 256, op, 0] ++ Protocol.be32_bytes address
          ++ Protocol.be16_bytes length := by
    simp only [Protocol.Header.version, Protocol.Header.status, hb, Protocol.VERSION,
      Protocol.STATUS_REQUEST, List.getD_cons_zero, List.getD_cons_succ] at hv hs
    simp only [TransmitBuffer.select_operation, TransmitBuffer.data, TransmitBuffer.get_sequence,
      Protocol.Header.seq, ha, hlen, hb, Protocol.be32_bytes, Protocol.be16_bytes,
      Protocol.sizeof_RequestHeader]
    subst hv hs
    simp [overwrite]
  refine ⟨hframe, ?_, rfl, rfl⟩
  rw [hframe]
  simp [Protocol.be32_bytes, Protocol.be16_bytes]

/-- Instance of C29: a freshly constructed buffer whose array happened to hold
the byte 0xCD everywhere (sequence 205), `select_operation(OP_READ, 1024, 128)`
and `data()`: the frame is 01 CE 02 00 00 00 04 00 00 80. -/
theorem select_operation_frame_witness :
    (TransmitBuffer.construct (List.replicate 128 205)).reachable
    ∧ (1024 : Nat) < 2 ^ 32 ∧ (128 : Nat) < 2 ^ 16
    ∧ ((TransmitBuffer.construct (List.replicate 128 205)).select_operation
        Protocol.OP_READ 1024 128).data.1 = [1, 206, 2, 0, 0, 0, 4, 0, 0, 128] :=
  have hreach : (TransmitBuffer.construct (List.replicate 128 205)).reachable :=
    TransmitBuffer.reachable.constructed _ (List.length_replicate _ _)
  ⟨hreach, by decide, by decide,
    (select_operation_frame (TransmitBuffer.construct (List.replicate 128 205))
      Protocol.OP_READ 1024 128 hreach (by decide) (by decide)).1.trans rfl⟩

/-- Claim C30, evaluated on the code: after `prepare_payload<T>()` on a buffer
the program can hold, the operation field is `T::Operation` and the next
`data()` returns the request header plus `sizeof(T)` bytes.  The pointer the
function returns is not the address of the byte behind the header: it is made
from the value that byte holds, and a store through it is undefined. -/
theorem prepare_payload_returns_wild_pointer (tx : TransmitBuffer)
    (sizeof_T operation : Nat) (hreach : tx.reachable)
    (hfits : Protocol.sizeof_RequestHeader + sizeof_T ≤ 128) :
    (tx.prepare_payload sizeof_T operation).2.get_operation = operation
    ∧ (tx.prepare_payload sizeof_T operation).2.data.1.length
      = Protocol.sizeof_RequestHeader + sizeof_T
    ∧ (tx.prepare_payload sizeof_T operation).1
      = Pointer.from_integer (tx._buffer.getD Protocol.sizeof_RequestHeader 0)
    ∧ (tx.prepare_payload sizeof_T operation).1 ≠ Pointer.element Protocol.sizeof_RequestHeader
    ∧ ∀ offset bytes,
        (tx.prepare_payload sizeof_T operation).2.store
            (tx.prepare_payload sizeof_T operation).1 offset bytes
          = .error (.undefined "store through a pointer made from a byte value") := by
  obtain ⟨hl, _, _⟩ := TransmitBuffer.reachable_header tx hreach
  refine ⟨?_, ?_, rfl, (fun h => by cases h), (fun _ _ => rfl)⟩
  · simp [TransmitBuffer.prepare_payload, TransmitBuffer.get_operation,
      Protocol.Header.operation, List.getD_eq_getElem?_getD, List.getElem?_set, hl]
  · simp only [TransmitBuffer.prepare_payload, TransmitBuffer.data, List.length_take,
      List.length_set, hl]
    omega

/-- The failing input of C30: `prepare_payload<NetworkConfig>()` on a freshly
constructed buffer whose array happened to hold the byte 0xCD everywhere.  The
frame is sized 10 + 10 bytes and carries `OP_NET_CONFIG`, and the pointer
returned is `reinterpret_cast<NetworkConfig*>(0xCD)`. -/
theorem prepare_payload_returns_wild_pointer_witness :
    (TransmitBuffer.construct (List.replicate 128 205)).reachable
    ∧ Protocol.sizeof_RequestHeader + Protocol.sizeof_NetworkConfig ≤ 128
    ∧ ((TransmitBuffer.construct (List.replicate 128 205)).prepare_payload
        Protocol.sizeof_NetworkConfig Protocol.OP_NET_CONFIG).2.data.1.length = 20
    ∧ ((TransmitBuffer.construct (List.replicate 128 205)).prepare_payload
        Protocol.sizeof_NetworkConfig Protocol.OP_NET_CONFIG).1 = Pointer.from_integer 205 :=
  have hreach : (TransmitBuffer.construct (List.replicate 128 205)).reachable :=
    TransmitBuffer.reachable.constructed _ (List.length_replicate _ _)
  have h := prepare_payload_returns_wild_pointer
    (TransmitBuffer.construct (List.replicate 128 205))
    Protocol.sizeof_NetworkConfig Protocol.OP_NET_CONFIG hreach (by decide)
  ⟨hreach, by decide, h.2.1, h.2.2.1.trans rfl⟩

/-! ## Decoding the replies of `checksum` and `read` -/

/-- Claim C21, evaluated on the code: when `communicate()` has accepted a
Checksum reply with at least four payload bytes, `NetworkProgrammer::checksum`
returns no value.  The accessor `get_payload<ChecksumReply>` returns a pointer
made from the value of the byte behind the header, and the read
`result->checksum` through it is undefined.  When the accepted reply has fewer
than four payload bytes the call ends with the Exception "Not enough data in
the buffer.". -/
theorem checksum_reads_through_wild_pointer (np np₁ : NetworkProgrammer)
    (env env₁ : Environment) (address size : Nat)
    (h : NetworkProgrammer.communicate
        { np with _tx_buf := np._tx_buf.select_operation Protocol.OP_CHECKSUM address size }
        env = (.ok (), np₁, env₁)) :
    ((Protocol.sizeof_ReplyHeader + Protocol.sizeof_ChecksumReply ≤ np₁._rx_buf._size
        ∧ np₁._rx_buf.get_operation = Protocol.OP_CHECKSUM) →
      (np.checksum env address size).1
        = .error (.undefined "read through a pointer made from a byte value")
      ∧ ∀ value, (np.checksum env address size).1 ≠ .ok value)
    ∧ (np₁._rx_buf._size < Protocol.sizeof_ReplyHeader + Protocol.sizeof_ChecksumReply →
      (np.checksum env address size).1
        = .error (.exception { _message := "Not enough data in the buffer." })) := by
  constructor
  · rintro ⟨hsize, hop⟩
    obtain ⟨hptr, hload⟩ := ReceiveBuffer.get_payload_typed_wild np₁._rx_buf
      Protocol.sizeof_ChecksumReply Protocol.OP_CHECKSUM hsize hop
    have hr : (np.checksum env address size).1
        = .error (.undefined "read through a pointer made from a byte value") := by
      simp only [NetworkProgrammer.checksum, h, hptr, hload]
    exact ⟨hr, fun value hv => by rw [hr] at hv; cases hv⟩
  · intro hshort
    have hget : np₁._rx_buf.get_payload_typed Protocol.sizeof_ChecksumReply Protocol.OP_CHECKSUM
        = .error (.exception { _message := "Not enough data in the buffer." }) := by
      unfold ReceiveBuffer.get_payload_typed
      rw [if_pos (by omega)]
    simp only [NetworkProgrammer.checksum, h, hget]

set_option maxRecDepth 4000 in
/-- The failing input of C21: `checksum(0, 16)` answered by the datagram
01 08 08 01 DE AD BE EF (version, matching sequence 8, OP_CHECKSUM, STATUS_OK,
checksum 0xDEADBEEF).  The call ends in the undefined read instead of
returning 0xDEADBEEF. -/
theorem checksum_reads_through_wild_pointer_witness :
    ((sample_session [1, 7, 2, 0, 0, 0, 4, 0, 0, 16]).checksum
        (sample_environment [reply_pass [1, 8, 8, 1, 222, 173, 190, 239] sample_source 500])
        0 16).1
      = .error (.undefined "read through a pointer made from a byte value")
    ∧ Protocol.be32_value [222, 173, 190, 239] = 0xDEADBEEF :=
  have h := checksum_reads_through_wild_pointer
    (sample_session [1, 7, 2, 0, 0, 0, 4, 0, 0, 16]) _
    (sample_environment [reply_pass [1, 8, 8, 1, 222, 173, 190, 239] sample_source 500])
    _ 0 16 rfl
  ⟨(h.1 ⟨by decide, rfl⟩).1, by decide⟩

/-- A call of `process` that returns a result was given a datagram that holds a
whole header and fits the receive buffer, and leaves that datagram at the start
of the buffer with the old content behind it. -/
theorem NetworkProgrammer.process_ok_state (np np₁ : NetworkProgrammer) (d : List Nat)
    (source : sockaddr_in) (result : Result)
    (h : np.process (.datagram d source) = (.ok result, np₁)) :
    Protocol.sizeof_ReplyHeader ≤ d.length ∧ d.length ≤ ReceiveBuffer.capacity
    ∧ np₁._rx_buf = { _size := d.length, _buffer := d ++ np._rx_buf._buffer.drop d.length } := by
  by_cases hshort : d.length < Protocol.sizeof_ReplyHeader
  · simp [NetworkProgrammer.process, SocketUDP.recvfrom, hshort] at h
  · by_cases hcap : d.length ≤ ReceiveBuffer.capacity
    · have hstate := NetworkProgrammer.process_datagram_state np d source
        (Nat.not_lt.mp hshort) hcap
      rw [h] at hstate
      refine ⟨Nat.not_lt.mp hshort, hcap, ?_⟩
      simp only at hstate
      rw [hstate]
    · simp [NetworkProgrammer.process, SocketUDP.recvfrom, hshort,
        ReceiveBuffer.set_content_length, hcap] at h

/-- A call of `process` that returns a result leaves the receive array at its
1500 bytes. -/
theorem NetworkProgrammer.process_ok_length (np np₁ : NetworkProgrammer) (incoming : Incoming)
    (result : Result) (h : np.process incoming = (.ok result, np₁))
    (hbuffer : np._rx_buf._buffer.length = ReceiveBuffer.capacity) :
    np₁._rx_buf._buffer.length = ReceiveBuffer.capacity := by
  obtain ⟨bytes, hb⟩ := NetworkProgrammer.process_source np np₁ incoming result h
  rw [hb] at h
  obtain ⟨_, hcap, hstate⟩ := NetworkProgrammer.process_ok_state np np₁ bytes _ result h
  rw [hstate]
  simp only [List.length_append, List.length_drop, hbuffer]
  omega

/-- Unless `process` throws, the inner loop leaves the receive array at its
1500 bytes. -/
theorem NetworkProgrammer.wait_reply_buffer (deadline : Nat) (polls : List PollStep) :
    ∀ (np : NetworkProgrammer) (now : Nat),
      np._rx_buf._buffer.length = ReceiveBuffer.capacity →
      (∀ failure, (np.wait_reply deadline now polls).1 ≠ Waited.raised failure) →
      (np.wait_reply deadline now polls).2.1._rx_buf._buffer.length
        = ReceiveBuffer.capacity := by
  induction polls with
  | nil => intro np now hb _; exact hb
  | cons step rest ih =>
    intro np now hb hne
    by_cases hd : deadline > now
    · cases hr : step.ready with
      | false =>
        rw [NetworkProgrammer.wait_reply_skip deadline np now step rest hd hr] at hne ⊢
        exact ih np _ hb hne
      | true =>
        rcases hp : np.process step.incoming with ⟨r, np₁⟩
        rcases r with f | res
        · rw [NetworkProgrammer.wait_reply_raised deadline np now step rest hd hr f
            (by rw [hp])] at hne
          exact absurd rfl (hne f)
        · have hb₁ := NetworkProgrammer.process_ok_length np np₁ step.incoming res hp hb
          cases res with
          | Done =>
            rw [NetworkProgrammer.wait_reply_done deadline np now step rest hd hr
              (by rw [hp]), hp]
            exact hb₁
          | Ignore =>
            rw [NetworkProgrammer.wait_reply_continue deadline np now step rest hd hr
              (by rw [hp]; exact Or.inl rfl), hp] at hne ⊢
            exact ih np₁ _ hb₁ hne
          | ExtendTime =>
            rw [NetworkProgrammer.wait_reply_continue deadline np now step rest hd hr
              (by rw [hp]; exact Or.inr rfl), hp] at hne ⊢
            exact ih np₁ _ hb₁ hne
    · rw [NetworkProgrammer.wait_reply_late deadline np now step rest hd]
      exact hb

/-- An attempt that ends as done or at its deadline leaves the receive array at
its 1500 bytes. -/
theorem NetworkProgrammer.attempt_buffer (np : NetworkProgrammer) (env : Environment)
    (hbuffer : np._rx_buf._buffer.length = ReceiveBuffer.capacity)
    (hend : (np.attempt env).1 = Attempted.done ∨ (np.attempt env).1 = Attempted.expired) :
    (np.attempt env).2.1._rx_buf._buffer.length = ReceiveBuffer.capacity := by
  cases hsend : env.sendto_errors.headD false with
  | true =>
    rw [(NetworkProgrammer.attempt_send_failed np env hsend).1] at hend
    rcases hend with h | h <;> cases h
  | false =>
    rw [NetworkProgrammer.attempt_sent np env hsend] at hend ⊢
    refine NetworkProgrammer.wait_reply_buffer env.deadline env.polls np.after_send env.clock
      hbuffer (fun failure hf => ?_)
    simp only [hf, Waited.attempted] at hend
    rcases hend with h | h <;> cases h

/-- When `communicate` returns, the receive array has its 1500 bytes. -/
theorem NetworkProgrammer.communicate_from_buffer (remaining : Nat) :
    ∀ (np : NetworkProgrammer) (env : Environment),
      np._rx_buf._buffer.length = ReceiveBuffer.capacity →
      (NetworkProgrammer.communicate_from remaining np env).1 = .ok () →
      (NetworkProgrammer.communicate_from remaining np env).2.1._rx_buf._buffer.length
        = ReceiveBuffer.capacity := by
  induction remaining with
  | zero => intro np env _ h; simp [NetworkProgrammer.communicate_from] at h
  | succ n ih =>
    intro np env hb hok
    have hab := NetworkProgrammer.attempt_buffer np env hb
    rcases hat : np.attempt env with ⟨outcome, np₁, env₁⟩
    rw [hat] at hab
    cases outcome with
    | send_failed failure =>
      rw [NetworkProgrammer.communicate_from_send_failed n _ _ _ _ _ hat] at hok; cases hok
    | raised failure =>
      rw [NetworkProgrammer.communicate_from_raised n _ _ _ _ _ hat] at hok; cases hok
    | done =>
      rw [NetworkProgrammer.communicate_from_done n _ _ _ _ hat]
      exact hab (Or.inl rfl)
    | expired =>
      rw [NetworkProgrammer.communicate_from_expired n _ _ _ _ hat] at hok ⊢
      exact ih np₁ env₁ (hab (Or.inr rfl)) hok

/-- Claim C23, evaluated on the code: when `NetworkProgrammer::read` returns,
the accepted reply was a datagram `d` with a payload, and the view returned
has `_buffer.size()` minus the header size bytes, 1496, whatever the length of
`d`.  It starts with the payload of `d`; behind the payload come the bytes the
receive array held before, so for every reply shorter than the array the view
is longer than the payload and shows bytes beyond the received content. -/
theorem read_returns_rest_of_receive_array (np : NetworkProgrammer) (env : Environment)
    (address size : Nat) (value : List Nat)
    (hbuffer : np._rx_buf._buffer.length = ReceiveBuffer.capacity)
    (hok : (np.read env address size).1 = .ok value) :
    ∃ (before : List PollStep) (step : PollStep) (d : List Nat) (np₀ : NetworkProgrammer),
      env.polls = before ++ step :: (np.read env address size).2.2.polls
      ∧ step.incoming = .datagram d (np.read env address size).2.1._rx_address
      ∧ np₀.process step.incoming
          = ((.ok Result.Done : Except Failure Result), (np.read env address size).2.1)
      ∧ Protocol.sizeof_ReplyHeader < d.length ∧ d.length ≤ ReceiveBuffer.capacity
      ∧ value.length = ReceiveBuffer.capacity - Protocol.sizeof_ReplyHeader
      ∧ value.take (d.length - Protocol.sizeof_ReplyHeader) = d.drop Protocol.sizeof_ReplyHeader
      ∧ (d.length < ReceiveBuffer.capacity →
          value.length ≠ d.length - Protocol.sizeof_ReplyHeader
          ∧ value ≠ d.drop Protocol.sizeof_ReplyHeader) := by
  cases hc : np.check_connection with
  | error failure => simp only [NetworkProgrammer.read, hc] at hok; cases hok
  | ok u =>
    cases u
    have htrace := (NetworkProgrammer.communicate_from_trace 3
      { np with _tx_buf := np._tx_buf.select_operation Protocol.OP_READ address (size % 2 ^ 16) }
      env).2
    have hlen := NetworkProgrammer.communicate_from_buffer 3
      { np with _tx_buf := np._tx_buf.select_operation Protocol.OP_READ address (size % 2 ^ 16) }
      env hbuffer
    rcases hcom : NetworkProgrammer.communicate
      { np with _tx_buf := np._tx_buf.select_operation Protocol.OP_READ address (size % 2 ^ 16) }
      env with ⟨result, np₂, env₂⟩
    have hcom' := hcom
    unfold NetworkProgrammer.communicate at hcom'
    rw [hcom'] at htrace hlen
    cases result with
    | error failure => simp only [NetworkProgrammer.read, hc, hcom] at hok; cases hok
    | ok u₂ =>
      cases u₂
      have hread : np.read env address size
          = (np₂._rx_buf.get_payload Protocol.OP_READ, np₂, env₂) := by
        simp only [NetworkProgrammer.read, hc, hcom]
      rw [hread] at hok ⊢
      obtain ⟨before, step, d, np₀, hpolls, hincoming, hprocess⟩ := htrace rfl
      have hl₂ : np₂._rx_buf._buffer.length = ReceiveBuffer.capacity := hlen rfl
      rw [hincoming] at hprocess
      obtain ⟨hmin, hcap, hstate⟩ :=
        NetworkProgrammer.process_ok_state np₀ np₂ d _ Result.Done hprocess
      have hget : np₂._rx_buf.get_payload Protocol.OP_READ = .ok value := hok
      unfold ReceiveBuffer.get_payload at hget
      have hsize : np₂._rx_buf._size = d.length := by rw [hstate]
      have hbuf : np₂._rx_buf._buffer = d ++ np₀._rx_buf._buffer.drop d.length := by
        rw [hstate]
      by_cases hge : Protocol.sizeof_ReplyHeader ≥ np₂._rx_buf._size
      · rw [if_pos hge] at hget; cases hget
      · rw [if_neg hge] at hget
        by_cases hop : np₂._rx_buf.get_operation ≠ Protocol.OP_READ
        · rw [if_pos hop] at hget; cases hget
        · rw [if_neg hop] at hget
          have hvalue : value = (np₂._rx_buf._buffer.drop Protocol.sizeof_ReplyHeader).take
              (ReceiveBuffer.capacity - Protocol.sizeof_ReplyHeader) := by
            cases hget; rfl
          have hdl : Protocol.sizeof_ReplyHeader < d.length := by omega
          have hvl : value.length = ReceiveBuffer.capacity - Protocol.sizeof_ReplyHeader := by
            rw [hvalue, List.length_take, List.length_drop, hl₂]
            exact Nat.min_self _
          have htake : value.take (d.length - Protocol.sizeof_ReplyHeader)
              = d.drop Protocol.sizeof_ReplyHeader := by
            rw [hvalue, hbuf, List.drop_append_of_le_length hmin, List.take_take,
              Nat.min_eq_left (by omega),
              List.take_append_of_le_length (by rw [List.length_drop])]
            exact List.take_of_length_le (by rw [List.length_drop])
          refine ⟨before, step, d, np₀, hpolls, by rw [hincoming], ?_, hdl, hcap, hvl, htake, ?_⟩
          · rw [hincoming]; exact hprocess
          · intro hlt
            have hne : value.length ≠ d.length - Protocol.sizeof_ReplyHeader := by
              rw [hvl]; omega
            refine ⟨hne, fun heq => hne ?_⟩
            rw [heq, List.length_drop]

set_option maxRecDepth 8000 in
/-- The failing input of C23: `read(1024, 4)` on a bound session.  A 16-byte
datagram with another sequence (its last twelve bytes 0xEE) is read and
ignored, then the reply 01 08 02 01 AA BB CC DD is accepted: 8 bytes, 4 of them
payload.  The view returned has 1496 bytes: the payload, then eight bytes 0xEE
of the ignored datagram, then the rest of the array. -/
theorem read_returns_rest_of_receive_array_witness :
    (bound_session [1, 7, 2, 0, 0, 0, 4, 0, 0, 16])._rx_buf._buffer.length
      = ReceiveBuffer.capacity
    ∧ ((bound_session [1, 7, 2, 0, 0, 0, 4, 0, 0, 16]).read
        (sample_environment
          [reply_pass ([1, 3, 2, 1] ++ List.replicate 12 238) sample_source 500,
           reply_pass [1, 8, 2, 1, 170, 187, 204, 221] sample_source 500])
        1024 4).1
      = .ok ([170, 187, 204, 221] ++ List.replicate 8 238 ++ List.replicate 1484 0)
    ∧ ([170, 187, 204, 221] ++ List.replicate 8 238 ++ List.replicate 1484 0).length
      = ReceiveBuffer.capacity - Protocol.sizeof_ReplyHeader :=
  have hbuffer : (bound_session [1, 7, 2, 0, 0, 0, 4, 0, 0, 16])._rx_buf._buffer.length
      = ReceiveBuffer.capacity := List.length_replicate _ _
  have hok : ((bound_session [1, 7, 2, 0, 0, 0, 4, 0, 0, 16]).read
      (sample_environment
        [reply_pass ([1, 3, 2, 1] ++ List.replicate 12 238) sample_source 500,
         reply_pass [1, 8, 2, 1, 170, 187, 204, 221] sample_source 500])
      1024 4).1
      = .ok ([170, 187, 204, 221] ++ List.replicate 8 238 ++ List.replicate 1484 0) := rfl
  ⟨hbuffer, hok,
    (read_returns_rest_of_receive_array _ _ 1024 4 _ hbuffer hok).elim
      fun _ h => h.elim fun _ h => h.elim fun _ h => h.elim fun _ h => h.2.2.2.2.2.1⟩

/-! ## The payload of `configure_device` -/

theorem exists_twenty_bytes (l : List Nat) (h : 20 ≤ l.length) :
    ∃ b0 b1 b2 b3 b4 b5 b6 b7 b8 b9 c0 c1 c2 c3 c4 c5 c6 c7 c8 c9 rest,
      l = b0 :: b1 :: b2 :: b3 :: b4 :: b5 :: b6 :: b7 :: b8 :: b9
        :: c0 :: c1 :: c2 :: c3 :: c4 :: c5 :: c6 :: c7 :: c8 :: c9 :: rest := by
  obtain ⟨b0, b1, b2, b3, b4, b5, b6, b7, b8, b9, tail, rfl⟩ :=
    exists_ten_bytes l (by omega)
  obtain ⟨c0, c1, c2, c3, c4, c5, c6, c7, c8, c9, rest, rfl⟩ :=
    exists_ten_bytes tail (by simp at h; omega)
  exact ⟨_, _, _, _, _, _, _, _, _, _, _, _, _, _, _, _, _, _, _, _, _, rfl⟩

set_option maxRecDepth 8000 in
/-- Claim C22 fails as stated: `configure_device` takes an IP address and a
port and no MAC address, and the six bytes it copies to `mac_address` are the
constant CF 8B C1 B5 B8 0D, not, say, the MAC 02 00 00 00 00 01 a caller may
want.  With the pointer `prepare_payload<NetworkConfig>()` returns as the code
stands, the call transmits nothing at all. -/
theorem configure_device_MAC_is_constant :
    NetworkProgrammer.configured_mac = [0xCF, 0x8B, 0xC1, 0xB5, 0xB8, 0x0D]
    ∧ NetworkProgrammer.configured_mac ≠ [2, 0, 0, 0, 0, 1]
    ∧ (((NetworkProgrammer.fill_NetworkConfig
          ((TransmitBuffer.construct (List.replicate 128 0)).prepare_payload
            Protocol.sizeof_NetworkConfig Protocol.OP_NET_CONFIG).2
          (Pointer.element Protocol.sizeof_RequestHeader) 0x0500000A).2.data.1.drop 10).take 6
        = [0xCF, 0x8B, 0xC1, 0xB5, 0xB8, 0x0D])
    ∧ ((sample_session [1, 7, 2, 0, 0, 0, 4, 0, 0, 16]).configure_device
        (sample_environment []) sample_registry 0x0500000A 666).2.1._socket.sent = [] := by
  refine ⟨rfl, by decide, rfl, rfl⟩

/-- Claim C22, amended.  `configure_device(ip_address, port)` takes no MAC
address from its caller.  Through a payload pointer that addresses the byte
behind the request header, the statements with which it fills the payload in
leave, in the frame the next `data()` returns: the request header with
operation NetConfig, then the six bytes CF 8B C1 B5 B8 0D of the constant
`mac`, then the four bytes of the caller's `ip_address` as the `uint32_t` lies
in memory (least significant byte first on the little-endian machine), with no
byte swap; twenty bytes in all. -/
theorem configure_device_fills_payload (tx : TransmitBuffer) (ip_address : Nat)
    (hreach : tx.reachable) (hip : ip_address < 2 ^ 32) :
    (NetworkProgrammer.fill_NetworkConfig
        (tx.prepare_payload Protocol.sizeof_NetworkConfig Protocol.OP_NET_CONFIG).2
        (Pointer.element Protocol.sizeof_RequestHeader) ip_address).1 = .ok ()
    ∧ (NetworkProgrammer.fill_NetworkConfig
        (tx.prepare_payload Protocol.sizeof_NetworkConfig Protocol.OP_NET_CONFIG).2
        (Pointer.element Protocol.sizeof_RequestHeader) ip_address).2.data.1.length = 20
    ∧ (NetworkProgrammer.fill_NetworkConfig
        (tx.prepare_payload Protocol.sizeof_NetworkConfig Protocol.OP_NET_CONFIG).2
        (Pointer.element Protocol.sizeof_RequestHeader) ip_address).2.data.1.take 4
      = [1, (tx.get_sequence + 1) % 256, Protocol.OP_NET_CONFIG, 0]
    ∧ ((NetworkProgrammer.fill_NetworkConfig
        (tx.prepare_payload Protocol.sizeof_NetworkConfig Protocol.OP_NET_CONFIG).2
        (Pointer.element Protocol.sizeof_RequestHeader) ip_address).2.data.1.drop 10).take 6
      = [0xCF, 0x8B, 0xC1, 0xB5, 0xB8, 0x0D]
    ∧ (NetworkProgrammer.fill_NetworkConfig
        (tx.prepare_payload Protocol.sizeof_NetworkConfig Protocol.OP_NET_CONFIG).2
        (Pointer.element Protocol.sizeof_RequestHeader) ip_address).2.data.1.drop 16
      = Protocol.object_representation .little 4 ip_address
    ∧ Protocol.object_value .little (Protocol.object_representation .little 4 ip_address)
      = ip_address := by
  obtain ⟨hl, hv, hs⟩ := TransmitBuffer.reachable_header tx hreach
  obtain ⟨b0, b1, b2, b3, b4, b5, b6, b7, b8, b9, c0, c1, c2, c3, c4, c5, c6, c7, c8, c9,
    rest, hb⟩ := exists_twenty_bytes tx._buffer (by omega)
  have hm : ip_address % 2 ^ 32 = ip_address := Nat.mod_eq_of_lt hip
  have hip' : ip_address < 4294967296 := by norm_num at hip; exact hip
  simp only [Protocol.Header.version, Protocol.Header.status, hb, Protocol.VERSION,
    Protocol.STATUS_REQUEST, List.getD_cons_zero, List.getD_cons_succ] at hv hs
  subst hv hs
  simp only [NetworkProgrammer.fill_NetworkConfig, TransmitBuffer.store,
    TransmitBuffer.prepare_payload, TransmitBuffer.data, TransmitBuffer.get_sequence,
    Protocol.Header.seq, hb, hm, native32_bytes, NetworkProgrammer.configured_mac,
    Protocol.sizeof_RequestHeader, Protocol.sizeof_NetworkConfig, Protocol.OP_NET_CONFIG,
    Protocol.object_representation, Protocol.le_bytes_four]
  have hback := Protocol.object_value_representation_four .little ip_address hip'
  simp only [Protocol.object_representation, Protocol.le_bytes_four] at hback
  refine ⟨trivial, ?_, ?_, ?_, ?_, hback⟩
  · simp [overwrite]
  · simp [overwrite]
  · simp [overwrite]
  · simp [overwrite]

set_option maxRecDepth 8000 in
/-- Instance of the amended C22: a freshly constructed buffer whose array held
0xCD everywhere, and the address 10.0.0.5 as `s_addr` holds it on the
little-endian machine (0x0500000A).  The frame is the header 01 CE 01 00 and
its six untouched bytes, the MAC CF 8B C1 B5 B8 0D, and the bytes 0A 00 00 05. -/
theorem configure_device_fills_payload_witness :
    (TransmitBuffer.construct (List.replicate 128 205)).reachable
    ∧ (0x0500000A : Nat) < 2 ^ 32
    ∧ ((NetworkProgrammer.fill_NetworkConfig
        ((TransmitBuffer.construct (List.replicate 128 205)).prepare_payload
          Protocol.sizeof_NetworkConfig Protocol.OP_NET_CONFIG).2
        (Pointer.element Protocol.sizeof_RequestHeader) 0x0500000A).2.data.1.drop 10).take 6
      = [0xCF, 0x8B, 0xC1, 0xB5, 0xB8, 0x0D]
    ∧ (NetworkProgrammer.fill_NetworkConfig
        ((TransmitBuffer.construct (List.replicate 128 205)).prepare_payload
          Protocol.sizeof_NetworkConfig Protocol.OP_NET_CONFIG).2
        (Pointer.element Protocol.sizeof_RequestHeader) 0x0500000A).2.data.1
      = [1, 206, 1, 0, 205, 205, 205, 205, 205, 205,
          0xCF, 0x8B, 0xC1, 0xB5, 0xB8, 0x0D, 10, 0, 0, 5] :=
  have hreach : (TransmitBuffer.construct (List.replicate 128 205)).reachable :=
    TransmitBuffer.reachable.constructed _ (List.length_replicate _ _)
  have h := configure_device_fills_payload
    (TransmitBuffer.construct (List.replicate 128 205)) 0x0500000A hreach (by decide)
  ⟨hreach, by decide, h.2.2.2.1, rfl⟩


/-! ## Replies that are never accepted, and the deadline of an attempt -/

/-- An attempt whose first pass is ready and makes `process` throw ends
`communicate` with that failure. -/
theorem NetworkProgrammer.communicate_first_pass_raises (np : NetworkProgrammer)
    (env : Environment) (step : PollStep) (rest : List PollStep) (failure : Failure)
    (hsend : env.sendto_errors.headD false = false) (hpolls : env.polls = step :: rest)
    (hready : step.ready = true)
    (hprocess : (np.after_send.process step.incoming).1 = .error failure) :
    (np.communicate env).1 = .error failure
    ∧ (np.communicate env).2.1._socket.sent.length = np._socket.sent.length + 1 := by
  have hd : env.deadline > env.clock := by
    unfold Environment.deadline NetworkProgrammer.TIMEOUT steady_clock.ticks_per_millisecond
    omega
  have hw := NetworkProgrammer.wait_reply_raised env.deadline np.after_send env.clock step rest
    hd hready failure hprocess
  have hat := NetworkProgrammer.attempt_sent np env hsend
  rw [hpolls, hw] at hat
  unfold NetworkProgrammer.communicate
  rw [NetworkProgrammer.communicate_from_raised 2 _ _ _ _ failure hat]
  refine ⟨rfl, ?_⟩
  have hk := (NetworkProgrammer.process_keeps np.after_send step.incoming).2.1
  simp only [hk, NetworkProgrammer.after_send_sent, List.length_append, List.length_singleton]

/-- Claim C33.  A reply with the protocol version, the sequence and the
operation of the request and the status Request makes `process()` throw the
`ETarget` for that status; it does not return Done (nor any other result).
When such a reply is the first datagram of an attempt, `communicate()` ends
with that error after the one transmission, not with success. -/
theorem process_rejects_status_Request (np : NetworkProgrammer) (d : List Nat)
    (source : sockaddr_in) (hlen : Protocol.sizeof_ReplyHeader ≤ d.length)
    (hcap : d.length ≤ ReceiveBuffer.capacity)
    (hver : Protocol.Header.version d = Protocol.VERSION)
    (hseq : Protocol.Header.seq d = np._tx_buf.get_sequence)
    (hop : Protocol.Header.operation d = np._tx_buf.get_operation)
    (hstatus : Protocol.Header.status d = Protocol.STATUS_REQUEST) :
    (np.process (.datagram d source)).1
      = .error (.exception (ETarget.ETarget Protocol.STATUS_REQUEST))
    ∧ (∀ result, (np.process (.datagram d source)).1 ≠ .ok result)
    ∧ (ETarget.ETarget Protocol.STATUS_REQUEST)._status = some Protocol.STATUS_REQUEST
    ∧ ∀ (session : NetworkProgrammer) (env : Environment) (step : PollStep)
        (rest : List PollStep),
        np = session.after_send → env.sendto_errors.headD false = false →
        env.polls = step :: rest → step.ready = true →
        step.incoming = .datagram d source →
        (session.communicate env).1
          = .error (.exception (ETarget.ETarget Protocol.STATUS_REQUEST))
        ∧ (session.communicate env).1 ≠ .ok () := by
  have hp : (np.process (.datagram d source)).1
      = .error (.exception (ETarget.ETarget Protocol.STATUS_REQUEST)) := by
    rw [NetworkProgrammer.process_datagram np d source hlen hcap]
    simp [hver, hseq, hop, hstatus, Protocol.STATUS_REQUEST, Protocol.STATUS_OK,
      Protocol.STATUS_INPROGRESS]
  refine ⟨hp, (fun result h => by rw [hp] at h; cases h), rfl, ?_⟩
  intro session env step rest hnp hsend hpolls hready hincoming
  subst hnp
  rw [← hincoming] at hp
  have hc := (NetworkProgrammer.communicate_first_pass_raises session env step rest _
    hsend hpolls hready hp).1
  exact ⟨hc, fun h => by rw [hc] at h; cases h⟩

set_option maxRecDepth 4000 in
/-- Instance of C33: a Read request sent with sequence 8 is answered by the
datagram 01 08 02 00 (version, the sequence, Read, status Request):
`communicate()` ends with the `ETarget` for status 0. -/
theorem process_rejects_status_Request_witness :
    Protocol.Header.status [1, 8, 2, 0] = Protocol.STATUS_REQUEST
    ∧ ((sample_session [1, 7, 2, 0, 0, 0, 4, 0, 0, 16]).communicate
        (sample_environment [reply_pass [1, 8, 2, 0] sample_source 500])).1
      = .error (.exception (ETarget.ETarget Protocol.STATUS_REQUEST)) :=
  ⟨rfl,
    ((process_rejects_status_Request (sample_session [1, 7, 2, 0, 0, 0, 4, 0, 0, 16]).after_send
      [1, 8, 2, 0] sample_source (by decide) (by decide) rfl rfl rfl rfl).2.2.2
      (sample_session [1, 7, 2, 0, 0, 0, 4, 0, 0, 16])
      (sample_environment [reply_pass [1, 8, 2, 0] sample_source 500])
      (reply_pass [1, 8, 2, 0] sample_source 500) [] rfl rfl rfl rfl rfl).1⟩

/-! ## A failed handshake -/

/-- When its `communicate` fails, `process_discover` ends with that failure and
leaves the bootloader identity and the descriptor binding as they were. -/
theorem NetworkProgrammer.process_discover_failed (np : NetworkProgrammer) (env : Environment)
    (find : Nat → Option DeviceDescriptor) (op : Nat) (failure : Failure)
    (h : (np.communicate env).1 = .error failure) :
    (np.process_discover env find op).1 = .error failure
    ∧ (np.process_discover env find op).2.1._bootloader = np._bootloader
    ∧ (np.process_discover env find op).2.1._dev_desc = np._dev_desc
    ∧ (np.process_discover env find op).2.1._socket.broadcast = false := by
  have hid := NetworkProgrammer.communicate_from_keeps_identity 3 np env
  rcases hcom : np.communicate env with ⟨result, np₁, env₁⟩
  have hcom' := hcom
  unfold NetworkProgrammer.communicate at hcom'
  rw [hcom'] at hid
  rw [hcom] at h
  simp only at h
  subst h
  simp only [NetworkProgrammer.process_discover, hcom]
  exact ⟨trivial, hid.1, hid.2, rfl⟩

/-- The function `set_address` leaves the bootloader identity and the
descriptor binding alone. -/
theorem NetworkProgrammer.set_address_identity (np : NetworkProgrammer) (address port : Nat) :
    (np.set_address address port)._bootloader = np._bootloader
    ∧ (np.set_address address port)._dev_desc = np._dev_desc := by
  unfold NetworkProgrammer.set_address
  split <;> exact ⟨rfl, rfl⟩

/-- As the code stands, `configure_device` ends in its first store through the
pointer `prepare_payload<NetworkConfig>()` returned, before `communicate()`;
the bootloader identity and the descriptor binding are as they were. -/
theorem NetworkProgrammer.configure_device_identity (np : NetworkProgrammer)
    (env : Environment) (find : Nat → Option DeviceDescriptor) (ip_address port : Nat) :
    (np.configure_device env find ip_address port).2.1._bootloader = np._bootloader
    ∧ (np.configure_device env find ip_address port).2.1._dev_desc = np._dev_desc := by
  have hs := NetworkProgrammer.set_address_identity np INADDR_BROADCAST port
  simp only [NetworkProgrammer.configure_device, NetworkProgrammer.fill_NetworkConfig,
    TransmitBuffer.prepare_payload, TransmitBuffer.store]
  exact hs

/-- The handler around a failed call: an `Exception` gets the context in
front of its message, every other failure passes. -/
theorem catch_prepend_exception_failed {α : Type}
    (outcome : Except Failure α × NetworkProgrammer × Environment) (context : String)
    (failure : Failure) (h : outcome.1 = .error failure) :
    (catch_prepend_exception outcome context).1
      = .error (failure.after_handler context) := by
  rcases outcome with ⟨result, np, env⟩
  simp only at h
  subst h
  cases failure <;> rfl

/-- Claim C36.  When `communicate()` fails inside a handshake, with whatever
failure, the handshake ends with that failure (behind the context text where
the function has a handler and the failure is an `Exception`), and
`_bootloader` and `_dev_desc` are exactly as before the call: so it is for
`process_discover` with every operation, for `discover_device` and for
`connect_device`.  `configure_device` leaves both unchanged as well. -/
theorem failed_handshake_keeps_binding (np : NetworkProgrammer) (env : Environment)
    (find : Nat → Option DeviceDescriptor) (failure : Failure)
    (h : (np.communicate env).1 = .error failure) :
    (∀ op, (np.process_discover env find op).1 = .error failure
      ∧ (np.process_discover env find op).2.1._bootloader = np._bootloader
      ∧ (np.process_discover env find op).2.1._dev_desc = np._dev_desc)
    ∧ (∀ (session : NetworkProgrammer) (port : Nat),
        np = { session.set_address INADDR_BROADCAST port with
                _tx_buf := (session.set_address INADDR_BROADCAST port)._tx_buf.select_operation
                  Protocol.OP_DISCOVER 0 0 } →
        (session.discover_device env find port).1 = .error failure
        ∧ (session.discover_device env find port).2.1._bootloader = session._bootloader
        ∧ (session.discover_device env find port).2.1._dev_desc = session._dev_desc)
    ∧ (∀ (session : NetworkProgrammer) (ip_address port : Nat),
        np = { session.set_address ip_address port with
                _tx_buf := (session.set_address ip_address port)._tx_buf.select_operation
                  Protocol.OP_DISCOVER 0 0 } →
        (session.connect_device env find ip_address port).1
            = .error (failure.after_handler "Unable to connect to a target.")
        ∧ (session.connect_device env find ip_address port).2.1._bootloader
            = session._bootloader
        ∧ (session.connect_device env find ip_address port).2.1._dev_desc = session._dev_desc)
    ∧ (∀ (session : NetworkProgrammer) (ip_address port : Nat),
        (session.configure_device env find ip_address port).2.1._bootloader
            = session._bootloader
        ∧ (session.configure_device env find ip_address port).2.1._dev_desc
            = session._dev_desc) := by
  refine ⟨fun op => ?_, ?_, ?_, ?_⟩
  · obtain ⟨h1, h2, h3, _⟩ := NetworkProgrammer.process_discover_failed np env find op failure h
    exact ⟨h1, h2, h3⟩
  · intro session port hnp
    obtain ⟨h1, h2, h3, _⟩ := NetworkProgrammer.process_discover_failed np env find
      Protocol.OP_DISCOVER failure h
    obtain ⟨s1, s2⟩ := NetworkProgrammer.set_address_identity session INADDR_BROADCAST port
    rw [hnp] at h1 h2 h3
    exact ⟨h1, h2.trans s1, h3.trans s2⟩
  · intro session ip_address port hnp
    obtain ⟨h1, h2, h3, _⟩ := NetworkProgrammer.process_discover_failed np env find
      Protocol.OP_DISCOVER failure h
    obtain ⟨s1, s2⟩ := NetworkProgrammer.set_address_identity session ip_address port
    rw [hnp] at h1 h2 h3
    unfold NetworkProgrammer.connect_device
    rw [catch_prepend_exception_state]
    exact ⟨catch_prepend_exception_failed _ _ failure h1, h2.trans s1, h3.trans s2⟩
  · intro session ip_address port
    exact NetworkProgrammer.configure_device_identity session env find ip_address port

set_option maxRecDepth 4000 in
/-- Instance of C36: a session bound to the sample device broadcasts a Discover
and nothing answers.  The call ends with the timeout error and the session is
still bound to the same descriptor, with the same bootloader identity. -/
theorem failed_handshake_keeps_binding_witness :
    ((bound_session [1, 7, 2, 0, 0, 0, 4, 0, 0, 16]).discover_device
        (sample_environment [silent_pass 250000000]) sample_registry 666).1
      = .error NetworkProgrammer.timeout_error
    ∧ ((bound_session [1, 7, 2, 0, 0, 0, 4, 0, 0, 16]).discover_device
        (sample_environment [silent_pass 250000000]) sample_registry 666).2.1._dev_desc
      = (bound_session [1, 7, 2, 0, 0, 0, 4, 0, 0, 16])._dev_desc
    ∧ (bound_session [1, 7, 2, 0, 0, 0, 4, 0, 0, 16])._dev_desc ≠ none :=
  have h := (failed_handshake_keeps_binding
    { (bound_session [1, 7, 2, 0, 0, 0, 4, 0, 0, 16]).set_address INADDR_BROADCAST 666 with
      _tx_buf := ((bound_session [1, 7, 2, 0, 0, 0, 4, 0, 0, 16]).set_address
        INADDR_BROADCAST 666)._tx_buf.select_operation Protocol.OP_DISCOVER 0 0 }
    (sample_environment [silent_pass 250000000]) sample_registry
    NetworkProgrammer.timeout_error rfl).2.1
    (bound_session [1, 7, 2, 0, 0, 0, 4, 0, 0, 16]) 666 rfl
  ⟨h.1, h.2.2, by decide⟩

/-! ## The length field of Read and Checksum requests -/

/-- The parameter `length` of `select_operation` is a `uint16_t`: only the
argument modulo 2^16 matters. -/
theorem TransmitBuffer.select_operation_length_mod (tx : TransmitBuffer)
    (op address length : Nat) :
    tx.select_operation op address (length % 2 ^ 16) = tx.select_operation op address length := by
  simp [TransmitBuffer.select_operation, Nat.mod_mod]

/-- The frame `data()` returns after `select_operation`, for every argument. -/
theorem TransmitBuffer.select_operation_data (tx : TransmitBuffer) (op address length : Nat)
    (hreach : tx.reachable) :
    (tx.select_operation op address length).data.1
      = [1, (tx.get_sequence + 1) % 256, op, 0] ++ Protocol.be32_bytes (address % 2 ^ 32)
          ++ Protocol.be16_bytes (length % 2 ^ 16) := by
  obtain ⟨hl, hv, hs⟩ := TransmitBuffer.reachable_header tx hreach
  obtain ⟨b0, b1, b2, b3, b4, b5, b6, b7, b8, b9, rest, hb⟩ :=
    exists_ten_bytes tx._buffer (by omega)
  simp only [Protocol.Header.version, Protocol.Header.status, hb, Protocol.VERSION,
    Protocol.STATUS_REQUEST, List.getD_cons_zero, List.getD_cons_succ] at hv hs
  simp only [TransmitBuffer.select_operation, TransmitBuffer.data, TransmitBuffer.get_sequence,
    Protocol.Header.seq, hb, Protocol.be32_bytes, Protocol.be16_bytes,
    Protocol.sizeof_RequestHeader]
  subst hv hs
  simp [overwrite]

/-- A retransmission differs from the frame before it in the sequence byte
only. -/
theorem TransmitBuffer.data_data_tail (tx : TransmitBuffer) :
    tx.data.2.data.1.drop 2 = tx.data.1.drop 2
    ∧ tx.data.2.data.1.length = tx.data.1.length := by
  constructor
  · apply List.ext_getElem?
    intro i
    simp only [TransmitBuffer.data, List.getElem?_drop, List.getElem?_take, List.getElem?_set]
    have h : ¬ (1 = 2 + i) := by omega
    simp [h]
  · simp [TransmitBuffer.data]

/-- On a bound session the object `read` leaves is the one its `communicate`
left. -/
theorem NetworkProgrammer.read_state (np : NetworkProgrammer) (env : Environment)
    (address size : Nat) (hbound : np._dev_desc ≠ none) :
    (np.read env address size).2.1
      = (NetworkProgrammer.communicate
          { np with _tx_buf := np._tx_buf.select_operation Protocol.OP_READ address size }
          env).2.1 := by
  have hc : np.check_connection = .ok () := by
    unfold NetworkProgrammer.check_connection
    cases hd : np._dev_desc with
    | none => exact absurd hd hbound
    | some d => rfl
  simp only [NetworkProgrammer.read, hc, TransmitBuffer.select_operation_length_mod]
  rcases NetworkProgrammer.communicate
    { np with _tx_buf := np._tx_buf.select_operation Protocol.OP_READ address size }
    env with ⟨result, np₂, env₂⟩
  cases result <;> rfl

/-- Claim C35.  `NetworkProgrammer::read(address, size)` and
`checksum(address, size)` depend on `size` through `size mod 65536` only: two
sizes that differ by a multiple of 65536 give the same call.  The first frame
either builds is version, sequence, operation, status Request, the address and
then the two bytes of `size mod 65536`, most significant first; the frames of
the second and third attempt repeat it from the operation byte on; and with
`sendto` succeeding the call transmits the first one, two or three of these
frames. -/
theorem request_length_is_size_mod_65536 (np : NetworkProgrammer) (env : Environment)
    (address size k : Nat) (hreach : np._tx_buf.reachable) (hbound : np._dev_desc ≠ none)
    (hsend : env.sends_succeed) :
    np.read env address (size + 65536 * k) = np.read env address size
    ∧ np.checksum env address (size + 65536 * k) = np.checksum env address size
    ∧ (∀ op, (np._tx_buf.select_operation op address size).data.1
          = [1, (np._tx_buf.get_sequence + 1) % 256, op, 0]
              ++ Protocol.be32_bytes (address % 2 ^ 32)
              ++ Protocol.be16_bytes (size % 65536)
        ∧ (np._tx_buf.select_operation op address size).data.2.data.1.drop 2
          = (np._tx_buf.select_operation op address size).data.1.drop 2
        ∧ (np._tx_buf.select_operation op address size).data.2.data.2.data.1.drop 2
          = (np._tx_buf.select_operation op address size).data.1.drop 2)
    ∧ (∃ n, 1 ≤ n ∧ n ≤ 3 ∧ (np.read env address size).2.1._socket.sent
        = np._socket.sent
          ++ ([(np._tx_buf.select_operation Protocol.OP_READ address size).data.1,
               (np._tx_buf.select_operation Protocol.OP_READ address size).data.2.data.1,
               (np._tx_buf.select_operation Protocol.OP_READ address size).data.2.data.2.data.1
              ].take n).map (fun frame => (frame, np._tx_address)))
    ∧ (∃ n, 1 ≤ n ∧ n ≤ 3 ∧ (np.checksum env address size).2.1._socket.sent
        = np._socket.sent
          ++ ([(np._tx_buf.select_operation Protocol.OP_CHECKSUM address size).data.1,
               (np._tx_buf.select_operation Protocol.OP_CHECKSUM address size).data.2.data.1,
               (np._tx_buf.select_operation Protocol.OP_CHECKSUM address size
                ).data.2.data.2.data.1
              ].take n).map (fun frame => (frame, np._tx_address))) := by
  have hmod : (size + 65536 * k) % 2 ^ 16 = size % 2 ^ 16 := by
    norm_num [Nat.add_mul_mod_self_left]
  refine ⟨?_, ?_, fun op => ⟨?_, ?_, ?_⟩, ?_, ?_⟩
  · simp only [NetworkProgrammer.read, hmod]
  · have hsel : np._tx_buf.select_operation Protocol.OP_CHECKSUM address (size + 65536 * k)
        = np._tx_buf.select_operation Protocol.OP_CHECKSUM address size := by
      rw [← TransmitBuffer.select_operation_length_mod, hmod,
        TransmitBuffer.select_operation_length_mod]
    simp only [NetworkProgrammer.checksum, hsel]
  · exact TransmitBuffer.select_operation_data np._tx_buf op address size hreach
  · exact (TransmitBuffer.data_data_tail _).1
  · rw [(TransmitBuffer.data_data_tail _).1, (TransmitBuffer.data_data_tail _).1]
  · rw [NetworkProgrammer.read_state np env address size hbound]
    exact NetworkProgrammer.communicate_sent
      { np with _tx_buf := np._tx_buf.select_operation Protocol.OP_READ address size } env hsend
  · rw [NetworkProgrammer.checksum_state np env address size]
    exact NetworkProgrammer.communicate_sent
      { np with _tx_buf := np._tx_buf.select_operation Protocol.OP_CHECKSUM address size }
      env hsend

set_option maxRecDepth 4000 in
/-- Instance of C35: on a fresh bound session `checksum(1024, 65536)` is the
call `checksum(1024, 0)`, and its first frame is 01 01 08 00 00 00 04 00 00 00,
with length field 0. -/
theorem request_length_is_size_mod_65536_witness :
    fresh_session._tx_buf.reachable
    ∧ fresh_session._dev_desc ≠ none
    ∧ (sample_environment [silent_pass 250000000]).sends_succeed
    ∧ fresh_session.checksum (sample_environment [silent_pass 250000000]) 1024 (0 + 65536 * 1)
      = fresh_session.checksum (sample_environment [silent_pass 250000000]) 1024 0
    ∧ (fresh_session._tx_buf.select_operation Protocol.OP_CHECKSUM 1024 65536).data.1
      = [1, 1, 8, 0, 0, 0, 4, 0, 0, 0] :=
  have hreach : fresh_session._tx_buf.reachable :=
    TransmitBuffer.reachable.constructed _ (List.length_replicate _ _)
  have hbound : fresh_session._dev_desc ≠ none := by decide
  have hsend : (sample_environment [silent_pass 250000000]).sends_succeed :=
    fun _ h => absurd h (List.not_mem_nil _)
  ⟨hreach, hbound, hsend,
    (request_length_is_size_mod_65536 fresh_session
      (sample_environment [silent_pass 250000000]) 1024 0 1 hreach hbound hsend).2.1,
    rfl⟩

/-! ## Version and status of every frame sent -/

/-- An attempt whose `sendto` throws leaves the log of datagrams as it was and
the transmit buffer as `data()` left it. -/
theorem NetworkProgrammer.attempt_send_failed_state (np : NetworkProgrammer)
    (env : Environment) (hsend : env.sendto_errors.headD false = true) :
    (np.attempt env).2.1._socket.sent = np._socket.sent
    ∧ (np.attempt env).2.1._tx_buf = np._tx_buf.data.2
    ∧ ∃ failure, (np.attempt env).1 = Attempted.send_failed failure := by
  unfold NetworkProgrammer.attempt
  simp only [hsend, SocketUDP.sendto, if_true]
  exact ⟨trivial, trivial, _, rfl⟩

/-- The frame `data()` returns from a buffer the program can hold, when it has
at least the four leading header bytes, carries the protocol version and the
status Request. -/
theorem TransmitBuffer.data_header (tx : TransmitBuffer) (hreach : tx.reachable)
    (hsize : 4 ≤ tx._size) :
    Protocol.Header.version tx.data.1 = Protocol.VERSION
    ∧ Protocol.Header.status tx.data.1 = Protocol.STATUS_REQUEST := by
  obtain ⟨hl, hv, hs⟩ := TransmitBuffer.reachable_header tx hreach
  have h0 : 0 < tx._size := by omega
  have h3 : 3 < tx._size := by omega
  constructor
  · simpa [TransmitBuffer.data, Protocol.Header.version, List.getD_eq_getElem?_getD,
      List.getElem?_take, List.getElem?_set, h0] using hv
  · simpa [TransmitBuffer.data, Protocol.Header.status, List.getD_eq_getElem?_getD,
      List.getElem?_take, List.getElem?_set, h3] using hs

/-- Every datagram `communicate` adds to the log carries the protocol version
and the status Request. -/
theorem NetworkProgrammer.communicate_from_frames (remaining : Nat) :
    ∀ (np : NetworkProgrammer) (env : Environment),
      np._tx_buf.reachable → 4 ≤ np._tx_buf._size →
      ∀ entry ∈ (NetworkProgrammer.communicate_from remaining np env).2.1._socket.sent,
        entry ∈ np._socket.sent
        ∨ (Protocol.Header.version entry.1 = Protocol.VERSION
          ∧ Protocol.Header.status entry.1 = Protocol.STATUS_REQUEST) := by
  induction remaining with
  | zero => intro np env _ _ entry h; exact Or.inl h
  | succ n ih =>
    intro np env hreach hsize entry hentry
    have hframe := TransmitBuffer.data_header np._tx_buf hreach hsize
    have hstep : (∀ e ∈ (np.attempt env).2.1._socket.sent,
          e ∈ np._socket.sent
          ∨ (Protocol.Header.version e.1 = Protocol.VERSION
            ∧ Protocol.Header.status e.1 = Protocol.STATUS_REQUEST))
        ∧ (np.attempt env).2.1._tx_buf = np._tx_buf.data.2 := by
      cases hsend : env.sendto_errors.headD false with
      | true =>
        obtain ⟨h1, h2, _⟩ := NetworkProgrammer.attempt_send_failed_state np env hsend
        exact ⟨fun e he => Or.inl (h1 ▸ he), h2⟩
      | false =>
        have hside := NetworkProgrammer.attempt_transmits_once np env (by
          intro failure
          rw [NetworkProgrammer.attempt_sent np env hsend]
          cases (np.after_send.wait_reply env.deadline env.clock env.polls).1 <;>
            simp [Waited.attempted])
        refine ⟨fun e he => ?_, hside.1⟩
        rw [hside.2.1, NetworkProgrammer.after_send_sent, List.mem_append,
          List.mem_singleton] at he
        rcases he with he | he
        · exact Or.inl he
        · right; rw [he]; exact hframe
    rcases hat : np.attempt env with ⟨outcome, np₁, env₁⟩
    rw [hat] at hstep
    obtain ⟨hsent, htx⟩ := hstep
    cases outcome with
    | send_failed failure =>
      rw [NetworkProgrammer.communicate_from_send_failed n _ _ _ _ _ hat] at hentry
      exact hsent entry hentry
    | raised failure =>
      rw [NetworkProgrammer.communicate_from_raised n _ _ _ _ _ hat] at hentry
      exact hsent entry hentry
    | done =>
      rw [NetworkProgrammer.communicate_from_done n _ _ _ _ hat] at hentry
      exact hsent entry hentry
    | expired =>
      rw [NetworkProgrammer.communicate_from_expired n _ _ _ _ hat] at hentry
      have hreach₁ : np₁._tx_buf.reachable := by
        have : np₁._tx_buf = np._tx_buf.data.2 := htx
        rw [this]; exact TransmitBuffer.reachable.data _ hreach
      have hsize₁ : 4 ≤ np₁._tx_buf._size := by
        have : np₁._tx_buf = np._tx_buf.data.2 := htx
        rw [this]; exact hsize
      rcases ih np₁ env₁ hreach₁ hsize₁ entry hentry with h | h
      · exact hsent entry h
      · exact Or.inr h

/-- Claim C31.  The constructor of the transmit buffer leaves version 1 and
status Request in the header; in every buffer the program can hold both fields
have these values, and `select_operation`, `prepare_payload<T>` and `data()`
leave them so.  Every frame `data()` returns with at least the four leading
bytes carries them, and so does every datagram a call of `communicate()` hands
to the socket, in particular after `select_operation`, which is how `read`,
`erase`, `reset`, `checksum` and the Discover handshakes build their request. -/
theorem transmit_header_invariant (tx : TransmitBuffer) (hreach : tx.reachable) :
    (∀ indeterminate : List Nat, indeterminate.length = 128 →
      Protocol.Header.version (TransmitBuffer.construct indeterminate)._buffer = 1
      ∧ Protocol.Header.status (TransmitBuffer.construct indeterminate)._buffer = 0)
    ∧ (Protocol.Header.version tx._buffer = 1 ∧ Protocol.Header.status tx._buffer = 0)
    ∧ (∀ op address length,
        Protocol.Header.version (tx.select_operation op address length)._buffer = 1
        ∧ Protocol.Header.status (tx.select_operation op address length)._buffer = 0)
    ∧ (∀ sizeof_T operation,
        Protocol.Header.version (tx.prepare_payload sizeof_T operation).2._buffer = 1
        ∧ Protocol.Header.status (tx.prepare_payload sizeof_T operation).2._buffer = 0)
    ∧ (Protocol.Header.version tx.data.2._buffer = 1
        ∧ Protocol.Header.status tx.data.2._buffer = 0)
    ∧ (4 ≤ tx._size →
        Protocol.Header.version tx.data.1 = 1 ∧ Protocol.Header.status tx.data.1 = 0)
    ∧ (∀ (np : NetworkProgrammer) (env : Environment), np._tx_buf = tx → 4 ≤ tx._size →
        ∀ entry ∈ (np.communicate env).2.1._socket.sent,
          entry ∈ np._socket.sent
          ∨ (Protocol.Header.version entry.1 = 1 ∧ Protocol.Header.status entry.1 = 0))
    ∧ (∀ (np : NetworkProgrammer) (env : Environment) (op address length : Nat),
        np._tx_buf = tx →
        ∀ entry ∈ (NetworkProgrammer.communicate
            { np with _tx_buf := tx.select_operation op address length } env).2.1._socket.sent,
          entry ∈ np._socket.sent
          ∨ (Protocol.Header.version entry.1 = 1 ∧ Protocol.Header.status entry.1 = 0))
    ∧ Protocol.VERSION = 1 ∧ Protocol.STATUS_REQUEST = 0 := by
  have hinv : ∀ t : TransmitBuffer, t.reachable →
      Protocol.Header.version t._buffer = 1 ∧ Protocol.Header.status t._buffer = 0 :=
    fun t ht => (TransmitBuffer.reachable_header t ht).2
  refine ⟨fun indeterminate hlength =>
      hinv _ (TransmitBuffer.reachable.constructed indeterminate hlength),
    hinv tx hreach,
    fun op address length => hinv _ (TransmitBuffer.reachable.select_operation tx _ _ _ hreach),
    fun sizeof_T operation =>
      hinv _ (TransmitBuffer.reachable.prepare_payload tx _ _ hreach),
    hinv _ (TransmitBuffer.reachable.data tx hreach),
    fun hsize => TransmitBuffer.data_header tx hreach hsize, ?_, ?_, rfl, rfl⟩
  · intro np env hnp hsize entry hentry
    subst hnp
    exact NetworkProgrammer.communicate_from_frames 3 np env hreach hsize entry hentry
  · intro np env op address length hnp entry hentry
    subst hnp
    exact NetworkProgrammer.communicate_from_frames 3
      { np with _tx_buf := np._tx_buf.select_operation op address length } env
      (TransmitBuffer.reachable.select_operation _ _ _ _ hreach)
      (by simp [TransmitBuffer.select_operation, Protocol.sizeof_RequestHeader]) entry hentry

set_option maxRecDepth 4000 in
/-- Instance of C31: a fresh bound session reads 128 bytes at 1024 and nothing
answers.  Three datagrams go out, with sequences 1, 2 and 3, each with version
1 and status 0. -/
theorem transmit_header_invariant_witness :
    fresh_session._tx_buf.reachable
    ∧ (fresh_session.read (sample_environment [silent_pass 250000000]) 1024 128
        ).2.1._socket.sent.map Prod.fst
      = [[1, 1, 2, 0, 0, 0, 4, 0, 0, 128], [1, 2, 2, 0, 0, 0, 4, 0, 0, 128],
         [1, 3, 2, 0, 0, 0, 4, 0, 0, 128]]
    ∧ ∀ entry ∈ (NetworkProgrammer.communicate
          { fresh_session with
            _tx_buf := fresh_session._tx_buf.select_operation Protocol.OP_READ 1024 128 }
          (sample_environment [silent_pass 250000000])).2.1._socket.sent,
        entry ∈ fresh_session._socket.sent
        ∨ (Protocol.Header.version entry.1 = 1 ∧ Protocol.Header.status entry.1 = 0) :=
  have hreach : fresh_session._tx_buf.reachable :=
    TransmitBuffer.reachable.constructed _ (List.length_replicate _ _)
  ⟨hreach, rfl,
    (transmit_header_invariant fresh_session._tx_buf hreach).2.2.2.2.2.2.2.1
      fresh_session (sample_environment [silent_pass 250000000]) Protocol.OP_READ 1024 128
      rfl⟩

/-! ## The Write request -/

theorem overwrite_eq (buffer : List Nat) (start : Nat) (bytes : List Nat)
    (h : start + bytes.length ≤ buffer.length) :
    overwrite buffer start bytes
      = buffer.take start ++ bytes ++ buffer.drop (start + bytes.length) := by
  unfold overwrite
  apply List.take_of_length_le
  simp only [List.length_append, List.length_take, List.length_drop]
  omega

theorem overwrite_payload (B X Y : List Nat) (s : Nat) (hB : B.length = 128)
    (hX : X.length = 4) (hY : Y.length = 64) :
    ((((overwrite (overwrite B 10 X) 14 Y).set 1 s).take 78).drop 10) = X ++ Y
    ∧ (((overwrite (overwrite B 10 X) 14 Y).set 1 s).take 78).length = 78 := by
  have h1 : overwrite B 10 X = B.take 10 ++ X ++ B.drop 14 := by
    rw [overwrite_eq _ _ _ (by omega), hX]
  have h2 : (overwrite B 10 X).length = 128 := by
    rw [h1]; simp [hB, hX]
  have h3 : overwrite (overwrite B 10 X) 14 Y = (B.take 10 ++ X) ++ Y ++ B.drop 78 := by
    rw [overwrite_eq _ _ _ (by omega), hY, h1]
    have ht : (B.take 10 ++ X ++ B.drop 14).take 14 = B.take 10 ++ X := by
      apply List.take_left'
      simp [hB, hX]
    have hd : (B.take 10 ++ X ++ B.drop 14).drop 78 = B.drop 78 := by
      rw [List.drop_append_eq_append_drop]
      simp [hB, hX]
    rw [ht, hd]
  rw [h3]
  have hset : ((B.take 10 ++ X ++ Y ++ B.drop 78).set 1 s)
      = (B.take 10).set 1 s ++ X ++ Y ++ B.drop 78 := by
    rw [List.append_assoc, List.append_assoc, List.set_append_left _ _ (by simp [hB])]
    simp [List.append_assoc]
  rw [hset]
  have ht78 : ((B.take 10).set 1 s ++ X ++ Y ++ B.drop 78).take 78
      = (B.take 10).set 1 s ++ X ++ Y := by
    apply List.take_left'
    simp [hB, hX, hY]
  rw [ht78]
  constructor
  · rw [List.append_assoc]
    apply List.drop_left'
    simp [hB]
  · simp [hB, hX, hY]

/-- The frame the statements of `write` build through a payload pointer that
addresses the byte behind the request header: 78 bytes, operation Write, and
behind the header the address most significant byte first and the first 64
bytes of the caller's buffer. -/
theorem NetworkProgrammer.fill_Write_frame (tx : TransmitBuffer) (address : Nat)
    (buffer : List Nat) (hreach : tx.reachable) (hbuffer : 64 ≤ buffer.length) :
    (NetworkProgrammer.fill_Write
        (tx.prepare_payload Protocol.sizeof_Write Protocol.OP_WRITE).2
        (Pointer.element Protocol.sizeof_RequestHeader) address buffer).1 = .ok ()
    ∧ (NetworkProgrammer.fill_Write
        (tx.prepare_payload Protocol.sizeof_Write Protocol.OP_WRITE).2
        (Pointer.element Protocol.sizeof_RequestHeader) address buffer).2.data.1.length = 78
    ∧ (NetworkProgrammer.fill_Write
        (tx.prepare_payload Protocol.sizeof_Write Protocol.OP_WRITE).2
        (Pointer.element Protocol.sizeof_RequestHeader) address buffer).2.data.1.drop 10
      = Protocol.be32_bytes (address % 2 ^ 32) ++ buffer.take 64 := by
  obtain ⟨hl, _, _⟩ := TransmitBuffer.reachable_header tx hreach
  have hnot : ¬ buffer.length < 64 := by omega
  simp only [NetworkProgrammer.fill_Write, TransmitBuffer.store, TransmitBuffer.prepare_payload,
    if_neg hnot, TransmitBuffer.data, Protocol.sizeof_RequestHeader, Protocol.sizeof_Write,
    Nat.add_zero]
  obtain ⟨hp, hlen⟩ := overwrite_payload (tx._buffer.set 2 Protocol.OP_WRITE)
    (Protocol.be32_bytes (address % 2 ^ 32)) (buffer.take 64)
    ((Protocol.Header.seq (overwrite (overwrite (tx._buffer.set 2 Protocol.OP_WRITE) 10
      (Protocol.be32_bytes (address % 2 ^ 32))) 14 (buffer.take 64)) + 1) % 256)
    (by rw [List.length_set, hl]) (by simp [Protocol.be32_bytes])
    (by rw [List.length_take]; omega)
  exact ⟨trivial, hlen, hp⟩

/-- Claim C34, evaluated on the code: on a connected session
`NetworkProgrammer::write` transmits nothing.  `prepare_payload<Write>()`
returns a pointer made from the value of the byte behind the header, the store
`write->address = address` through it is undefined, and the call ends there:
the log of datagrams and the environment are as before, and the transmit
buffer is sized for a Write frame that is never filled in. -/
theorem write_stores_through_wild_pointer (np : NetworkProgrammer) (env : Environment)
    (address : Nat) (buffer : List Nat) (hbound : np._dev_desc ≠ none) :
    (np.write env address buffer).1
      = .error (.undefined "store through a pointer made from a byte value")
    ∧ (np.write env address buffer).2.1._socket.sent = np._socket.sent
    ∧ (np.write env address buffer).2.2 = env
    ∧ (np.write env address buffer).2.1._tx_buf
      = (np._tx_buf.prepare_payload Protocol.sizeof_Write Protocol.OP_WRITE).2
    ∧ (np._tx_buf.prepare_payload Protocol.sizeof_Write Protocol.OP_WRITE).1
      = Pointer.from_integer (np._tx_buf._buffer.getD Protocol.sizeof_RequestHeader 0) := by
  have hc : np.check_connection = .ok () := by
    unfold NetworkProgrammer.check_connection
    cases hd : np._dev_desc with
    | none => exact absurd hd hbound
    | some d => rfl
  simp only [NetworkProgrammer.write, NetworkProgrammer.fill_Write, hc,
    TransmitBuffer.prepare_payload, TransmitBuffer.store]
  exact ⟨trivial, trivial, trivial, trivial, trivial⟩

/-- The failing input of C34: a session bound to the sample device writes 128
bytes at address 1152 while the device would answer at once.  The call ends in
the undefined store and no datagram has gone out. -/
theorem write_stores_through_wild_pointer_witness :
    (bound_session [1, 7, 2, 0, 0, 0, 4, 0, 0, 16])._dev_desc ≠ none
    ∧ ((bound_session [1, 7, 2, 0, 0, 0, 4, 0, 0, 16]).write
        (sample_environment [reply_pass [1, 8, 3, 1] sample_source 500])
        1152 (List.replicate 128 170)).1
      = .error (.undefined "store through a pointer made from a byte value")
    ∧ ((bound_session [1, 7, 2, 0, 0, 0, 4, 0, 0, 16]).write
        (sample_environment [reply_pass [1, 8, 3, 1] sample_source 500])
        1152 (List.replicate 128 170)).2.1._socket.sent = [] :=
  have h := write_stores_through_wild_pointer (bound_session [1, 7, 2, 0, 0, 0, 4, 0, 0, 16])
    (sample_environment [reply_pass [1, 8, 3, 1] sample_source 500])
    1152 (List.replicate 128 170) (by decide)
  ⟨by decide, h.1, h.2.1⟩

/-! ## The deadline of an attempt and InProgress replies -/

/-- Passes that are not read, ignored or answered with ExtendTime, and that
together last until the deadline or longer: the inner loop ends at the
deadline, whatever stands behind them in the list stays unread, and the send
side of the object is untouched. -/
theorem NetworkProgrammer.wait_reply_harmless_expires (deadline : Nat) (tail : List PollStep)
    (quiet : List PollStep) :
    ∀ (np : NetworkProgrammer) (now : Nat), (∀ step ∈ quiet, step.harmless np) →
      deadline ≤ now + PollStep.total_elapsed quiet →
      (np.wait_reply deadline now (quiet ++ tail)).1 = Waited.expired
      ∧ (∃ unread, (np.wait_reply deadline now (quiet ++ tail)).2.2.2 = unread ++ tail)
      ∧ deadline ≤ (np.wait_reply deadline now (quiet ++ tail)).2.2.1 := by
  induction quiet with
  | nil =>
    intro np now _ hd
    simp only [PollStep.total_elapsed, List.map_nil, List.sum_nil, Nat.add_zero] at hd
    cases tail with
    | nil =>
      simp only [List.append_nil, NetworkProgrammer.wait_reply]
      exact ⟨trivial, ⟨[], rfl⟩, le_max_right _ _⟩
    | cons s r =>
      rw [List.nil_append, NetworkProgrammer.wait_reply_late deadline np now s r (by omega)]
      exact ⟨rfl, ⟨[], rfl⟩, hd⟩
  | cons q qs ih =>
    intro np now hq hd
    rw [PollStep.total_elapsed_cons] at hd
    rw [List.cons_append]
    by_cases hnow : deadline > now
    · have hqs : ∀ (np' : NetworkProgrammer), np'._tx_buf = np._tx_buf →
          ∀ step ∈ qs, step.harmless np' := fun np' htx step hstep =>
        PollStep.harmless_congr np np' step htx.symm (hq step (List.mem_cons_of_mem _ hstep))
      cases hr : q.ready with
      | false =>
        rw [NetworkProgrammer.wait_reply_skip deadline np now q (qs ++ tail) hnow hr]
        exact ih np (now + q.elapsed) (hqs np rfl) (by omega)
      | true =>
        rw [NetworkProgrammer.wait_reply_continue deadline np now q (qs ++ tail) hnow hr
          (hq q (List.mem_cons_self _ _) hr)]
        exact ih _ (now + q.elapsed)
          (hqs _ (NetworkProgrammer.process_keeps np q.incoming).1) (by omega)
    · rw [NetworkProgrammer.wait_reply_late deadline np now q (qs ++ tail) hnow]
      exact ⟨rfl, ⟨q :: qs, rfl⟩, by simp only; omega⟩

/-- An InProgress reply to a Read, Write, Erase, EraseWrite, ChipErase or
Checksum request, with the protocol version, the sequence and the operation
of the request, is answered by `process` with ExtendTime. -/
theorem NetworkProgrammer.process_extend_time (np : NetworkProgrammer) (d : List Nat)
    (source : sockaddr_in) (hlen : Protocol.sizeof_ReplyHeader ≤ d.length)
    (hcap : d.length ≤ ReceiveBuffer.capacity)
    (hver : Protocol.Header.version d = Protocol.VERSION)
    (hseq : Protocol.Header.seq d = np._tx_buf.get_sequence)
    (hop : Protocol.Header.operation d = np._tx_buf.get_operation)
    (hstatus : Protocol.Header.status d = Protocol.STATUS_INPROGRESS)
    (hmem : np._tx_buf.get_operation ∈ [Protocol.OP_READ, Protocol.OP_WRITE,
      Protocol.OP_ERASE, Protocol.OP_ERASE_WRITE, Protocol.OP_CHIP_ERASE,
      Protocol.OP_CHECKSUM]) :
    (np.process (.datagram d source)).1 = .ok Result.ExtendTime := by
  rw [NetworkProgrammer.process_datagram np d source hlen hcap]
  have hin : Protocol.STATUS_INPROGRESS ≠ Protocol.STATUS_OK := by decide
  simp only [List.mem_cons, List.mem_singleton, List.not_mem_nil, or_false] at hmem
  rw [← hop] at hmem
  simp only [hver, hseq, hop, hstatus, hin, ne_eq, not_true_eq_false, if_false, if_true]
  rw [← hop]
  rcases hmem with h | h | h | h | h | h <;> simp [h]

/-- Claim C32.  The deadline of an attempt is the clock reading taken after
`sendto` plus 100 ms, and a pass at which `process()` returns ExtendTime
continues the inner loop with that same deadline, by the very step a pass
with an ignored datagram takes.  An InProgress reply with the sequence and
operation of the request is such a pass.  So when the passes up to the
deadline are only unread, ignored or InProgress ones, the attempt ends at the
deadline, what arrives later stays unread by it, and `communicate()` goes on
as after a silent attempt: it retransmits with the next sequence value, and
after the third such attempt it throws the timeout error, three datagrams
having been sent. -/
theorem InProgress_keeps_deadline (np : NetworkProgrammer) (env : Environment) :
    (NetworkProgrammer.TIMEOUT = 100
      ∧ env.deadline
          = env.clock + NetworkProgrammer.TIMEOUT * steady_clock.ticks_per_millisecond)
    ∧ (∀ (waiting : NetworkProgrammer) (deadline now : Nat) (step : PollStep)
        (rest : List PollStep), deadline > now → step.ready = true →
        ((waiting.process step.incoming).1 = .ok Result.Ignore
          ∨ (waiting.process step.incoming).1 = .ok Result.ExtendTime) →
        waiting.wait_reply deadline now (step :: rest)
          = (waiting.process step.incoming).2.wait_reply deadline (now + step.elapsed) rest)
    ∧ (∀ (step : PollStep) (d : List Nat) (source : sockaddr_in),
        step.incoming = .datagram d source →
        Protocol.sizeof_ReplyHeader ≤ d.length → d.length ≤ ReceiveBuffer.capacity →
        Protocol.Header.version d = Protocol.VERSION →
        Protocol.Header.seq d = np.after_send._tx_buf.get_sequence →
        Protocol.Header.operation d = np.after_send._tx_buf.get_operation →
        Protocol.Header.status d = Protocol.STATUS_INPROGRESS →
        np.after_send._tx_buf.get_operation ∈ [Protocol.OP_READ, Protocol.OP_WRITE,
          Protocol.OP_ERASE, Protocol.OP_ERASE_WRITE, Protocol.OP_CHIP_ERASE,
          Protocol.OP_CHECKSUM] →
        (np.after_send.process step.incoming).1 = .ok Result.ExtendTime
        ∧ step.harmless np.after_send)
    ∧ (∀ (quiet tail : List PollStep), env.sendto_errors.headD false = false →
        env.polls = quiet ++ tail → (∀ step ∈ quiet, step.harmless np.after_send) →
        NetworkProgrammer.TIMEOUT * steady_clock.ticks_per_millisecond
          ≤ PollStep.total_elapsed quiet →
        (np.attempt env).1 = Attempted.expired
        ∧ (∃ unread, (np.attempt env).2.2.polls = unread ++ tail)
        ∧ env.deadline ≤ (np.attempt env).2.2.clock)
    ∧ (∀ (np₁ : NetworkProgrammer) (env₁ : Environment),
        np.attempt env = (Attempted.expired, np₁, env₁) →
        np.communicate env = NetworkProgrammer.communicate_from 2 np₁ env₁
        ∧ np₁._tx_buf = np._tx_buf.data.2
        ∧ np₁._socket.sent = np._socket.sent ++ [(np._tx_buf.data.1, np._tx_address)]
        ∧ np₁._tx_buf.get_sequence = np.after_send._tx_buf.get_sequence)
    ∧ (∀ (np₁ np₂ np₃ : NetworkProgrammer) (env₁ env₂ env₃ : Environment),
        np.attempt env = (Attempted.expired, np₁, env₁) →
        np₁.attempt env₁ = (Attempted.expired, np₂, env₂) →
        np₂.attempt env₂ = (Attempted.expired, np₃, env₃) →
        np.communicate env = (.error NetworkProgrammer.timeout_error, np₃, env₃)
        ∧ np₃._socket.sent.length = np._socket.sent.length + 3) := by
  have hexp : ∀ f, Attempted.expired ≠ Attempted.send_failed f := fun _ h => by cases h
  refine ⟨⟨rfl, rfl⟩, ?_, ?_, ?_, ?_, ?_⟩
  · intro waiting deadline now step rest hd hready hverdict
    exact NetworkProgrammer.wait_reply_continue deadline waiting now step rest hd hready hverdict
  · intro step d source hincoming hlen hcap hver hseq hop hstatus hmem
    have hp := NetworkProgrammer.process_extend_time np.after_send d source hlen hcap hver
      hseq hop hstatus hmem
    rw [← hincoming] at hp
    exact ⟨hp, fun _ => Or.inr hp⟩
  · intro quiet tail hsend hpolls hquiet htime
    rw [NetworkProgrammer.attempt_sent np env hsend, hpolls]
    obtain ⟨h1, h2, h3⟩ := NetworkProgrammer.wait_reply_harmless_expires env.deadline tail
      quiet np.after_send env.clock hquiet (by unfold Environment.deadline; omega)
    refine ⟨?_, h2, h3⟩
    simp only [h1, Waited.attempted]
  · intro np₁ env₁ h₁
    have hside := NetworkProgrammer.attempt_transmits_once np env (by rw [h₁]; exact hexp)
    rw [h₁] at hside
    refine ⟨?_, hside.1, ?_, ?_⟩
    · unfold NetworkProgrammer.communicate
      rw [NetworkProgrammer.communicate_from_expired 2 _ _ _ _ h₁]
    · have := congrArg SocketUDP.sent hside.2.1
      exact this
    · have : np₁._tx_buf = np.after_send._tx_buf := hside.1
      rw [this]
  · intro np₁ np₂ np₃ env₁ env₂ env₃ h₁ h₂ h₃
    constructor
    · unfold NetworkProgrammer.communicate
      rw [NetworkProgrammer.communicate_from_expired 2 _ _ _ _ h₁,
        NetworkProgrammer.communicate_from_expired 1 _ _ _ _ h₂,
        NetworkProgrammer.communicate_from_expired 0 _ _ _ _ h₃]
      rfl
    · rw [NetworkProgrammer.attempt_sent_length np₂ np₃ env₂ env₃ _ h₃ hexp,
        NetworkProgrammer.attempt_sent_length np₁ np₂ env₁ env₂ _ h₂ hexp,
        NetworkProgrammer.attempt_sent_length np np₁ env env₁ _ h₁ hexp]

set_option maxRecDepth 8000 in
/-- Instance of C32: a Read request sent with sequence 8.  An InProgress reply
arrives after 60 ms, the next `poll` times out 40 ms later, at the deadline,
and the Ok reply to sequence 8 arrives after that.  The first attempt ends at
its deadline with the Ok reply unread; the second attempt ignores it as
stale, and the call ends with the timeout error after three transmissions. -/
theorem InProgress_keeps_deadline_witness :
    ((sample_session [1, 7, 2, 0, 0, 0, 4, 0, 0, 16]).attempt
        (sample_environment [reply_pass [1, 8, 2, 2] sample_source 60000000,
          silent_pass 40000000,
          reply_pass [1, 8, 2, 1, 170, 187, 204, 221] sample_source 10000000,
          silent_pass 250000000, silent_pass 250000000])).1 = Attempted.expired
    ∧ ((sample_session [1, 7, 2, 0, 0, 0, 4, 0, 0, 16]).attempt
        (sample_environment [reply_pass [1, 8, 2, 2] sample_source 60000000,
          silent_pass 40000000,
          reply_pass [1, 8, 2, 1, 170, 187, 204, 221] sample_source 10000000,
          silent_pass 250000000, silent_pass 250000000])).2.2.polls
      = [reply_pass [1, 8, 2, 1, 170, 187, 204, 221] sample_source 10000000,
          silent_pass 250000000, silent_pass 250000000]
    ∧ ((sample_session [1, 7, 2, 0, 0, 0, 4, 0, 0, 16]).communicate
        (sample_environment [reply_pass [1, 8, 2, 2] sample_source 60000000,
          silent_pass 40000000,
          reply_pass [1, 8, 2, 1, 170, 187, 204, 221] sample_source 10000000,
          silent_pass 250000000, silent_pass 250000000])).1
      = .error NetworkProgrammer.timeout_error
    ∧ ((sample_session [1, 7, 2, 0, 0, 0, 4, 0, 0, 16]).communicate
        (sample_environment [reply_pass [1, 8, 2, 2] sample_source 60000000,
          silent_pass 40000000,
          reply_pass [1, 8, 2, 1, 170, 187, 204, 221] sample_source 10000000,
          silent_pass 250000000, silent_pass 250000000])).2.1._socket.sent.length = 3 :=
  have hquiet : ∀ step ∈ [reply_pass [1, 8, 2, 2] sample_source 60000000,
      silent_pass 40000000],
      step.harmless (sample_session [1, 7, 2, 0, 0, 0, 4, 0, 0, 16]).after_send := by
    intro step hmem
    simp only [List.mem_cons, List.mem_singleton, List.not_mem_nil, or_false] at hmem
    rcases hmem with h | h
    · subst h; exact fun _ => Or.inr rfl
    · subst h; intro hready; cases hready
  ⟨((InProgress_keeps_deadline (sample_session [1, 7, 2, 0, 0, 0, 4, 0, 0, 16])
      (sample_environment [reply_pass [1, 8, 2, 2] sample_source 60000000,
        silent_pass 40000000,
        reply_pass [1, 8, 2, 1, 170, 187, 204, 221] sample_source 10000000,
        silent_pass 250000000, silent_pass 250000000])).2.2.2.1
      [reply_pass [1, 8, 2, 2] sample_source 60000000, silent_pass 40000000]
      [reply_pass [1, 8, 2, 1, 170, 187, 204, 221] sample_source 10000000,
        silent_pass 250000000, silent_pass 250000000]
      rfl rfl hquiet (by decide)).1,
    rfl, rfl, rfl⟩


/-! ## The display frame buffer: the effect of `set` -/

/-- A load after a store into an existing byte: the stored value at the same
place, the old byte elsewhere. -/
theorem FrameBuffer.load_store (fb : FrameBuffer) (bank index value bank' index' : Nat)
    (hbank : bank < fb._request.frame.length)
    (hindex : index < (fb._request.frame.getD bank []).length) :
    (fb.store bank index value).load bank' index'
      = if bank' = bank ∧ index' = index then value else fb.load bank' index' := by
  unfold FrameBuffer.load FrameBuffer.store
  simp only [List.getD_eq_getElem?_getD, List.getElem?_set]
  by_cases hb : bank = bank'
  · subst hb
    simp only [hbank, if_true, Option.getD_some, List.getElem?_set, true_and]
    by_cases hi : index = index'
    · subst hi
      simp only [List.getD_eq_getElem?_getD] at hindex
      simp [hindex]
    · simp [hi, Ne.symm hi]
  · simp [hb, Ne.symm hb]

/-- Each of the four frames of a well-formed request holds eight bytes, each
below 256. -/
theorem FrameBuffer.well_formed_frame (fb : FrameBuffer) (bank : Nat) (h : fb.well_formed)
    (hbank : bank < 4) :
    bank < fb._request.frame.length ∧ (fb._request.frame.getD bank []).length = 8
      ∧ ∀ byte ∈ fb._request.frame.getD bank [], byte < 256 := by
  obtain ⟨h4, h8⟩ := h
  have hb : bank < fb._request.frame.length := by omega
  refine ⟨hb, ?_⟩
  rw [List.getD_eq_getElem _ _ hb]
  exact h8 _ (List.getElem_mem _)

/-- A store of a byte value keeps the request well formed. -/
theorem FrameBuffer.store_well_formed (fb : FrameBuffer) (bank index value : Nat)
    (h : fb.well_formed) (hvalue : value < 256) : (fb.store bank index value).well_formed := by
  refine ⟨by simp [FrameBuffer.store, h.1], ?_⟩
  intro frame hframe
  simp only [FrameBuffer.store] at hframe
  rcases List.mem_or_eq_of_mem_set hframe with hm | he
  · exact h.2 frame hm
  · by_cases hb : bank < 4
    · obtain ⟨_, hl, hbytes⟩ := FrameBuffer.well_formed_frame fb bank h hb
      rw [he, List.length_set]
      refine ⟨hl, fun byte hbyte => ?_⟩
      rcases List.mem_or_eq_of_mem_set hbyte with hm | hv
      · exact hbytes byte hm
      · omega
    · have hlen : fb._request.frame.length ≤ bank := by have := h.1; omega
      rw [List.set_eq_of_length_le hlen] at hframe
      exact h.2 frame hframe

/-- The bits of `byte & ~mask` for the mask of bit `i`, after the conversion to
`uint8_t`. -/
theorem clear_testBit (byte i j : Nat) (hi : i < 8) (hj : j < 8) :
    ((byte &&& (2 ^ 32 - 1 - (1 <<< i) % 256)) % 256).testBit j
      = (decide (j ≠ i) && byte.testBit j) := by
  have hm : (1 <<< i) % 256 = 2 ^ i := by
    rw [Nat.one_shiftLeft]
    exact Nat.mod_eq_of_lt (by
      calc 2 ^ i < 2 ^ 8 := Nat.pow_lt_pow_right (by decide) hi
        _ = 256 := by norm_num)
  have hp : 2 ^ 32 - 1 - 2 ^ i = 2 ^ 32 - (2 ^ i + 1) := by omega
  have hlt : 2 ^ i < 2 ^ 32 := Nat.pow_lt_pow_right (by decide) (by omega)
  rw [hm, hp, show (256 : Nat) = 2 ^ 8 by norm_num, Nat.testBit_mod_two_pow, Nat.testBit_land,
    Nat.testBit_two_pow_sub_succ hlt, Nat.testBit_two_pow]
  have h32 : j < 32 := by omega
  simp [hj, h32]
  by_cases h : i = j
  · simp [h]
  · simp [h, Ne.symm h]

/-- The bits of `byte ^ mask` for the mask of bit `i`, after the conversion to
`uint8_t`. -/
theorem toggle_testBit (byte i j : Nat) (hi : i < 8) (hj : j < 8) :
    ((byte ^^^ (1 <<< i) % 256) % 256).testBit j = (byte.testBit j ^^ decide (i = j)) := by
  have hm : (1 <<< i) % 256 = 2 ^ i := by
    rw [Nat.one_shiftLeft]
    exact Nat.mod_eq_of_lt (by
      calc 2 ^ i < 2 ^ 8 := Nat.pow_lt_pow_right (by decide) hi
        _ = 256 := by norm_num)
  rw [hm, show (256 : Nat) = 2 ^ 8 by norm_num, Nat.testBit_mod_two_pow, Nat.testBit_xor,
    Nat.testBit_two_pow]
  simp [hj]

/-- The segment `k` of bank `bank` after a store into the byte `index`. -/
theorem FrameBuffer.segment_store (fb : FrameBuffer) (bank index value bank' k : Nat)
    (h : fb.well_formed) (hbank : bank < 4) (hindex : index < 8) :
    (fb.store bank index value).segment bank' k
      = if bank' = bank ∧ k / 8 = index then value.testBit (k % 8) else fb.segment bank' k := by
  obtain ⟨hb, hl, _⟩ := FrameBuffer.well_formed_frame fb bank h hbank
  unfold FrameBuffer.segment
  rw [FrameBuffer.load_store fb bank index value bank' (k / 8) hb (by omega)]
  split <;> rfl

/-- A store that changes one bit of a byte changes one segment. -/
theorem FrameBuffer.segment_store_bit (fb : FrameBuffer) (bank index p value : Nat)
    (bit_value : Bool) (h : fb.well_formed) (hbank : bank < 4) (hindex : index < 8) (hp : p < 8)
    (hvalue : ∀ j, j < 8 → value.testBit j
      = if j = p then bit_value else (fb.load bank index).testBit j)
    (bank' k : Nat) :
    (fb.store bank index value).segment bank' k
      = if bank' = bank ∧ k = 8 * index + p then bit_value else fb.segment bank' k := by
  rw [FrameBuffer.segment_store fb bank index value bank' k h hbank hindex]
  by_cases hb : bank' = bank
  · by_cases hi : k / 8 = index
    · rw [if_pos ⟨hb, hi⟩, hvalue _ (Nat.mod_lt _ (by decide))]
      by_cases hj : k % 8 = p
      · have hk : k = 8 * index + p := by omega
        rw [if_pos hj, if_pos ⟨hb, hk⟩]
      · have hk : ¬ k = 8 * index + p := by omega
        rw [if_neg hj, if_neg (fun hc => hk hc.2)]
        unfold FrameBuffer.segment
        rw [hb, hi]
    · have hk : ¬ k = 8 * index + p := by omega
      rw [if_neg (fun hc => hi hc.2), if_neg (fun hc => hk hc.2)]
  · rw [if_neg (fun hc => hb hc.1), if_neg (fun hc => hb hc.1)]

/-- The compound assignment on a byte of `data[7]` of one of the four frames
is defined. -/
theorem FrameBuffer.assign_ok (fb : FrameBuffer) (bank index : Nat) (f : Nat → Nat)
    (hbank : bank < 4) (hindex : index < 7) :
    fb.assign bank index f = .ok (fb.store bank index (f (fb.load bank index) % 256)) := by
  unfold FrameBuffer.assign
  rw [if_neg (by omega), if_neg (by omega)]

/-- After `set bit a x` with `bit < 208` the segment `bit % 52` of frame
`bit / 52` holds `(a && old) ^^ x`; every other segment and the count keep
their values. -/
theorem FrameBuffer.set_segment (fb : FrameBuffer) (bit : Nat) (a x : Bool)
    (h : fb.well_formed) (hbit : bit < 208) :
    ∃ fb', fb.set bit a x = .ok fb' ∧ fb'.well_formed
      ∧ fb'._request.count = fb._request.count
      ∧ ∀ bank k, fb'.segment bank k
          = if bank = bit / 52 ∧ k = bit % 52 then ((a && fb.segment bank k) ^^ x)
            else fb.segment bank k := by
  have hbank : bit / 52 < 4 := by omega
  have hindex : bit % 52 / 8 < 8 := by omega
  have hindex7 : bit % 52 / 8 < 7 := by omega
  have hpos : bit % 52 % 8 < 8 := by omega
  have hnot : ¬ 4 ≤ bit / 52 := by omega
  have hk : 8 * (bit % 52 / 8) + bit % 52 % 8 = bit % 52 := by omega
  have hseg : ∀ g : FrameBuffer, g.segment (bit / 52) (bit % 52)
      = (g.load (bit / 52) (bit % 52 / 8)).testBit (bit % 52 % 8) := fun g => rfl
  -- the byte with the bit cleared, and a byte with the bit inverted
  have hclear : ∀ g : FrameBuffer, g.well_formed → ∀ bank k,
      (g.store (bit / 52) (bit % 52 / 8)
        ((g.load (bit / 52) (bit % 52 / 8) &&& (2 ^ 32 - 1 - (1 <<< (bit % 52 % 8)) % 256))
          % 256)).segment bank k
      = if bank = bit / 52 ∧ k = bit % 52 then false else g.segment bank k := by
    intro g hg bank k
    rw [FrameBuffer.segment_store_bit g _ _ (bit % 52 % 8) _ false hg hbank hindex hpos
      (fun j hj => by
        rw [clear_testBit _ _ _ hpos hj]
        by_cases hjp : j = bit % 52 % 8 <;> simp [hjp]), hk]
  have htoggle : ∀ g : FrameBuffer, g.well_formed → ∀ bank k,
      (g.store (bit / 52) (bit % 52 / 8)
        ((g.load (bit / 52) (bit % 52 / 8) ^^^ (1 <<< (bit % 52 % 8)) % 256)
          % 256)).segment bank k
      = if bank = bit / 52 ∧ k = bit % 52 then !g.segment (bit / 52) (bit % 52)
        else g.segment bank k := by
    intro g hg bank k
    rw [FrameBuffer.segment_store_bit g _ _ (bit % 52 % 8) _
      (!g.segment (bit / 52) (bit % 52)) hg hbank hindex hpos
      (fun j hj => by
        rw [toggle_testBit _ _ _ hpos hj, hseg]
        by_cases hjp : j = bit % 52 % 8
        · subst hjp; simp
        · simp [hjp, Ne.symm hjp]), hk]
  cases a <;> cases x
  · refine ⟨fb.store (bit / 52) (bit % 52 / 8)
        ((fb.load (bit / 52) (bit % 52 / 8) &&& (2 ^ 32 - 1 - (1 <<< (bit % 52 % 8)) % 256))
          % 256),
      by simp [FrameBuffer.set, FrameBuffer.assign_ok _ _ _ _ hbank hindex7, bind, Except.bind, pure, Except.pure],
      FrameBuffer.store_well_formed fb _ _ _ h (Nat.mod_lt _ (by decide)), rfl, fun bank k => ?_⟩
    rw [hclear fb h]
    simp
  · have hw := FrameBuffer.store_well_formed fb (bit / 52) (bit % 52 / 8)
      ((fb.load (bit / 52) (bit % 52 / 8) &&& (2 ^ 32 - 1 - (1 <<< (bit % 52 % 8)) % 256))
        % 256) h (Nat.mod_lt _ (by decide))
    refine ⟨(fb.store (bit / 52) (bit % 52 / 8)
        ((fb.load (bit / 52) (bit % 52 / 8) &&& (2 ^ 32 - 1 - (1 <<< (bit % 52 % 8)) % 256))
          % 256)).store (bit / 52) (bit % 52 / 8)
        (((fb.store (bit / 52) (bit % 52 / 8)
          ((fb.load (bit / 52) (bit % 52 / 8) &&& (2 ^ 32 - 1 - (1 <<< (bit % 52 % 8)) % 256))
            % 256)).load (bit / 52) (bit % 52 / 8) ^^^ (1 <<< (bit % 52 % 8)) % 256) % 256),
      by simp [FrameBuffer.set, FrameBuffer.assign_ok _ _ _ _ hbank hindex7, bind, Except.bind, pure, Except.pure],
      FrameBuffer.store_well_formed _ _ _ _ hw (Nat.mod_lt _ (by decide)), rfl, fun bank k => ?_⟩
    rw [htoggle _ hw, hclear fb h, hclear fb h]
    by_cases hc : bank = bit / 52 ∧ k = bit % 52
    · simp [hc]
    · simp [hc]
  · refine ⟨fb, by simp [FrameBuffer.set, FrameBuffer.assign_ok _ _ _ _ hbank hindex7, bind, Except.bind, pure, Except.pure], h, rfl, fun bank k => ?_⟩
    simp
  · refine ⟨fb.store (bit / 52) (bit % 52 / 8)
        ((fb.load (bit / 52) (bit % 52 / 8) ^^^ (1 <<< (bit % 52 % 8)) % 256) % 256),
      by simp [FrameBuffer.set, FrameBuffer.assign_ok _ _ _ _ hbank hindex7, bind, Except.bind, pure, Except.pure],
      FrameBuffer.store_well_formed fb _ _ _ h (Nat.mod_lt _ (by decide)), rfl, fun bank k => ?_⟩
    rw [htoggle fb h]
    by_cases hc : bank = bit / 52 ∧ k = bit % 52
    · simp [hc]
    · simp [hc]

/-- C37: on a request of four frames of eight bytes and for a segment number
`bit` below 208, the byte index `bit % 52 / 8` is at most 6;
`set bit false v` returns and leaves bit `bit % 52` of frame `bit / 52` equal to
`v`; `set bit true true` returns and inverts that bit; `set bit true false`
returns the buffer as it was.  In each case every other bit of every frame (the
control bits 52..63 among them) and the frame count keep their values. -/
theorem FrameBuffer_set_effect (fb : FrameBuffer) (bit : Nat)
    (h : fb.well_formed) (hbit : bit < 208) :
    bit % 52 / 8 ≤ 6
    ∧ (∀ v : Bool, ∃ fb', fb.set bit false v = .ok fb'
        ∧ fb'.segment (bit / 52) (bit % 52) = v
        ∧ (∀ bank k, ¬ (bank = bit / 52 ∧ k = bit % 52) →
            fb'.segment bank k = fb.segment bank k)
        ∧ fb'._request.count = fb._request.count ∧ fb'.well_formed)
    ∧ (∃ fb', fb.set bit true true = .ok fb'
        ∧ fb'.segment (bit / 52) (bit % 52) = !fb.segment (bit / 52) (bit % 52)
        ∧ (∀ bank k, ¬ (bank = bit / 52 ∧ k = bit % 52) →
            fb'.segment bank k = fb.segment bank k)
        ∧ fb'._request.count = fb._request.count ∧ fb'.well_formed)
    ∧ fb.set bit true false = .ok fb := by
  refine ⟨by omega, fun v => ?_, ?_, ?_⟩
  · obtain ⟨fb', hset, hw, hcount, hseg⟩ := FrameBuffer.set_segment fb bit false v h hbit
    refine ⟨fb', hset, ?_, fun bank k hne => ?_, hcount, hw⟩
    · rw [hseg, if_pos ⟨rfl, rfl⟩]
      simp
    · rw [hseg, if_neg hne]
  · obtain ⟨fb', hset, hw, hcount, hseg⟩ := FrameBuffer.set_segment fb bit true true h hbit
    refine ⟨fb', hset, ?_, fun bank k hne => ?_, hcount, hw⟩
    · rw [hseg, if_pos ⟨rfl, rfl⟩]
      simp
    · rw [hseg, if_neg hne]
  · rfl

/-- The request the constructor leaves is well formed. -/
theorem FrameBuffer.constructed_well_formed : FrameBuffer.constructed.well_formed := by
  refine ⟨rfl, ?_⟩
  intro frame hframe
  simp only [FrameBuffer.constructed, List.mem_cons, List.mem_singleton, List.not_mem_nil,
    or_false] at hframe
  rcases hframe with h | h | h | h <;> subst h <;> exact ⟨rfl, by decide⟩

/-- Witness for C37: segment 101 of the constructed request is bit 1 of byte 6
of frame 1. -/
theorem FrameBuffer_set_effect_witness :
    FrameBuffer.constructed.well_formed ∧ 101 < 208
      ∧ FrameBuffer.constructed.set 101 false true
          = .ok { _request :=
              { count := 4,
                frame := [[0, 0, 0, 0, 0, 0, 0, 0x08], [0, 0, 0, 0, 0, 0, 0x02, 0x80],
                          [0, 0, 0, 0, 0, 0, 0, 0x40], [0, 0, 0, 0, 0, 0, 0, 0xC0]] } }
      ∧ 101 % 52 / 8 ≤ 6
      ∧ (∃ fb', FrameBuffer.constructed.set 101 true true = .ok fb'
          ∧ fb'.segment (101 / 52) (101 % 52)
              = !FrameBuffer.constructed.segment (101 / 52) (101 % 52)
          ∧ (∀ bank k, ¬ (bank = 101 / 52 ∧ k = 101 % 52) →
              fb'.segment bank k = FrameBuffer.constructed.segment bank k)
          ∧ fb'._request.count = FrameBuffer.constructed._request.count ∧ fb'.well_formed)
      ∧ FrameBuffer.constructed.set 101 true false = .ok FrameBuffer.constructed :=
  ⟨FrameBuffer.constructed_well_formed, by decide, rfl,
    (FrameBuffer_set_effect FrameBuffer.constructed 101 FrameBuffer.constructed_well_formed
      (by decide)).1,
    (FrameBuffer_set_effect FrameBuffer.constructed 101 FrameBuffer.constructed_well_formed
      (by decide)).2.2.1,
    (FrameBuffer_set_effect FrameBuffer.constructed 101 FrameBuffer.constructed_well_formed
      (by decide)).2.2.2⟩

end KokoProgrammer
